import Mathlib

/-!
# Wi-Fi MQTT client: supervisor, bring-up and teardown

A shallow embedding of `source/mqtt_task.c`, `source/subscriber_task.c`,
`source/publisher_task.c` and the checks of `source/mqtt_client_config.c`.

Conventions of the embedding:

* every call into a library (Wi-Fi connection manager, IoT SDK, MQTT library,
  FreeRTOS, `printf`) is recorded, in program order, as an `Event` in the
  `trace` field of the program `State`;
* what a library call returns is read from an `Env`, which also carries the
  build-time constants of the header `wifi_config.h`;
* result codes (`cy_rslt_t`, `IotMqttError_t`, `IotNetworkError_t`, `int`) are
  natural numbers, `0` being the success value of each of them;
* C strings and message payloads are sequences of byte values.
-/

namespace MqttClient

/-! ## Constants -/

/-- The macro `EXIT_SUCCESS` of `stdlib.h`. -/
def EXIT_SUCCESS : Nat := 0

/-- The macro `EXIT_FAILURE` of `stdlib.h`. -/
def EXIT_FAILURE : Nat := 1

/-- The macro `CY_RSLT_SUCCESS` of the connection manager. -/
def CY_RSLT_SUCCESS : Nat := 0

/-- The value `IOT_MQTT_SUCCESS` of the MQTT library. -/
def IOT_MQTT_SUCCESS : Nat := 0

/-- The macro `MQTT_STATUS_QUEUE_LENGTH`, `(1u)`. -/
def MQTT_STATUS_QUEUE_LENGTH : Nat := 1

/-- The macro `TASK_CREATION_DELAY_MS`, `(2000u)`. -/
def TASK_CREATION_DELAY_MS : Nat := 2000

/-- The macro `WCM_INITIALIZED`, `(1lu << 0)`. -/
def WCM_INITIALIZED : Nat := 1 <<< 0

/-- The macro `WIFI_CONNECTED`, `(1lu << 1)`. -/
def WIFI_CONNECTED : Nat := 1 <<< 1

/-- The macro `IOT_SDK_INITIALIZED`, `(1lu << 2)`. -/
def IOT_SDK_INITIALIZED : Nat := 1 <<< 2

/-- The macro `NETWORK_STACK_INITIALIZED`, `(1lu << 3)`. -/
def NETWORK_STACK_INITIALIZED : Nat := 1 <<< 3

/-- The macro `LIBS_INITIALIZED`, `(1lu << 4)`. -/
def LIBS_INITIALIZED : Nat := 1 <<< 4

/-- The macro `CONNECTION_ESTABLISHED`, `(1lu << 5)`. -/
def CONNECTION_ESTABLISHED : Nat := 1 <<< 5

/-- The macro `DEVICE_ON_STATE`, `(0x00lu)`. -/
def DEVICE_ON_STATE : Nat := 0

/-- The macro `DEVICE_OFF_STATE`, `(0x01lu)`. -/
def DEVICE_OFF_STATE : Nat := 1

/-- The macro `MQTT_CLIENT_IDENTIFIER_PREFIX`, the text `psoc6-mqtt-client`. -/
def MQTT_CLIENT_IDENTIFIER_PREFIX : List Nat :=
  "psoc6-mqtt-client".toList.map Char.toNat

/-- The macro `MQTT_CLIENT_IDENTIFIER_MAX_LEN`, `( 24 )`. -/
def MQTT_CLIENT_IDENTIFIER_MAX_LEN : Nat := 24

/-- The macro `MQTT_DEVICE_ON_MESSAGE`, the text `TURN ON`. -/
def MQTT_DEVICE_ON_MESSAGE : List Nat :=
  "TURN ON".toList.map Char.toNat

/-- The macro `MQTT_DEVICE_OFF_MESSAGE`, the text `TURN OFF`. -/
def MQTT_DEVICE_OFF_MESSAGE : List Nat :=
  "TURN OFF".toList.map Char.toNat

/-- The macro `MQTT_TOPIC`, the text `ledstatus`. -/
def MQTT_TOPIC : List Nat :=
  "ledstatus".toList.map Char.toNat

/-- The macro `MQTT_MESSAGES_QOS`, `( 1 )`. -/
def MQTT_MESSAGES_QOS : Int := 1

/-- The macro `MQTT_TIMEOUT_MS`, `( 5000 )`. -/
def MQTT_TIMEOUT_MS : Nat := 5000

/-- The macro `PUBLISH_RETRY_LIMIT`, `(10)`. -/
def PUBLISH_RETRY_LIMIT : Nat := 10

/-- The macro `PUBLISH_RETRY_MS`, `(1000)`. -/
def PUBLISH_RETRY_MS : Nat := 1000

/-- The width in bits of `long unsigned int` on the 32-bit Arm target. -/
def ULONG_WIDTH : Nat := 32

/-- Modelled from the spec: the enumeration `mqtt_result_t` of the header
`mqtt_task.h`, the failure signal with the three values publish failed,
subscribe failed and unexpected disconnect. -/
inductive mqtt_result_t
  | MQTT_SUBSCRIBE_FAILURE
  | MQTT_PUBLISH_FAILURE
  | MQTT_DISCONNECT
  deriving DecidableEq, Repr

/-- The version field of the address filled in by `cy_wcm_connect_ap`. -/
inductive cy_wcm_ip_version_t
  | CY_WCM_IP_VER_V4
  | CY_WCM_IP_VER_V6
  | other
  deriving DecidableEq, Repr

/-- The reason handed to the disconnect callback by the MQTT library. -/
inductive IotMqttDisconnectReason_t
  | IOT_MQTT_DISCONNECT_CALLED
  | IOT_MQTT_BAD_PACKET_RECEIVED
  | IOT_MQTT_KEEP_ALIVE_TIMEOUT
  deriving DecidableEq, Repr

/-- The fields of `IotMqttPublishInfo_t` that the application sets. -/
structure IotMqttPublishInfo_t where
  qos : Int
  pTopicName : List Nat
  topicNameLength : Nat
  retryMs : Nat
  retryLimit : Nat
  pPayload : List Nat
  payloadLength : Nat
  deriving DecidableEq, Repr

/-- The initial value of the LED pin handed to `cyhal_gpio_init`, by the name of
its macro; the macros belong to the board support package, which is not among
the sources, and their numerical values play no part. -/
inductive LedState
  | CYBSP_LED_STATE_ON
  | CYBSP_LED_STATE_OFF
  deriving DecidableEq, Repr

/-- The three tasks of the application. -/
inductive Task
  | mqtt_client_task
  | subscriber_task
  | publisher_task
  deriving DecidableEq, Repr

/-! ## Library primitives -/

/-- A FreeRTOS queue of `mqtt_result_t` items: its length `uxLength` and the
items waiting in it, oldest first. -/
structure Queue where
  uxLength : Nat
  items : List mqtt_result_t
  deriving DecidableEq, Repr

/-- The call `xQueueCreate(uxQueueLength, ...)`: an empty queue of that length. -/
def xQueueCreate (uxQueueLength : Nat) : Queue :=
  { uxLength := uxQueueLength, items := [] }

/-- The call `xQueueOverwrite`: the item is written even when the queue is full; it is
written at the read position, in place of the item waiting there if there is
one (FreeRTOS allows the call on queues of length one only). -/
def xQueueOverwrite (q : Queue) (item : mqtt_result_t) : Queue :=
  { q with items := item :: q.items.tail }

/-- The call `xQueueReceive` with `portMAX_DELAY`: the oldest item is removed and
returned; on an empty queue the caller stays blocked, which is `none`. -/
def xQueueReceive (q : Queue) : Option (mqtt_result_t × Queue) :=
  match q.items with
  | [] => none
  | item :: rest => some (item, { q with items := rest })

/-- The call `xTaskNotify(..., ulValue, eSetValueWithoutOverwrite)` on the notification
slot of a task: the value is stored unless a notification is already pending;
the second component is `pdPASS`. -/
def xTaskNotify_eSetValueWithoutOverwrite (pending : Option Nat) (ulValue : Nat) :
    Option Nat × Bool :=
  match pending with
  | some v => (some v, false)
  | none => (some ulValue, true)

/-- The function `strlen` on the contents of a character array: the number of bytes before
the first NUL. -/
def strlen (a : List Nat) : Nat :=
  (a.takeWhile (fun c => c ≠ 0)).length

/-- The memory a string literal occupies, as a map from offsets to bytes: its
characters, then the terminating NUL. -/
def literal (a : List Nat) : Nat → Nat :=
  fun i => a.getD i 0

/-- The call `strncmp(s1, s2, n)`: at most `n` bytes are compared, as unsigned bytes; the
comparison ends at the first difference or after a NUL. -/
def strncmp (s1 s2 : Nat → Nat) : Nat → Int
  | 0 => 0
  | n + 1 =>
    if s1 0 ≠ s2 0 then (s1 0 : Int) - (s2 0 : Int)
    else if s1 0 = 0 then 0
    else strncmp (fun i => s1 (i + 1)) (fun i => s2 (i + 1)) n

/-- The digits written by the conversion `%lu`, most significant first; `fuel`
bounds the number of digits. -/
def format_lu_aux : Nat → Nat → List Nat → List Nat
  | 0, _, acc => acc
  | fuel + 1, n, acc =>
    if n < 10 then (48 + n) :: acc
    else format_lu_aux fuel (n / 10) ((48 + n % 10) :: acc)

/-- The text of an unsigned integer under the conversion `%lu`. -/
def format_lu (n : Nat) : List Nat :=
  format_lu_aux (n + 1) n []

/-- The call `snprintf(buf, size, ...)` for a format whose complete output is `text`:
at most `size - 1` bytes of the text are stored, followed by a NUL, and the
length of the complete text is returned; when the library reports an error the
return value is negative. -/
def snprintf (buf : List Nat) (size : Nat) (text : List Nat) (error : Bool) :
    List Nat × Int :=
  if error then (buf, -1)
  else if size = 0 then (buf, (text.length : Int))
  else
    let stored := text.take (size - 1) ++ [0]
    (stored ++ buf.drop stored.length, (text.length : Int))

/-! ## Traces and environment -/

/-- One observable action of the program: a library call with what it returned,
or a line of diagnostics (its format string). -/
inductive Event
  | printf (format : String)
  | xQueueCreate (length : Nat)
  | cy_wcm_init (result : Nat)
  | cy_wcm_connect_ap (result : Nat)
  | vTaskDelay (ms : Nat)
  | IotSdk_Init (result : Bool)
  | IotNetworkSecureSockets_Init (result : Nat)
  | IotMqtt_Init (result : Nat)
  | IotClock_GetTimeMs (value : Nat)
  | IotMqtt_Connect (pClientIdentifier : List Nat) (clientIdentifierLength : Nat) (result : Nat)
  | IotMqtt_Disconnect
  | IotMqtt_Cleanup
  | IotNetworkSecureSockets_Cleanup (result : Nat)
  | IotSdk_Cleanup
  | cy_wcm_disconnect_ap (result : Nat)
  | cy_wcm_deinit (result : Nat)
  | xTaskCreate (task : Task) (pass : Bool)
  | xQueueReceive (item : mqtt_result_t)
  | xQueueOverwrite (item : mqtt_result_t)
  | IotMqtt_UnsubscribeSync (result : Nat)
  | publisher_cleanup
  | vTaskDelete (task : Task)
  | vTaskSuspend (task : Task)
  | xTaskNotify (task : Task) (ulValue : Nat) (pass : Bool)
  | cyhal_gpio_init_led (init_val : LedState)
  | cyhal_gpio_write_led (value : Nat)
  | cyhal_gpio_init_button
  | IotMqtt_SubscribeSync (result : Nat)
  | IotMqtt_PublishSync (publishInfo : IotMqttPublishInfo_t) (flags : Nat) (timeoutMs : Nat)
      (result : Nat)
  deriving DecidableEq, Repr

/-- The outcomes of the library calls made by `mqtt_client_task` and the
constants of the header `wifi_config.h`. -/
structure Env where
  /-- The constant `MAX_WIFI_CONN_RETRIES` of `wifi_config.h`, a value of the type
  `uint32_t` of the counter it is compared with. -/
  MAX_WIFI_CONN_RETRIES : Nat
  /-- The constant `WIFI_CONN_RETRY_INTERVAL_MS` of `wifi_config.h`. -/
  WIFI_CONN_RETRY_INTERVAL_MS : Nat
  cy_wcm_init : Nat
  /-- The result of the association attempt made with the given `retry_count`. -/
  cy_wcm_connect_ap : Nat → Nat
  ip_address_version : cy_wcm_ip_version_t
  IotSdk_Init : Bool
  IotNetworkSecureSockets_Init : Nat
  IotMqtt_Init : Nat
  IotClock_GetTimeMs : Nat
  /-- Whether `snprintf` reports an error (a negative return value). -/
  snprintf_error : Bool
  IotMqtt_Connect : Nat
  IotNetworkSecureSockets_Cleanup : Nat
  cy_wcm_disconnect_ap : Nat
  cy_wcm_deinit : Nat
  /-- Whether creating the subscriber task returns `pdPASS`. -/
  xTaskCreate_subscriber : Bool
  /-- Whether creating the publisher task returns `pdPASS`. -/
  xTaskCreate_publisher : Bool
  /-- The items the workers and the disconnect callback write to the status
  queue, in order, before the supervisor is woken to receive. -/
  status_sends : List mqtt_result_t
  IotMqtt_UnsubscribeSync : Nat

/-- The global variables of the program and the kernel objects it uses,
together with the trace of its actions. -/
structure State where
  /-- The variable `uint32_t init_flag`. -/
  init_flag : Nat
  /-- The variable `uint32_t current_device_state`. -/
  current_device_state : Nat
  /-- The variable `QueueHandle_t mqtt_status_q`, `none` while it is `NULL`. -/
  mqtt_status_q : Option Queue
  /-- Whether `subscriber_task_handle` is not `NULL`. -/
  subscriber_task_handle : Bool
  /-- Whether `publisher_task_handle` is not `NULL`. -/
  publisher_task_handle : Bool
  /-- The pending notification value of the subscriber task, if any. -/
  subscriber_notification : Option Nat
  /-- The pending notification value of the publisher task, if any. -/
  publisher_notification : Option Nat
  /-- The variable `IotMqttPublishInfo_t publishInfo` of `publisher_task.c`. -/
  publishInfo : IotMqttPublishInfo_t
  trace : List Event

/-- Append one action to the trace. -/
def State.emit (s : State) (e : Event) : State :=
  { s with trace := s.trace ++ [e] }

/-- The initialiser of the variable `publishInfo` of `publisher_task.c`; the
payload fields it does not name are zero. -/
def publishInfo_initializer : IotMqttPublishInfo_t :=
  { qos := MQTT_MESSAGES_QOS, pTopicName := MQTT_TOPIC,
    topicNameLength := (MQTT_TOPIC.length + 1) - 1,
    retryMs := PUBLISH_RETRY_MS, retryLimit := PUBLISH_RETRY_LIMIT,
    pPayload := [], payloadLength := 0 }

/-- The state at reset: zero-initialised globals, the initialisers of
`current_device_state` and `publishInfo`, nothing done yet. -/
def State.initial : State :=
  { init_flag := 0, current_device_state := DEVICE_OFF_STATE, mqtt_status_q := none,
    subscriber_task_handle := false, publisher_task_handle := false,
    subscriber_notification := none, publisher_notification := none,
    publishInfo := publishInfo_initializer, trace := [] }

/-! ## Bring-up: `mqtt_task.c` -/

/-- The macro `CHECK_RESULT(result, init_mask, error_message)`: on
`EXIT_SUCCESS` the mask is or-ed into `init_flag` and execution continues
(`none`); otherwise the message is printed and the enclosing function returns
`EXIT_FAILURE` (`some EXIT_FAILURE`). -/
def CHECK_RESULT (result : Nat) (init_mask : Nat) (error_message : String) (s : State) :
    Option Nat × State :=
  if result = EXIT_SUCCESS then
    (none, { s with init_flag := s.init_flag ||| init_mask })
  else
    (some EXIT_FAILURE, s.emit (.printf error_message))

/-- The association loop of `wifi_connect`,
`for (retry_count = 0; retry_count < MAX_WIFI_CONN_RETRIES; retry_count++)`,
entered with `remaining = MAX_WIFI_CONN_RETRIES - retry_count`; the statements
after the loop are its base case. -/
def wifi_connect_loop (env : Env) : (remaining : Nat) → (retry_count : Nat) → State → Nat × State
  | 0, _, s =>
    (EXIT_FAILURE, s.emit (.printf "Exceeded maximum Wi-Fi connection attempts\n\n"))
  | remaining + 1, retry_count, s =>
    let s := s.emit (.printf "Connecting to Wi-Fi AP '%s'\n")
    let result := env.cy_wcm_connect_ap retry_count
    let s := s.emit (.cy_wcm_connect_ap result)
    if result = CY_RSLT_SUCCESS then
      let s := s.emit (.printf "Successfully connected to Wi-Fi network '%s'.\n")
      let s := { s with init_flag := s.init_flag ||| WIFI_CONNECTED }
      let s :=
        if env.ip_address_version = .CY_WCM_IP_VER_V4 then
          s.emit (.printf "IPv4 Address Assigned: %s\n\n")
        else if env.ip_address_version = .CY_WCM_IP_VER_V6 then
          s.emit (.printf "IPv6 Address Assigned: %s\n\n")
        else s
      (EXIT_SUCCESS, s)
    else
      let s := s.emit (.printf
        "Connection to Wi-Fi network failed with error code 0x%0X. Retrying in %d ms...\n")
      let s := s.emit (.vTaskDelay env.WIFI_CONN_RETRY_INTERVAL_MS)
      wifi_connect_loop env remaining (retry_count + 1) s

/-- The function `wifi_connect`. -/
def wifi_connect (env : Env) (s : State) : Nat × State :=
  let result := env.cy_wcm_init
  let s := s.emit (.cy_wcm_init result)
  match CHECK_RESULT result WCM_INITIALIZED
      "\nWi-Fi Connection Manager initialization failed!\n" s with
  | (some ret, s) => (ret, s)
  | (none, s) =>
    let s := s.emit (.printf "\nWi-Fi Connection Manager initialized.\n")
    wifi_connect_loop env env.MAX_WIFI_CONN_RETRIES 0 s

/-- The function `mqtt_get_unique_client_identifier`: the prefix and the clock
reading, converted to `long unsigned int` and printed with `%lu`, are written
to the buffer with `snprintf`; the status is `EXIT_FAILURE` exactly when
`snprintf` returns a negative value. -/
def mqtt_get_unique_client_identifier (env : Env) (mqtt_client_identifier : List Nat)
    (s : State) : Nat × List Nat × State :=
  let s := s.emit (.IotClock_GetTimeMs env.IotClock_GetTimeMs)
  let r := snprintf mqtt_client_identifier MQTT_CLIENT_IDENTIFIER_MAX_LEN
    (MQTT_CLIENT_IDENTIFIER_PREFIX ++ format_lu (env.IotClock_GetTimeMs % 2 ^ ULONG_WIDTH))
    env.snprintf_error
  let status := if 0 > r.2 then EXIT_FAILURE else EXIT_SUCCESS
  (status, r.1, s)

/-- The function `mqtt_connect`. The user name and password it stores in
`connectionInfo` are constants and take no part in the control flow; the
client identifier and its length are carried by the `IotMqtt_Connect` event. -/
def mqtt_connect (env : Env) (s : State) : Nat × State :=
  let mqtt_client_identifier := List.replicate MQTT_CLIENT_IDENTIFIER_MAX_LEN 0
  let result := if !env.IotSdk_Init then EXIT_FAILURE else EXIT_SUCCESS
  let s := s.emit (.IotSdk_Init env.IotSdk_Init)
  match CHECK_RESULT result IOT_SDK_INITIALIZED "IoT SDK initialization failed!\n" s with
  | (some ret, s) => (ret, s)
  | (none, s) =>
  let s := s.emit (.printf "IoT SDK initialized successfully.\n")
  let result := env.IotNetworkSecureSockets_Init
  let s := s.emit (.IotNetworkSecureSockets_Init result)
  match CHECK_RESULT result NETWORK_STACK_INITIALIZED
      "Network stack initialization failed!\n" s with
  | (some ret, s) => (ret, s)
  | (none, s) =>
  let s := s.emit (.printf "Network stack initialized successfully.\n")
  let result := env.IotMqtt_Init
  let s := s.emit (.IotMqtt_Init result)
  match CHECK_RESULT result LIBS_INITIALIZED "MQTT library initialization failed!\n\n" s with
  | (some ret, s) => (ret, s)
  | (none, s) =>
  let s := s.emit (.printf "MQTT library initialization successful.\n\n")
  match mqtt_get_unique_client_identifier env mqtt_client_identifier s with
  | (result, mqtt_client_identifier, s) =>
  match CHECK_RESULT result 0
      "Failed to generate unique client identifier for the MQTT client!\n" s with
  | (some ret, s) => (ret, s)
  | (none, s) =>
  let clientIdentifierLength := strlen mqtt_client_identifier
  let s := s.emit (.printf "MQTT client '%.*s' connecting to MQTT broker '%s'...\n")
  let result := env.IotMqtt_Connect
  let s := s.emit (.IotMqtt_Connect mqtt_client_identifier clientIdentifierLength result)
  match CHECK_RESULT result CONNECTION_ESTABLISHED
      "MQTT connection failed with error '%s'!\n\n" s with
  | (some ret, s) => (ret, s)
  | (none, s) =>
  let s := s.emit (.printf "MQTT connection successful.\n\n")
  (EXIT_SUCCESS, s)

/-- The function `mqtt_disconnect_callback`: `MQTT_DISCONNECT` is written to
the status queue unless the reason is `IOT_MQTT_DISCONNECT_CALLED`. -/
def mqtt_disconnect_callback (disconnectReason : IotMqttDisconnectReason_t) (s : State) :
    State :=
  let mqtt_connection_status := mqtt_result_t.MQTT_DISCONNECT
  if disconnectReason ≠ .IOT_MQTT_DISCONNECT_CALLED then
    let s := s.emit (.printf "MQTT client disconnected unexpectedly!\n")
    let s := s.emit (.xQueueOverwrite mqtt_connection_status)
    { s with mqtt_status_q := s.mqtt_status_q.map (xQueueOverwrite · mqtt_connection_status) }
  else s

/-! ## `cleanup` -/

/-- The function `cleanup` of `mqtt_task.c`: each teardown call is guarded by
its bit of `init_flag`; only the result of `cy_wcm_disconnect_ap` is looked at,
and only to print a line. -/
def cleanup (env : Env) (s : State) : State :=
  let s := if s.init_flag &&& CONNECTION_ESTABLISHED ≠ 0 then
      (s.emit (.printf "Disconnecting from the MQTT Server...\n")).emit .IotMqtt_Disconnect
    else s
  let s := if s.init_flag &&& LIBS_INITIALIZED ≠ 0 then s.emit .IotMqtt_Cleanup else s
  let s := if s.init_flag &&& NETWORK_STACK_INITIALIZED ≠ 0 then
      s.emit (.IotNetworkSecureSockets_Cleanup env.IotNetworkSecureSockets_Cleanup)
    else s
  let s := if s.init_flag &&& IOT_SDK_INITIALIZED ≠ 0 then s.emit .IotSdk_Cleanup else s
  let s := if s.init_flag &&& WIFI_CONNECTED ≠ 0 then
      let s := s.emit (.cy_wcm_disconnect_ap env.cy_wcm_disconnect_ap)
      if env.cy_wcm_disconnect_ap = CY_RSLT_SUCCESS then
        s.emit (.printf "Disconnected from the Wi-Fi AP!\n")
      else s
    else s
  let s := if s.init_flag &&& WCM_INITIALIZED ≠ 0 then
      s.emit (.cy_wcm_deinit env.cy_wcm_deinit)
    else s
  s

/-! ## Workers and callbacks: `subscriber_task.c`, `publisher_task.c` -/

/-- The function `mqtt_unsubscribe`. -/
def mqtt_unsubscribe (env : Env) (s : State) : State :=
  let result := env.IotMqtt_UnsubscribeSync
  let s := s.emit (.IotMqtt_UnsubscribeSync result)
  if result ≠ IOT_MQTT_SUCCESS then
    s.emit (.printf "MQTT Unsubscribe operation failed with error '%s'!\n")
  else s

/-- The call `xTaskNotify(subscriber_task_handle, ulValue, eSetValueWithoutOverwrite)`. -/
def notify_subscriber (ulValue : Nat) (s : State) : State :=
  let r := xTaskNotify_eSetValueWithoutOverwrite s.subscriber_notification ulValue
  { s with subscriber_notification := r.1 }.emit (.xTaskNotify .subscriber_task ulValue r.2)

/-- The call `xTaskNotifyFromISR(publisher_task_handle, ulValue, eSetValueWithoutOverwrite, ...)`. -/
def notify_publisher (ulValue : Nat) (s : State) : State :=
  let r := xTaskNotify_eSetValueWithoutOverwrite s.publisher_notification ulValue
  { s with publisher_notification := r.1 }.emit (.xTaskNotify .publisher_task ulValue r.2)

/-- The function `mqtt_subscription_callback`, called with the payload pointer
(the bytes at offsets `0, 1, ...` from it) and `payloadLength` of the incoming
message. -/
def mqtt_subscription_callback (pPayload : Nat → Nat) (payloadLength : Nat) (s : State) :
    State :=
  let s := s.emit (.printf "Incoming MQTT message received:\nSubscription topic filter: %.*s\nPublished topic name: %.*s\nPublished QoS: %d\nPublished payload: %.*s\n\n")
  if strlen MQTT_DEVICE_ON_MESSAGE = payloadLength ∧
      strncmp (literal MQTT_DEVICE_ON_MESSAGE) pPayload payloadLength = 0 then
    notify_subscriber DEVICE_ON_STATE s
  else if strlen MQTT_DEVICE_OFF_MESSAGE = payloadLength ∧
      strncmp (literal MQTT_DEVICE_OFF_MESSAGE) pPayload payloadLength = 0 then
    notify_subscriber DEVICE_OFF_STATE s
  else
    s.emit (.printf "Received MQTT message not in valid format!\n")

/-- The function `subscriber_task` up to its loop: the LED is initialised and
the subscription is made; the result is `true` when the task goes on to its
loop and `false` when it has reported the failure and suspended itself. -/
def subscriber_task (IotMqtt_SubscribeSync : Nat) (s : State) : Bool × State :=
  let mqtt_subscribe_status := mqtt_result_t.MQTT_SUBSCRIBE_FAILURE
  let s := s.emit (.cyhal_gpio_init_led .CYBSP_LED_STATE_OFF)
  let result := IotMqtt_SubscribeSync
  let s := s.emit (.IotMqtt_SubscribeSync result)
  if result ≠ EXIT_SUCCESS then
    let s := s.emit (.printf "MQTT Subscribe failed with error '%s'.\n\n")
    let s := s.emit (.xQueueOverwrite mqtt_subscribe_status)
    let s := { s with
      mqtt_status_q := s.mqtt_status_q.map (xQueueOverwrite · mqtt_subscribe_status) }
    (false, s.emit (.vTaskSuspend .subscriber_task))
  else
    (true, s.emit (.printf "MQTT client subscribed to the topic '%.*s' successfully.\n\n"))

/-- One iteration of the loop of `subscriber_task`; `none` while the task is
blocked in `xTaskNotifyWait` because no notification is pending. -/
def subscriber_task_loop (s : State) : Option State :=
  match s.subscriber_notification with
  | none => none
  | some received_led_state =>
    let s := { s with subscriber_notification := none }
    let s := s.emit (.cyhal_gpio_write_led received_led_state)
    some { s with current_device_state := received_led_state }

/-- The function `publisher_task` up to its loop. -/
def publisher_task (s : State) : State :=
  let s := s.emit .cyhal_gpio_init_button
  s.emit (.printf "Press the user button (SW2) to publish \"%s\"/\"%s\" on the topic '%s'...\n\n")

/-- One iteration of the loop of `publisher_task`; `none` while the task is
blocked in `xTaskNotifyWait`; the flag is `false` when the task has reported a
failed publish and suspended itself. -/
def publisher_task_loop (IotMqtt_PublishSync : Nat) (s : State) : Option (Bool × State) :=
  let mqtt_publish_status := mqtt_result_t.MQTT_PUBLISH_FAILURE
  match s.publisher_notification with
  | none => none
  | some publish_device_state =>
    let s := { s with publisher_notification := none }
    let s := { s with publishInfo := { s.publishInfo with pPayload := MQTT_DEVICE_OFF_MESSAGE } }
    let s :=
      if publish_device_state = DEVICE_ON_STATE then
        { s with publishInfo := { s.publishInfo with pPayload := MQTT_DEVICE_ON_MESSAGE } }
      else s
    let s := { s with
      publishInfo := { s.publishInfo with payloadLength := strlen s.publishInfo.pPayload } }
    let s := s.emit (.printf "Publishing '%s' on the topic '%s'\n\n")
    let result := IotMqtt_PublishSync
    let s := s.emit (.IotMqtt_PublishSync s.publishInfo 0 MQTT_TIMEOUT_MS result)
    if result ≠ IOT_MQTT_SUCCESS then
      let s := s.emit (.printf "MQTT Publish failed with error '%s'.\n\n")
      let s := s.emit (.xQueueOverwrite mqtt_publish_status)
      let s := { s with
        mqtt_status_q := s.mqtt_status_q.map (xQueueOverwrite · mqtt_publish_status) }
      some (false, s.emit (.vTaskSuspend .publisher_task))
    else some (true, s)

/-- The function `isr_button_press`. -/
def isr_button_press (s : State) : State :=
  let new_device_state :=
    if s.current_device_state = DEVICE_ON_STATE then DEVICE_OFF_STATE else DEVICE_ON_STATE
  notify_publisher new_device_state s

/-! ## The supervisor: `mqtt_client_task` -/

/-- How a run of `mqtt_client_task` ends. -/
inductive Ending
  /-- The task reached `vTaskDelete( NULL )`. -/
  | task_deleted
  /-- The task stays blocked in `xQueueReceive`: nothing is ever sent. -/
  | blocked_in_xQueueReceive
  deriving DecidableEq, Repr

/-- The label `exit_cleanup` of `mqtt_client_task`. -/
def exit_cleanup (env : Env) (s : State) : Ending × State :=
  let s := cleanup env s
  (.task_deleted, s.emit (.vTaskDelete .mqtt_client_task))

/-- The loop of `mqtt_client_task`. The items of `env.status_sends` are written
to the queue by their senders with `xQueueOverwrite`, then the task receives.
Each of the three values of `mqtt_result_t` leaves the loop, through the cases
of the `switch` that fall through into one another. -/
def mqtt_client_task_loop (env : Env) (s : State) : Ending × State :=
  let s := { s with
    mqtt_status_q := s.mqtt_status_q.map (fun q => env.status_sends.foldl xQueueOverwrite q) }
  match s.mqtt_status_q.bind xQueueReceive with
  | none => (.blocked_in_xQueueReceive, s)
  | some (mqtt_status, q) =>
    let s := { s with mqtt_status_q := some q }.emit (.xQueueReceive mqtt_status)
    let s :=
      match mqtt_status with
      | .MQTT_PUBLISH_FAILURE => mqtt_unsubscribe env s
      | .MQTT_SUBSCRIBE_FAILURE => s
      | .MQTT_DISCONNECT => s
    let s := if s.subscriber_task_handle then s.emit (.vTaskDelete .subscriber_task) else s
    let s :=
      if s.publisher_task_handle then
        (s.emit .publisher_cleanup).emit (.vTaskDelete .publisher_task)
      else s
    exit_cleanup env s

/-- The condition
`(wifi_connect() != EXIT_SUCCESS) || (mqtt_connect() != EXIT_SUCCESS)` of
`mqtt_client_task`: `mqtt_connect` is called only when the left operand is
false. -/
def bring_up_failed (env : Env) (s : State) : Bool × State :=
  match wifi_connect env s with
  | (wifi_result, s) =>
    if wifi_result ≠ EXIT_SUCCESS then (true, s)
    else
      match mqtt_connect env s with
      | (mqtt_result, s) => (decide (mqtt_result ≠ EXIT_SUCCESS), s)

/-- The function `mqtt_client_task`. -/
def mqtt_client_task (env : Env) (s : State) : Ending × State :=
  let s := s.emit (.xQueueCreate MQTT_STATUS_QUEUE_LENGTH)
  let s := { s with mqtt_status_q := some (xQueueCreate MQTT_STATUS_QUEUE_LENGTH) }
  match bring_up_failed env s with
  | (failed, s) =>
  if failed then exit_cleanup env s
  else
  let s := s.emit (.xTaskCreate .subscriber_task env.xTaskCreate_subscriber)
  if env.xTaskCreate_subscriber = false then
    exit_cleanup env (s.emit (.printf "Failed to create the Subscriber task!\n"))
  else
  let s := { s with subscriber_task_handle := true }
  let s := s.emit (.vTaskDelay TASK_CREATION_DELAY_MS)
  let s := s.emit (.xTaskCreate .publisher_task env.xTaskCreate_publisher)
  if env.xTaskCreate_publisher = false then
    exit_cleanup env (s.emit (.printf "Failed to create Publisher task!\n"))
  else
  let s := { s with publisher_task_handle := true }
  mqtt_client_task_loop env s

/-! ## Build-time checks: `mqtt_client_config.c` -/

/-- The width in bits of `intmax_t` and `uintmax_t`, the types in which the
preprocessor evaluates the controlling expression of `#if`. -/
def INTMAX_WIDTH : Nat := 64

/-- What a configuration macro can stand for in the controlling expression of
`#if`, once macros are replaced: a decimal integer constant, a name that is not
a macro (an enumeration constant, for one), or the negation of such an
expression. -/
inductive PPExpr
  | constant (n : Nat)
  | identifier (name : String)
  | minus (e : PPExpr)
  deriving DecidableEq, Repr

/-- The value the preprocessor gives an expression, as the bits of an
`intmax_t` or `uintmax_t`, that is, modulo `2 ^ INTMAX_WIDTH`: a constant too
large for `uintmax_t` is diagnosed with a warning and reduced; a name that is
not a macro counts as 0; negation is in two's complement. Comparing with `==`
and `!=` against 0 and 1 compares these bits, whichever of the two types the
expression has. -/
def PPExpr.value : PPExpr → Nat
  | .constant n => n % 2 ^ INTMAX_WIDTH
  | .identifier _ => 0
  | .minus e => (2 ^ INTMAX_WIDTH - e.value) % 2 ^ INTMAX_WIDTH

/-- The six teardown operations that `cleanup` can invoke. -/
inductive Teardown
  | IotMqtt_Disconnect
  | IotMqtt_Cleanup
  | IotNetworkSecureSockets_Cleanup
  | IotSdk_Cleanup
  | cy_wcm_disconnect_ap
  | cy_wcm_deinit
  deriving DecidableEq, Repr

/-- The bit of `init_flag` that gates a teardown operation in `cleanup`. -/
def Teardown.mask : Teardown → Nat
  | .IotMqtt_Disconnect => CONNECTION_ESTABLISHED
  | .IotMqtt_Cleanup => LIBS_INITIALIZED
  | .IotNetworkSecureSockets_Cleanup => NETWORK_STACK_INITIALIZED
  | .IotSdk_Cleanup => IOT_SDK_INITIALIZED
  | .cy_wcm_disconnect_ap => WIFI_CONNECTED
  | .cy_wcm_deinit => WCM_INITIALIZED

/-- The order in which `cleanup` consults the bits. -/
def teardownOrder : List Teardown :=
  [.IotMqtt_Disconnect, .IotMqtt_Cleanup, .IotNetworkSecureSockets_Cleanup,
   .IotSdk_Cleanup, .cy_wcm_disconnect_ap, .cy_wcm_deinit]

/-- The teardown operation an event is a call of, if any. -/
def Event.teardown? : Event → Option Teardown
  | .IotMqtt_Disconnect => some .IotMqtt_Disconnect
  | .IotMqtt_Cleanup => some .IotMqtt_Cleanup
  | .IotNetworkSecureSockets_Cleanup _ => some .IotNetworkSecureSockets_Cleanup
  | .IotSdk_Cleanup => some .IotSdk_Cleanup
  | .cy_wcm_disconnect_ap _ => some .cy_wcm_disconnect_ap
  | .cy_wcm_deinit _ => some .cy_wcm_deinit
  | _ => none

/-- The teardown calls of a trace, in the order they were made. -/
def teardownCalls (t : List Event) : List Teardown :=
  t.filterMap Event.teardown?

/-- The events that were appended to the trace between state `s₀` and state `s`. -/
def State.since (s s₀ : State) : List Event :=
  s.trace.drop s₀.trace.length

/-- The six capabilities recorded in `init_flag`, in the order in which the
bring-up acquires them. -/
inductive Capability
  | wcm
  | wifi
  | iot_sdk
  | network_stack
  | libs
  | connection
  deriving DecidableEq, Repr

/-- The bit of `init_flag` that records a capability. -/
def Capability.mask : Capability → Nat
  | .wcm => WCM_INITIALIZED
  | .wifi => WIFI_CONNECTED
  | .iot_sdk => IOT_SDK_INITIALIZED
  | .network_stack => NETWORK_STACK_INITIALIZED
  | .libs => LIBS_INITIALIZED
  | .connection => CONNECTION_ESTABLISHED

/-- The teardown operation that releases a capability. -/
def Capability.teardown : Capability → Teardown
  | .wcm => .cy_wcm_deinit
  | .wifi => .cy_wcm_disconnect_ap
  | .iot_sdk => .IotSdk_Cleanup
  | .network_stack => .IotNetworkSecureSockets_Cleanup
  | .libs => .IotMqtt_Cleanup
  | .connection => .IotMqtt_Disconnect

/-- The capability an event acquires: the event is the initialization call of
that capability and the call returned success. -/
def Event.acquires? : Event → Option Capability
  | .cy_wcm_init result => if result = CY_RSLT_SUCCESS then some .wcm else none
  | .cy_wcm_connect_ap result => if result = CY_RSLT_SUCCESS then some .wifi else none
  | .IotSdk_Init result => if result = true then some .iot_sdk else none
  | .IotNetworkSecureSockets_Init result =>
    if result = EXIT_SUCCESS then some .network_stack else none
  | .IotMqtt_Init result => if result = EXIT_SUCCESS then some .libs else none
  | .IotMqtt_Connect _ _ result => if result = EXIT_SUCCESS then some .connection else none
  | _ => none

/-- The capabilities acquired in a trace, in order. -/
def acquired (t : List Event) : List Capability :=
  t.filterMap Event.acquires?

/-- The value of `init_flag` after the bits of the given capabilities have been
or-ed into `flag`, one after the other. -/
def grant (caps : List Capability) (flag : Nat) : Nat :=
  caps.foldl (fun f c => f ||| c.mask) flag

/-- The position of the bit of a capability in `init_flag`. -/
def Capability.bit : Capability → Nat
  | .wcm => 0
  | .wifi => 1
  | .iot_sdk => 2
  | .network_stack => 3
  | .libs => 4
  | .connection => 5

/-- The results of the calls of `cy_wcm_connect_ap` in a trace, in order. -/
def connectAttempts (t : List Event) : List Nat :=
  t.filterMap fun
    | .cy_wcm_connect_ap result => some result
    | _ => none

/-- Whether one of the association attempts allowed by
`MAX_WIFI_CONN_RETRIES` succeeds. -/
def Env.associates (env : Env) : Bool :=
  (List.range env.MAX_WIFI_CONN_RETRIES).any fun i => env.cy_wcm_connect_ap i = CY_RSLT_SUCCESS

/-- The steps of the bring-up, in the order `mqtt_client_task` performs them. -/
inductive BringupStep
  | cy_wcm_init
  | cy_wcm_connect_ap
  | IotSdk_Init
  | IotNetworkSecureSockets_Init
  | IotMqtt_Init
  | client_identifier
  | IotMqtt_Connect
  deriving DecidableEq, Repr

/-- The order of the bring-up steps. -/
def bringupOrder : List BringupStep :=
  [.cy_wcm_init, .cy_wcm_connect_ap, .IotSdk_Init, .IotNetworkSecureSockets_Init,
   .IotMqtt_Init, .client_identifier, .IotMqtt_Connect]

/-- Whether a bring-up step succeeds in the environment, once it is reached. -/
def BringupStep.succeeds (env : Env) : BringupStep → Bool
  | .cy_wcm_init => env.cy_wcm_init = CY_RSLT_SUCCESS
  | .cy_wcm_connect_ap => env.associates
  | .IotSdk_Init => env.IotSdk_Init
  | .IotNetworkSecureSockets_Init => env.IotNetworkSecureSockets_Init = EXIT_SUCCESS
  | .IotMqtt_Init => env.IotMqtt_Init = EXIT_SUCCESS
  | .client_identifier => !env.snprintf_error
  | .IotMqtt_Connect => env.IotMqtt_Connect = EXIT_SUCCESS

/-- The capability a bring-up step acquires; generating the client identifier
acquires none. -/
def BringupStep.capability : BringupStep → Option Capability
  | .cy_wcm_init => some .wcm
  | .cy_wcm_connect_ap => some .wifi
  | .IotSdk_Init => some .iot_sdk
  | .IotNetworkSecureSockets_Init => some .network_stack
  | .IotMqtt_Init => some .libs
  | .client_identifier => none
  | .IotMqtt_Connect => some .connection

/-- The capabilities in the order of their acquisition. -/
def capabilityOrder : List Capability :=
  [.wcm, .wifi, .iot_sdk, .network_stack, .libs, .connection]

/-- The first bring-up step that fails in the environment, if one does. -/
def firstFailing (env : Env) : Option BringupStep :=
  bringupOrder.find? fun step => !step.succeeds env

/-- A step of one of the three writers of the status queue, with the outcome
of the library call that decides whether it writes. -/
inductive StatusSender
  /-- One iteration of the loop of `publisher_task`, whose publish returns the
  given result. -/
  | publisher_task_loop (IotMqtt_PublishSync : Nat)
  /-- The start of `subscriber_task`, whose subscription returns the given
  result. -/
  | subscriber_task (IotMqtt_SubscribeSync : Nat)
  /-- A call of `mqtt_disconnect_callback` with the given reason. -/
  | mqtt_disconnect_callback (disconnectReason : IotMqttDisconnectReason_t)

/-- The state after the step of a writer; an iteration of the publisher that is
blocked for lack of a notification leaves the state as it is. -/
def StatusSender.run : StatusSender → State → State
  | .publisher_task_loop result, s =>
    match MqttClient.publisher_task_loop result s with
    | some (_, s') => s'
    | none => s
  | .subscriber_task result, s => (MqttClient.subscriber_task result s).2
  | .mqtt_disconnect_callback reason, s => MqttClient.mqtt_disconnect_callback reason s

/-- The state after the steps of a sequence of writers, with no receive between
them. -/
def runSenders (l : List StatusSender) (s : State) : State :=
  l.foldl (fun s a => a.run s) s

/-- The items of the calls of `xQueueOverwrite` in a trace, in order. -/
def statusWrites (t : List Event) : List mqtt_result_t :=
  t.filterMap fun
    | .xQueueOverwrite item => some item
    | _ => none

/-! ## The workers, the interrupt and the callbacks running together -/

/-- Where a worker task is in its function. -/
inductive TaskPhase
  /-- The task exists and has not yet run. -/
  | created
  /-- The task is in its loop, waiting in `xTaskNotifyWait` or about to. -/
  | in_loop
  /-- The task has called `vTaskSuspend( NULL )`; nothing in the program resumes
  a task. -/
  | suspended
  deriving DecidableEq, Repr

/-- The program state together with the phases of the two workers. -/
structure System where
  state : State
  subscriber : TaskPhase
  publisher : TaskPhase

/-- What can happen next while the workers run: the button interrupt, one of
the two callbacks of the MQTT library, or a piece of the code of a worker, with
the result of the library call it makes. -/
inductive Action
  | isr_button_press
  | mqtt_subscription_callback (pPayload : Nat → Nat) (payloadLength : Nat)
  | mqtt_disconnect_callback (disconnectReason : IotMqttDisconnectReason_t)
  | subscriber_task (IotMqtt_SubscribeSync : Nat)
  | subscriber_task_loop
  | publisher_task
  | publisher_task_loop (IotMqtt_PublishSync : Nat)

/-- One action. A worker runs the part of its function that its phase allows:
its start once, then iterations of its loop while it is not suspended; an
iteration with no notification pending stays blocked and changes nothing. -/
def System.step (sys : System) : Action → System
  | .isr_button_press => { sys with state := isr_button_press sys.state }
  | .mqtt_subscription_callback pPayload payloadLength =>
    { sys with state := mqtt_subscription_callback pPayload payloadLength sys.state }
  | .mqtt_disconnect_callback disconnectReason =>
    { sys with state := mqtt_disconnect_callback disconnectReason sys.state }
  | .subscriber_task result =>
    match sys.subscriber with
    | .created =>
      match subscriber_task result sys.state with
      | (true, s) => { sys with state := s, subscriber := .in_loop }
      | (false, s) => { sys with state := s, subscriber := .suspended }
    | _ => sys
  | .subscriber_task_loop =>
    match sys.subscriber with
    | .in_loop =>
      match subscriber_task_loop sys.state with
      | some s => { sys with state := s }
      | none => sys
    | _ => sys
  | .publisher_task =>
    match sys.publisher with
    | .created => { sys with state := publisher_task sys.state, publisher := .in_loop }
    | _ => sys
  | .publisher_task_loop result =>
    match sys.publisher with
    | .in_loop =>
      match publisher_task_loop result sys.state with
      | some (true, s) => { sys with state := s }
      | some (false, s) => { sys with state := s, publisher := .suspended }
      | none => sys
    | _ => sys

/-- A sequence of actions, one after the other. -/
def System.run (sys : System) (actions : List Action) : System :=
  actions.foldl System.step sys

/-- The system when both workers have just been created, at the start state. -/
def System.initial : System :=
  { state := State.initial, subscriber := .created, publisher := .created }

/-- The calls of `IotMqtt_PublishSync` in a trace, in order: the publish
information passed and the result. -/
def publishCalls (t : List Event) : List (IotMqttPublishInfo_t × Nat) :=
  t.filterMap fun
    | .IotMqtt_PublishSync publishInfo _ _ result => some (publishInfo, result)
    | _ => none

/-- The results of the calls of `IotMqtt_SubscribeSync` in a trace, in order. -/
def subscribeCalls (t : List Event) : List Nat :=
  t.filterMap fun
    | .IotMqtt_SubscribeSync result => some result
    | _ => none

/-- The values written to the LED in a trace, in order. -/
def ledWrites (t : List Event) : List Nat :=
  t.filterMap fun
    | .cyhal_gpio_write_led value => some value
    | _ => none

/-- The notifications sent to the publisher task in a trace, in order: the
value and whether the task accepted it. -/
def publisherNotifications (t : List Event) : List (Nat × Bool) :=
  t.filterMap fun
    | .xTaskNotify .publisher_task ulValue pass => some (ulValue, pass)
    | _ => none

/-- The results of the calls of `IotMqtt_UnsubscribeSync` in a trace, in
order. -/
def unsubscribeCalls (t : List Event) : List Nat :=
  t.filterMap fun
    | .IotMqtt_UnsubscribeSync result => some result
    | _ => none

/-- The tasks deleted with `vTaskDelete` in a trace, in order. -/
def deletedTasks (t : List Event) : List Task :=
  t.filterMap fun
    | .vTaskDelete task => some task
    | _ => none

/-- The events `cleanup` appends to the trace for a value of `init_flag`. -/
def cleanupEvents (env : Env) (init_flag : Nat) : List Event :=
  (if init_flag &&& CONNECTION_ESTABLISHED ≠ 0 then
      [Event.printf "Disconnecting from the MQTT Server...\n", Event.IotMqtt_Disconnect]
    else []) ++
  (if init_flag &&& LIBS_INITIALIZED ≠ 0 then [Event.IotMqtt_Cleanup] else []) ++
  (if init_flag &&& NETWORK_STACK_INITIALIZED ≠ 0 then
      [Event.IotNetworkSecureSockets_Cleanup env.IotNetworkSecureSockets_Cleanup]
    else []) ++
  (if init_flag &&& IOT_SDK_INITIALIZED ≠ 0 then [Event.IotSdk_Cleanup] else []) ++
  (if init_flag &&& WIFI_CONNECTED ≠ 0 then
      Event.cy_wcm_disconnect_ap env.cy_wcm_disconnect_ap ::
        (if env.cy_wcm_disconnect_ap = CY_RSLT_SUCCESS then
          [Event.printf "Disconnected from the Wi-Fi AP!\n"] else [])
    else []) ++
  (if init_flag &&& WCM_INITIALIZED ≠ 0 then
      [Event.cy_wcm_deinit env.cy_wcm_deinit] else [])

/-- The events of the call of `mqtt_unsubscribe` that `mqtt_client_task` makes
for a received status: the call and, when it fails, a line of diagnostics, for
`MQTT_PUBLISH_FAILURE`; nothing for the other two. -/
def unsubscribeEvents (env : Env) : mqtt_result_t → List Event
  | .MQTT_PUBLISH_FAILURE =>
    Event.IotMqtt_UnsubscribeSync env.IotMqtt_UnsubscribeSync ::
      (if env.IotMqtt_UnsubscribeSync ≠ IOT_MQTT_SUCCESS then
        [Event.printf "MQTT Unsubscribe operation failed with error '%s'!\n"] else [])
  | .MQTT_SUBSCRIBE_FAILURE => []
  | .MQTT_DISCONNECT => []

/-- The events by which `mqtt_client_task` deletes the workers whose handle is
not `NULL`. -/
def deletionEvents (s : State) : List Event :=
  (if s.subscriber_task_handle then [Event.vTaskDelete .subscriber_task] else []) ++
  (if s.publisher_task_handle then
    [Event.publisher_cleanup, Event.vTaskDelete .publisher_task] else [])

/-- The fields of `publishInfo` that only its initialiser sets. -/
def IotMqttPublishInfo_t.static (i : IotMqttPublishInfo_t) : Int × List Nat × Nat × Nat × Nat :=
  (i.qos, i.pTopicName, i.topicNameLength, i.retryMs, i.retryLimit)

/-! ## Sample environments -/

/-- An environment in which every library call succeeds at once, three
association attempts are allowed and the clock reads 4321 ms. -/
def Env.allSucceed : Env :=
  { MAX_WIFI_CONN_RETRIES := 3, WIFI_CONN_RETRY_INTERVAL_MS := 5000, cy_wcm_init := 0,
    cy_wcm_connect_ap := fun _ => 0, ip_address_version := .CY_WCM_IP_VER_V4,
    IotSdk_Init := true, IotNetworkSecureSockets_Init := 0, IotMqtt_Init := 0,
    IotClock_GetTimeMs := 4321, snprintf_error := false, IotMqtt_Connect := 0,
    IotNetworkSecureSockets_Cleanup := 0, cy_wcm_disconnect_ap := 0, cy_wcm_deinit := 0,
    xTaskCreate_subscriber := true, xTaskCreate_publisher := true, status_sends := [],
    IotMqtt_UnsubscribeSync := 0 }

/-- As `Env.allSucceed`, but the association succeeds at the third attempt only
and the initialization of the MQTT library fails. -/
def Env.mqttInitFails : Env :=
  { Env.allSucceed with
    cy_wcm_connect_ap := fun i => if i = 2 then 0 else 1
    IotMqtt_Init := 1 }

/-- As `Env.allSucceed`, but every association attempt fails. -/
def Env.neverAssociates : Env :=
  { Env.allSucceed with cy_wcm_connect_ap := fun _ => 1 }

/-- The payload the loop of `publisher_task` assigns for an event value:
`MQTT_DEVICE_ON_MESSAGE` for `DEVICE_ON_STATE`, `MQTT_DEVICE_OFF_MESSAGE` for
every other value. -/
def payloadFor (publish_device_state : Nat) : List Nat :=
  if publish_device_state = DEVICE_ON_STATE then MQTT_DEVICE_ON_MESSAGE
  else MQTT_DEVICE_OFF_MESSAGE

/-- The payload of a message as a byte sequence: the `payloadLength` bytes at
`pPayload`. -/
def payloadBytes (pPayload : Nat → Nat) (payloadLength : Nat) : List Nat :=
  (List.range payloadLength).map pPayload

/-- The values of the notifications sent to the subscriber task in a trace, in
order, whether or not the task accepted them. -/
def subscriberNotifications (t : List Event) : List Nat :=
  t.filterMap fun
    | .xTaskNotify .subscriber_task ulValue _ => some ulValue
    | _ => none

/-- As `Env.allSucceed`, with the clock reading 1000000 ms. -/
def Env.clock1000000 : Env :=
  { Env.allSucceed with IotClock_GetTimeMs := 1000000 }

/-- As `Env.allSucceed`, with the clock reading 1000001 ms. -/
def Env.clock1000001 : Env :=
  { Env.allSucceed with IotClock_GetTimeMs := 1000001 }

/-- The text that `mqtt_get_unique_client_identifier` formats: the prefix
followed by the clock reading in decimal. -/
def identifierText (env : Env) : List Nat :=
  MQTT_CLIENT_IDENTIFIER_PREFIX ++ format_lu (env.IotClock_GetTimeMs % 2 ^ ULONG_WIDTH)

/-- A state in which the status queue has been created and a notification is
pending for the publisher. -/
def State.supervised : State :=
  { State.initial with
    mqtt_status_q := some (xQueueCreate MQTT_STATUS_QUEUE_LENGTH)
    publisher_notification := some DEVICE_ON_STATE }

/-- A state after a complete bring-up: all six capabilities recorded, the
status queue created and empty, both workers created. -/
def State.running : State :=
  { State.initial with
    init_flag := 63
    mqtt_status_q := some (xQueueCreate MQTT_STATUS_QUEUE_LENGTH)
    subscriber_task_handle := true
    publisher_task_handle := true }

/-- As `Env.allSucceed`, with a failed publish reported to the supervisor. -/
def Env.publishFailureSent : Env :=
  { Env.allSucceed with status_sends := [.MQTT_PUBLISH_FAILURE] }

/-- As `Env.publishFailureSent`, with a failing unsubscribe. -/
def Env.unsubscribeFails : Env :=
  { Env.publishFailureSent with IotMqtt_UnsubscribeSync := 1 }

/-- The bring-up step an event is the call of, if any; reading the clock is
the call made by the generation of the client identifier. -/
def Event.bringupStep? : Event → Option BringupStep
  | .cy_wcm_init _ => some .cy_wcm_init
  | .cy_wcm_connect_ap _ => some .cy_wcm_connect_ap
  | .IotSdk_Init _ => some .IotSdk_Init
  | .IotNetworkSecureSockets_Init _ => some .IotNetworkSecureSockets_Init
  | .IotMqtt_Init _ => some .IotMqtt_Init
  | .IotClock_GetTimeMs _ => some .client_identifier
  | .IotMqtt_Connect _ _ _ => some .IotMqtt_Connect
  | _ => none

/-- The bring-up steps invoked in a trace, in order. -/
def bringupCalls (t : List Event) : List BringupStep :=
  t.filterMap Event.bringupStep?

/-- The steps of `mqtt_connect`, in the order of the function. -/
def sessionSteps : List BringupStep :=
  [.IotSdk_Init, .IotNetworkSecureSockets_Init, .IotMqtt_Init, .client_identifier,
   .IotMqtt_Connect]

/-- The first step of `mqtt_connect` that fails in the environment, if one
does. -/
def firstFailingSession (env : Env) : Option BringupStep :=
  sessionSteps.find? fun step => !step.succeeds env

/-- The error message that the `CHECK_RESULT` following a step of `mqtt_connect`
prints when the step has failed. -/
def sessionErrorMessage : BringupStep → String
  | .IotSdk_Init => "IoT SDK initialization failed!\n"
  | .IotNetworkSecureSockets_Init => "Network stack initialization failed!\n"
  | .IotMqtt_Init => "MQTT library initialization failed!\n\n"
  | .client_identifier => "Failed to generate unique client identifier for the MQTT client!\n"
  | .IotMqtt_Connect => "MQTT connection failed with error '%s'!\n\n"
  | _ => ""

/-- As `Env.allSucceed`, but the initialization of the IoT SDK fails. -/
def Env.sdkInitFails : Env :=
  { Env.allSucceed with IotSdk_Init := false }

/-- As `Env.allSucceed`, but the MQTT connection fails. -/
def Env.connectFails : Env :=
  { Env.allSucceed with IotMqtt_Connect := 1 }

/-- Whether an action is an iteration of the loop of `publisher_task`. -/
def Action.isPublisherLoop : Action → Bool
  | .publisher_task_loop _ => true
  | _ => false

/-- A run in which the button is pressed twice before the publisher gets to
run: both workers start, the button is pressed while the device is off, a
message `TURN ON` arrives and the subscriber applies it, the button is pressed
again, and then the publisher runs one iteration of its loop. -/
def System.twoPresses : System :=
  System.initial.run
    [.publisher_task, .subscriber_task EXIT_SUCCESS, .isr_button_press,
     .mqtt_subscription_callback (literal MQTT_DEVICE_ON_MESSAGE) 7, .subscriber_task_loop,
     .isr_button_press, .publisher_task_loop IOT_MQTT_SUCCESS]

/-- The calls of `xTaskCreate` in a trace, in order: the task and whether the
call returned `pdPASS`. -/
def taskCreations (t : List Event) : List (Task × Bool) :=
  t.filterMap fun
    | .xTaskCreate task pass => some (task, pass)
    | _ => none

/-- The items received from the status queue in a trace, in order. -/
def receives (t : List Event) : List mqtt_result_t :=
  t.filterMap fun
    | .xQueueReceive item => some item
    | _ => none

/-- The initial values with which the LED pin is initialised in a trace, in
order. -/
def ledInits (t : List Event) : List LedState :=
  t.filterMap fun
    | .cyhal_gpio_init_led init_val => some init_val
    | _ => none

/-- The values of the notifications sent in a trace, to either worker, in
order. -/
def notifiedValues (t : List Event) : List Nat :=
  t.filterMap fun
    | .xTaskNotify _ ulValue _ => some ulValue
    | _ => none

/-- The values `isr_button_press` asks the publisher to publish when it is
triggered in the state `s`: the values of the notifications it sends. -/
def requested (s : State) : List Nat :=
  (publisherNotifications ((isr_button_press s).since s)).map Prod.fst

/-- Whether a value is one of the two device states. -/
def isDeviceState (v : Nat) : Bool :=
  v = DEVICE_ON_STATE || v = DEVICE_OFF_STATE

/-- The state in which `mqtt_client_task` calls `wifi_connect`: the status
queue has been created. -/
def State.queueCreated (s : State) : State :=
  { s.emit (.xQueueCreate MQTT_STATUS_QUEUE_LENGTH) with
    mqtt_status_q := some (xQueueCreate MQTT_STATUS_QUEUE_LENGTH) }

/-- As `Env.allSucceed`, but the publisher task cannot be created. -/
def Env.publisherCreateFails : Env :=
  { Env.allSucceed with xTaskCreate_publisher := false }

/-- Whether an event is one that `wifi_connect` can append to the trace. -/
def Event.inWifiConnect : Event → Bool
  | .printf _ => true
  | .cy_wcm_init _ => true
  | .cy_wcm_connect_ap _ => true
  | .vTaskDelay _ => true
  | _ => false

/-- Whether an event is one that `mqtt_connect` can append to the trace. -/
def Event.inMqttConnect : Event → Bool
  | .printf _ => true
  | .IotSdk_Init _ => true
  | .IotNetworkSecureSockets_Init _ => true
  | .IotMqtt_Init _ => true
  | .IotClock_GetTimeMs _ => true
  | .IotMqtt_Connect _ _ _ => true
  | _ => false

/-- Whether an event is one that `cleanup` can append to the trace. -/
def Event.inCleanup : Event → Bool
  | .printf _ => true
  | .IotMqtt_Disconnect => true
  | .IotMqtt_Cleanup => true
  | .IotNetworkSecureSockets_Cleanup _ => true
  | .IotSdk_Cleanup => true
  | .cy_wcm_disconnect_ap _ => true
  | .cy_wcm_deinit _ => true
  | _ => false

/-- The calls of the steps of `mqtt_connect` in a trace, in order. -/
def sessionCalls (t : List Event) : List BringupStep :=
  t.filterMap fun
    | .IotSdk_Init _ => some .IotSdk_Init
    | .IotNetworkSecureSockets_Init _ => some .IotNetworkSecureSockets_Init
    | .IotMqtt_Init _ => some .IotMqtt_Init
    | .IotClock_GetTimeMs _ => some .client_identifier
    | .IotMqtt_Connect _ _ _ => some .IotMqtt_Connect
    | _ => none

/-- Whether every value of a device state that the system holds or has handled
is one of the two device states: the variable `current_device_state`, the
notification pending for each worker, every value sent in a notification and
every value written to the LED. -/
def System.valid (sys : System) : Bool :=
  isDeviceState sys.state.current_device_state &&
    sys.state.subscriber_notification.all isDeviceState &&
    sys.state.publisher_notification.all isDeviceState &&
    (notifiedValues sys.state.trace).all isDeviceState &&
    (ledWrites sys.state.trace).all isDeviceState

/-! ## Theorems -/

/-- The association loop, entered with `remaining` attempts left: it returns
`EXIT_SUCCESS` and sets `WIFI_CONNECTED` exactly when one of these attempts
succeeds; it makes `m ≤ remaining` attempts, all failed but possibly the last,
and changes nothing but `init_flag` and the trace. -/
theorem wifi_connect_loop_spec (env : Env) (remaining retry_count : Nat) (s : State) :
    ∃ (evs : List Event) (m : Nat),
      wifi_connect_loop env remaining retry_count s =
        (if ∃ i, i < remaining ∧ env.cy_wcm_connect_ap (retry_count + i) = CY_RSLT_SUCCESS then
          (EXIT_SUCCESS,
            { s with init_flag := s.init_flag ||| WIFI_CONNECTED, trace := s.trace ++ evs })
        else (EXIT_FAILURE, { s with trace := s.trace ++ evs })) ∧
      teardownCalls evs = [] ∧
      acquired evs =
        (if ∃ i, i < remaining ∧ env.cy_wcm_connect_ap (retry_count + i) = CY_RSLT_SUCCESS then
          [Capability.wifi] else []) ∧
      m ≤ remaining ∧
      connectAttempts evs = (List.range m).map (fun i => env.cy_wcm_connect_ap (retry_count + i)) ∧
      (∀ i, i + 1 < m → env.cy_wcm_connect_ap (retry_count + i) ≠ CY_RSLT_SUCCESS) ∧
      ((∃ i, i < remaining ∧ env.cy_wcm_connect_ap (retry_count + i) = CY_RSLT_SUCCESS) →
        0 < m ∧ env.cy_wcm_connect_ap (retry_count + (m - 1)) = CY_RSLT_SUCCESS) ∧
      ((¬ ∃ i, i < remaining ∧ env.cy_wcm_connect_ap (retry_count + i) = CY_RSLT_SUCCESS) →
        m = remaining) := by
  induction remaining generalizing retry_count s with
  | zero =>
    refine ⟨[.printf "Exceeded maximum Wi-Fi connection attempts\n\n"], 0, ?_⟩
    simp [wifi_connect_loop, State.emit, teardownCalls, acquired, connectAttempts,
      Event.teardown?, Event.acquires?]
  | succ n ih =>
    by_cases h0 : env.cy_wcm_connect_ap retry_count = CY_RSLT_SUCCESS
    · have hex : ∃ i, i < n + 1 ∧ env.cy_wcm_connect_ap (retry_count + i) = CY_RSLT_SUCCESS :=
        ⟨0, by omega, by simpa using h0⟩
      refine ⟨[.printf "Connecting to Wi-Fi AP '%s'\n",
          .cy_wcm_connect_ap (env.cy_wcm_connect_ap retry_count),
          .printf "Successfully connected to Wi-Fi network '%s'.\n"] ++
        (if env.ip_address_version = .CY_WCM_IP_VER_V4 then
          [.printf "IPv4 Address Assigned: %s\n\n"]
         else if env.ip_address_version = .CY_WCM_IP_VER_V6 then
          [.printf "IPv6 Address Assigned: %s\n\n"]
         else []), 1, ?_, ?_, ?_, by omega, ?_, ?_, ?_, ?_⟩
      · rw [if_pos hex]
        simp only [wifi_connect_loop, State.emit, h0, if_true]
        split_ifs <;> simp
      · split_ifs <;> simp [teardownCalls, Event.teardown?]
      · rw [if_pos hex]
        split_ifs <;> simp [acquired, Event.acquires?, h0]
      · split_ifs <;> simp [connectAttempts, List.range_succ]
      · intro i hi; omega
      · intro _; exact ⟨by omega, by simpa using h0⟩
      · intro h; exact absurd hex h
    · obtain ⟨evs, m, h1, h2, h3, h4, h5, h6, h7, h8⟩ := ih (retry_count + 1)
        (((s.emit (.printf "Connecting to Wi-Fi AP '%s'\n")).emit
          (.cy_wcm_connect_ap (env.cy_wcm_connect_ap retry_count))).emit (.printf
            "Connection to Wi-Fi network failed with error code 0x%0X. Retrying in %d ms...\n")
          |>.emit (.vTaskDelay env.WIFI_CONN_RETRY_INTERVAL_MS))
      have hiff : (∃ i, i < n + 1 ∧ env.cy_wcm_connect_ap (retry_count + i) = CY_RSLT_SUCCESS) ↔
          ∃ i, i < n ∧ env.cy_wcm_connect_ap (retry_count + 1 + i) = CY_RSLT_SUCCESS := by
        constructor
        · rintro ⟨i, hi, he⟩
          cases i with
          | zero => exact absurd (by simpa using he) h0
          | succ j => exact ⟨j, by omega, by rw [← he]; congr 1; omega⟩
        · rintro ⟨i, hi, he⟩
          exact ⟨i + 1, by omega, by rw [← he]; congr 1; omega⟩
      refine ⟨[.printf "Connecting to Wi-Fi AP '%s'\n",
          .cy_wcm_connect_ap (env.cy_wcm_connect_ap retry_count),
          .printf
            "Connection to Wi-Fi network failed with error code 0x%0X. Retrying in %d ms...\n",
          .vTaskDelay env.WIFI_CONN_RETRY_INTERVAL_MS] ++ evs, m + 1, ?_, ?_, ?_, by omega,
          ?_, ?_, ?_, ?_⟩
      · simp only [wifi_connect_loop, h0, if_false]
        rw [h1]
        simp only [hiff]
        split_ifs <;> simp [State.emit]
      · simpa [teardownCalls, Event.teardown?] using h2
      · simp only [hiff, ← h3]
        simp [acquired, Event.acquires?, h0]
      · simp only [connectAttempts] at h5 ⊢
        rw [List.filterMap_append, h5, List.range_succ_eq_map]
        simp [Function.comp_def, Nat.add_assoc, Nat.add_comm 1]
      · intro i hi
        cases i with
        | zero => simpa using h0
        | succ j =>
          have := h6 j (by omega)
          rwa [show retry_count + (j + 1) = retry_count + 1 + j by omega]
      · intro h
        obtain ⟨hm, he⟩ := h7 (hiff.mp h)
        refine ⟨by omega, ?_⟩
        rw [← he]; congr 1; omega
      · intro h
        rw [h8 (fun h2 => h (hiff.mpr h2))]

/-- The association succeeds exactly when one of the allowed attempts does. -/
theorem Env.associates_iff (env : Env) :
    env.associates = true ↔
      ∃ i, i < env.MAX_WIFI_CONN_RETRIES ∧ env.cy_wcm_connect_ap (0 + i) = CY_RSLT_SUCCESS := by
  simp [Env.associates, List.any_eq_true, List.mem_range]

/-- The function `wifi_connect` is the initialization of the connection manager
followed, when it succeeded, by the association loop. -/
theorem wifi_connect_eq (env : Env) (s : State) :
    wifi_connect env s =
      if env.cy_wcm_init = CY_RSLT_SUCCESS then
        wifi_connect_loop env env.MAX_WIFI_CONN_RETRIES 0
          { s with
            init_flag := s.init_flag ||| WCM_INITIALIZED
            trace := s.trace ++ [.cy_wcm_init env.cy_wcm_init,
              .printf "\nWi-Fi Connection Manager initialized.\n"] }
      else
        (EXIT_FAILURE, { s with trace := s.trace ++ [.cy_wcm_init env.cy_wcm_init,
          .printf "\nWi-Fi Connection Manager initialization failed!\n"] }) := by
  unfold wifi_connect CHECK_RESULT
  by_cases h : env.cy_wcm_init = CY_RSLT_SUCCESS
  · simp [h, State.emit, EXIT_SUCCESS, CY_RSLT_SUCCESS]
  · have h' : ¬ env.cy_wcm_init = EXIT_SUCCESS := h
    simp [h, h', State.emit]

/-- What `wifi_connect` does: its return value, the capabilities it records
and the association attempts it makes (`m` of them). -/
theorem wifi_connect_spec (env : Env) (s : State) :
    ∃ (evs : List Event) (m : Nat),
      wifi_connect env s =
        (if [BringupStep.cy_wcm_init, .cy_wcm_connect_ap].all (·.succeeds env) then EXIT_SUCCESS
          else EXIT_FAILURE,
          { s with init_flag := grant (acquired evs) s.init_flag, trace := s.trace ++ evs }) ∧
      teardownCalls evs = [] ∧
      acquired evs = ([BringupStep.cy_wcm_init, .cy_wcm_connect_ap].takeWhile
        (·.succeeds env)).filterMap BringupStep.capability ∧
      (env.cy_wcm_init = CY_RSLT_SUCCESS →
        m ≤ env.MAX_WIFI_CONN_RETRIES ∧
        connectAttempts evs = (List.range m).map env.cy_wcm_connect_ap ∧
        (∀ i, i + 1 < m → env.cy_wcm_connect_ap i ≠ CY_RSLT_SUCCESS) ∧
        (env.associates = true → 0 < m ∧ env.cy_wcm_connect_ap (m - 1) = CY_RSLT_SUCCESS) ∧
        (env.associates = false → m = env.MAX_WIFI_CONN_RETRIES)) := by
  rw [wifi_connect_eq]
  by_cases h : env.cy_wcm_init = CY_RSLT_SUCCESS
  · obtain ⟨evs, m, h1, h2, h3, h4, h5, h6, h7, h8⟩ :=
      wifi_connect_loop_spec env env.MAX_WIFI_CONN_RETRIES 0
        { s with
          init_flag := s.init_flag ||| WCM_INITIALIZED
          trace := s.trace ++ [.cy_wcm_init env.cy_wcm_init,
            .printf "\nWi-Fi Connection Manager initialized.\n"] }
    simp only [← Env.associates_iff] at h1 h3 h7 h8
    have hacq : acquired ([.cy_wcm_init env.cy_wcm_init,
        .printf "\nWi-Fi Connection Manager initialized.\n"] ++ evs) =
        Capability.wcm :: acquired evs := by
      simp [acquired, Event.acquires?, h]
    refine ⟨[.cy_wcm_init env.cy_wcm_init,
      .printf "\nWi-Fi Connection Manager initialized.\n"] ++ evs, m, ?_, ?_, ?_, ?_⟩
    · rw [if_pos h, h1, hacq, h3]
      by_cases ha : env.associates = true
      · simp [ha, h, grant, BringupStep.succeeds, Capability.mask]
      · simp [ha, h, grant, BringupStep.succeeds, Capability.mask]
    · simpa [teardownCalls, Event.teardown?] using h2
    · rw [hacq, h3]
      by_cases ha : env.associates = true
      · simp [ha, h, BringupStep.succeeds, BringupStep.capability, List.takeWhile]
      · simp [ha, h, BringupStep.succeeds, BringupStep.capability, List.takeWhile]
    · intro _
      refine ⟨h4, ?_, ?_, ?_, ?_⟩
      · simpa [connectAttempts] using h5
      · simpa using h6
      · simpa using h7
      · intro ha
        exact h8 (by simp [ha])
  · refine ⟨[.cy_wcm_init env.cy_wcm_init,
      .printf "\nWi-Fi Connection Manager initialization failed!\n"], 0, ?_, ?_, ?_, ?_⟩
    · rw [if_neg h]
      simp [h, acquired, grant, BringupStep.succeeds, Event.acquires?]
    · simp [teardownCalls, Event.teardown?]
    · simp [h, acquired, BringupStep.succeeds, Event.acquires?, List.takeWhile]
    · intro h2; exact absurd h2 h

/-- The status of `mqtt_get_unique_client_identifier` is `EXIT_FAILURE` exactly
when `snprintf` reports an error; the clock is read once. -/
theorem mqtt_get_unique_client_identifier_status (env : Env) (buf : List Nat) (s : State) :
    (mqtt_get_unique_client_identifier env buf s).1 =
        (if env.snprintf_error = true then EXIT_FAILURE else EXIT_SUCCESS) ∧
      (mqtt_get_unique_client_identifier env buf s).2.2 =
        s.emit (.IotClock_GetTimeMs env.IotClock_GetTimeMs) := by
  simp only [mqtt_get_unique_client_identifier, snprintf]
  cases env.snprintf_error
  · have hlen : ∀ a b : Nat, ¬ ((a : Int) + (b : Int) < 0) := fun a b => by omega
    simp [MQTT_CLIENT_IDENTIFIER_MAX_LEN, hlen]
  · simp

/-- What `mqtt_connect` does: its return value and the capabilities it
records. -/
theorem mqtt_connect_spec (env : Env) (s : State) :
    ∃ evs : List Event,
      mqtt_connect env s =
        (if [BringupStep.IotSdk_Init, .IotNetworkSecureSockets_Init, .IotMqtt_Init,
              .client_identifier, .IotMqtt_Connect].all (·.succeeds env) then EXIT_SUCCESS
          else EXIT_FAILURE,
          { s with init_flag := grant (acquired evs) s.init_flag, trace := s.trace ++ evs }) ∧
      teardownCalls evs = [] ∧
      acquired evs = ([BringupStep.IotSdk_Init, .IotNetworkSecureSockets_Init, .IotMqtt_Init,
        .client_identifier, .IotMqtt_Connect].takeWhile
          (·.succeeds env)).filterMap BringupStep.capability := by
  have hlen : ∀ a b : Nat, ¬ ((a : Int) + (b : Int) < 0) := fun a b => by omega
  refine ⟨(mqtt_connect env s).2.since s, ?_⟩
  cases h1 : env.IotSdk_Init
  · simp [mqtt_connect, CHECK_RESULT, h1, State.emit, State.since, BringupStep.succeeds,
      acquired, Event.acquires?, grant, teardownCalls, Event.teardown?, EXIT_FAILURE,
      EXIT_SUCCESS]
  · by_cases h2 : env.IotNetworkSecureSockets_Init = 0
    · by_cases h3 : env.IotMqtt_Init = 0
      · cases h4 : env.snprintf_error
        · by_cases h5 : env.IotMqtt_Connect = 0
          · simp [mqtt_connect, CHECK_RESULT, h1, h2, h3, h4, h5, State.emit, State.since,
              BringupStep.succeeds, acquired, Event.acquires?, grant, teardownCalls,
              Event.teardown?, EXIT_FAILURE, EXIT_SUCCESS, BringupStep.capability,
              Capability.mask, mqtt_get_unique_client_identifier, snprintf, hlen,
              MQTT_CLIENT_IDENTIFIER_MAX_LEN]
          · simp [mqtt_connect, CHECK_RESULT, h1, h2, h3, h4, h5, State.emit, State.since,
              BringupStep.succeeds, acquired, Event.acquires?, grant, teardownCalls,
              Event.teardown?, EXIT_FAILURE, EXIT_SUCCESS, BringupStep.capability,
              Capability.mask, mqtt_get_unique_client_identifier, snprintf, hlen,
              MQTT_CLIENT_IDENTIFIER_MAX_LEN]
        · simp [mqtt_connect, CHECK_RESULT, h1, h2, h3, h4, State.emit, State.since,
            BringupStep.succeeds, acquired, Event.acquires?, grant, teardownCalls,
            Event.teardown?, EXIT_FAILURE, EXIT_SUCCESS, BringupStep.capability,
            Capability.mask, mqtt_get_unique_client_identifier, snprintf]
      · simp [mqtt_connect, CHECK_RESULT, h1, h2, h3, State.emit, State.since,
          BringupStep.succeeds, acquired, Event.acquires?, grant, teardownCalls,
          Event.teardown?, EXIT_FAILURE, EXIT_SUCCESS, BringupStep.capability, Capability.mask]
    · simp [mqtt_connect, CHECK_RESULT, h1, h2, State.emit, State.since, BringupStep.succeeds,
        acquired, Event.acquires?, grant, teardownCalls, Event.teardown?, EXIT_FAILURE,
        EXIT_SUCCESS, BringupStep.capability, Capability.mask]

/-- A single bit of a number is non-zero under the mask exactly when it is set. -/
theorem and_two_pow_ne_zero (n i : Nat) : n &&& 2 ^ i ≠ 0 ↔ n.testBit i = true := by
  constructor
  · intro h
    by_contra hb
    apply h
    apply Nat.eq_of_testBit_eq
    intro j
    by_cases hij : i = j
    · subst hij; simp [hb]
    · simp [Nat.testBit_two_pow, hij]
  · intro hb h
    have : (n &&& 2 ^ i).testBit i = true := by simp [hb, Nat.testBit_two_pow_self]
    rw [h] at this
    simp at this

/-- The mask of a capability is the single bit at its position. -/
theorem Capability.mask_eq (c : Capability) : c.mask = 2 ^ c.bit := by
  cases c <;> rfl

/-- The mask of a teardown operation is the mask of the capability it releases. -/
theorem Capability.teardown_mask (c : Capability) : c.teardown.mask = c.mask := by
  cases c <;> rfl

/-- The bit positions of the capabilities are distinct. -/
theorem Capability.bit_injective {c d : Capability} (h : c.bit = d.bit) : c = d := by
  cases c <;> cases d <;> first | rfl | (exact absurd h (by decide))

/-- A bit of `grant caps flag` is set exactly when it was set in `flag` or is
the bit of one of the capabilities. -/
theorem testBit_grant (caps : List Capability) (flag i : Nat) :
    (grant caps flag).testBit i = (flag.testBit i || caps.any (fun c => c.bit = i)) := by
  induction caps generalizing flag with
  | nil => simp [grant]
  | cons c cs ih =>
    have := ih (flag ||| c.mask)
    simp only [grant, List.foldl_cons] at this ⊢
    rw [this, Nat.testBit_or, Capability.mask_eq, Nat.testBit_two_pow, List.any_cons,
      Bool.or_assoc]

/-- The bit of capability `c` is set in `grant caps 0` exactly when `c` is one
of the capabilities granted. -/
theorem grant_zero_and_mask (caps : List Capability) (c : Capability) :
    grant caps 0 &&& c.mask ≠ 0 ↔ c ∈ caps := by
  rw [Capability.mask_eq, and_two_pow_ne_zero, testBit_grant]
  simp only [Nat.zero_testBit, Bool.false_or, List.any_eq_true, decide_eq_true_eq]
  constructor
  · rintro ⟨d, hd, hbit⟩
    rwa [← Capability.bit_injective hbit]
  · intro h
    exact ⟨c, h, rfl⟩

/-- Granting the capabilities of two traces one after the other. -/
theorem grant_acquired_append (e1 e2 : List Event) (flag : Nat) :
    grant (acquired (e1 ++ e2)) flag = grant (acquired e2) (grant (acquired e1) flag) := by
  simp [grant, acquired, List.filterMap_append, List.foldl_append]

/-- What the bring-up condition of `mqtt_client_task` does: it is true exactly
when some bring-up step fails, and the capabilities recorded are those of the
steps before the first failing one. -/
theorem bring_up_failed_spec (env : Env) (s : State) :
    ∃ evs : List Event,
      bring_up_failed env s =
        (!bringupOrder.all (·.succeeds env),
          { s with init_flag := grant (acquired evs) s.init_flag, trace := s.trace ++ evs }) ∧
      teardownCalls evs = [] ∧
      acquired evs =
        (bringupOrder.takeWhile (·.succeeds env)).filterMap BringupStep.capability := by
  obtain ⟨e1, m, hw, ht1, ha1, -⟩ := wifi_connect_spec env s
  obtain ⟨e2, hm, ht2, ha2⟩ := mqtt_connect_spec env
    { s with init_flag := grant (acquired e1) s.init_flag, trace := s.trace ++ e1 }
  have happ : acquired (e1 ++ e2) = acquired e1 ++ acquired e2 := by
    simp [acquired, List.filterMap_append]
  have htd : teardownCalls (e1 ++ e2) = [] := by
    simp only [teardownCalls, List.filterMap_append] at ht1 ht2 ⊢
    rw [ht1, ht2]; rfl
  simp only [bring_up_failed, hw]
  simp only [List.all_cons, List.all_nil, Bool.and_true, bringupOrder, List.takeWhile_cons,
    List.takeWhile_nil] at hm ha1 ha2 ⊢
  generalize BringupStep.succeeds env .cy_wcm_init = b1 at *
  generalize BringupStep.succeeds env .cy_wcm_connect_ap = b2 at *
  generalize BringupStep.succeeds env .IotSdk_Init = b3 at *
  generalize BringupStep.succeeds env .IotNetworkSecureSockets_Init = b4 at *
  generalize BringupStep.succeeds env .IotMqtt_Init = b5 at *
  generalize BringupStep.succeeds env .client_identifier = b6 at *
  generalize BringupStep.succeeds env .IotMqtt_Connect = b7 at *
  cases b1 <;> cases b2 <;>
  first
  | (refine ⟨e1, ?_, ht1, ?_⟩ <;>
      simp_all [EXIT_SUCCESS, EXIT_FAILURE, BringupStep.capability] <;> done)
  | (cases b3 <;> cases b4 <;> cases b5 <;> cases b6 <;> cases b7 <;>
      refine ⟨e1 ++ e2, ?_, htd, ?_⟩ <;>
      simp_all [EXIT_SUCCESS, EXIT_FAILURE, BringupStep.capability, grant, List.append_assoc])

/-- When a search for the first element failing `p` finds `k`, the elements
taken while `p` holds are those before `k`. -/
theorem takeWhile_eq_of_find? {α : Type} [DecidableEq α] (p : α → Bool) (l : List α) (k : α)
    (h : l.find? (fun x => !p x) = some k) :
    l.takeWhile p = l.takeWhile (fun x => decide (x ≠ k)) := by
  induction l with
  | nil => simp at h
  | cons a l ih =>
    have hk : p k = false := by simpa using List.find?_some h
    by_cases ha : p a = true
    · have hne : a ≠ k := by
        intro he; rw [he, hk] at ha; exact absurd ha (by simp)
      have h' : l.find? (fun x => !p x) = some k := by
        simpa [List.find?_cons, ha] using h
      simp [List.takeWhile_cons, ha, hne, ih h']
    · have hak : a = k := by
        simpa [List.find?_cons, ha] using h
      subst hak
      simp [List.takeWhile_cons, hk]

/-- For capabilities forming an initial part of the acquisition order, the
operations `cleanup` calls from the flag that records them are their teardown
operations in reverse. -/
theorem filter_teardownOrder_of_initial (caps : List Capability)
    (h : caps <+: capabilityOrder) :
    teardownOrder.filter (fun op => grant caps 0 &&& op.mask ≠ 0) =
      (caps.map Capability.teardown).reverse := by
  rw [List.prefix_iff_eq_take] at h
  have hlen : caps.length ≤ 6 := by
    have := h.symm ▸ List.length_take_le caps.length capabilityOrder
    simpa [capabilityOrder] using (List.IsPrefix.length_le (List.prefix_iff_eq_take.mpr h))
  generalize caps.length = n at h hlen
  subst h
  interval_cases n <;> decide

/-- One guarded statement of `cleanup`: when the state `t` before it is `s` with
events `l` appended and its body appends `k`, the state after it is `s` with
`l` and, if the bit is set, `k` appended. -/
theorem State.guard_step {s t : State} {l : List Event}
    (h : t = { s with trace := s.trace ++ l }) (mask : Nat) (body : State) (k : List Event)
    (hb : body = { t with trace := t.trace ++ k }) :
    (if t.init_flag &&& mask ≠ 0 then body else t) =
      { s with trace := s.trace ++ (l ++ if s.init_flag &&& mask ≠ 0 then k else []) } := by
  subst hb
  subst h
  split_ifs <;> simp

/-- What `cleanup` leaves: the same variables, and a trace extended by the
calls whose bit is set and the two optional lines of diagnostics. -/
theorem cleanup_eq (env : Env) (s : State) :
    cleanup env s = { s with trace := s.trace ++
      ((if s.init_flag &&& CONNECTION_ESTABLISHED ≠ 0 then
          [Event.printf "Disconnecting from the MQTT Server...\n", Event.IotMqtt_Disconnect]
        else []) ++
       (if s.init_flag &&& LIBS_INITIALIZED ≠ 0 then [Event.IotMqtt_Cleanup] else []) ++
       (if s.init_flag &&& NETWORK_STACK_INITIALIZED ≠ 0 then
          [Event.IotNetworkSecureSockets_Cleanup env.IotNetworkSecureSockets_Cleanup]
        else []) ++
       (if s.init_flag &&& IOT_SDK_INITIALIZED ≠ 0 then [Event.IotSdk_Cleanup] else []) ++
       (if s.init_flag &&& WIFI_CONNECTED ≠ 0 then
          Event.cy_wcm_disconnect_ap env.cy_wcm_disconnect_ap ::
            (if env.cy_wcm_disconnect_ap = CY_RSLT_SUCCESS then
              [Event.printf "Disconnected from the Wi-Fi AP!\n"] else [])
        else []) ++
       (if s.init_flag &&& WCM_INITIALIZED ≠ 0 then
          [Event.cy_wcm_deinit env.cy_wcm_deinit] else [])) } := by
  unfold cleanup
  lift_lets
  extract_lets s1 s2 s3 s4 s4a s5 s6
  have e0 : s = { s with trace := s.trace ++ [] } := by simp
  have e1 : s1 = _ := State.guard_step e0 CONNECTION_ESTABLISHED
    ((s.emit (.printf "Disconnecting from the MQTT Server...\n")).emit .IotMqtt_Disconnect)
    [.printf "Disconnecting from the MQTT Server...\n", .IotMqtt_Disconnect]
    (by simp [State.emit])
  have e2 : s2 = _ := State.guard_step e1 LIBS_INITIALIZED (s1.emit .IotMqtt_Cleanup) [.IotMqtt_Cleanup] rfl
  have e3 : s3 = _ := State.guard_step e2 NETWORK_STACK_INITIALIZED
    (s2.emit (.IotNetworkSecureSockets_Cleanup env.IotNetworkSecureSockets_Cleanup))
    [.IotNetworkSecureSockets_Cleanup env.IotNetworkSecureSockets_Cleanup] rfl
  have e4 : s4 = _ := State.guard_step e3 IOT_SDK_INITIALIZED (s3.emit .IotSdk_Cleanup) [.IotSdk_Cleanup] rfl
  have e5 : s5 = _ := State.guard_step e4 WIFI_CONNECTED
    (if env.cy_wcm_disconnect_ap = CY_RSLT_SUCCESS then
      s4a.emit (.printf "Disconnected from the Wi-Fi AP!\n") else s4a)
    (Event.cy_wcm_disconnect_ap env.cy_wcm_disconnect_ap ::
      (if env.cy_wcm_disconnect_ap = CY_RSLT_SUCCESS then
        [Event.printf "Disconnected from the Wi-Fi AP!\n"] else []))
    (by simp only [s4a, State.emit]; split_ifs <;> simp)
  have e6 : s6 = _ := State.guard_step e5 WCM_INITIALIZED (s5.emit (.cy_wcm_deinit env.cy_wcm_deinit))
    [.cy_wcm_deinit env.cy_wcm_deinit] rfl
  rw [show s6 = _ from e6]
  simp only [List.nil_append, List.append_assoc]

/-- The events `cleanup` appends, as a function of `init_flag` and the outcome
of `cy_wcm_disconnect_ap`. -/
theorem cleanup_trace (env : Env) (s : State) :
    (cleanup env s).trace = s.trace ++
      ((if s.init_flag &&& CONNECTION_ESTABLISHED ≠ 0 then
          [Event.printf "Disconnecting from the MQTT Server...\n", Event.IotMqtt_Disconnect]
        else []) ++
       (if s.init_flag &&& LIBS_INITIALIZED ≠ 0 then [Event.IotMqtt_Cleanup] else []) ++
       (if s.init_flag &&& NETWORK_STACK_INITIALIZED ≠ 0 then
          [Event.IotNetworkSecureSockets_Cleanup env.IotNetworkSecureSockets_Cleanup]
        else []) ++
       (if s.init_flag &&& IOT_SDK_INITIALIZED ≠ 0 then [Event.IotSdk_Cleanup] else []) ++
       (if s.init_flag &&& WIFI_CONNECTED ≠ 0 then
          Event.cy_wcm_disconnect_ap env.cy_wcm_disconnect_ap ::
            (if env.cy_wcm_disconnect_ap = CY_RSLT_SUCCESS then
              [Event.printf "Disconnected from the Wi-Fi AP!\n"] else [])
        else []) ++
       (if s.init_flag &&& WCM_INITIALIZED ≠ 0 then
          [Event.cy_wcm_deinit env.cy_wcm_deinit] else [])) := by
  rw [cleanup_eq]

/-- The function `cleanup` changes neither `init_flag` nor `current_device_state`. -/
theorem cleanup_frame (env : Env) (s : State) :
    (cleanup env s).init_flag = s.init_flag ∧
      (cleanup env s).current_device_state = s.current_device_state := by
  rw [cleanup_eq]
  exact ⟨rfl, rfl⟩

/-- The teardown calls `cleanup` makes are the operations of `teardownOrder`
whose bit is set, in that order. -/
theorem cleanup_calls (env : Env) (s : State) :
    teardownCalls ((cleanup env s).since s) =
      teardownOrder.filter (fun op => s.init_flag &&& op.mask ≠ 0) := by
  rw [State.since, cleanup_trace, List.drop_left]
  by_cases h1 : s.init_flag &&& CONNECTION_ESTABLISHED = 0 <;>
  by_cases h2 : s.init_flag &&& LIBS_INITIALIZED = 0 <;>
  by_cases h3 : s.init_flag &&& NETWORK_STACK_INITIALIZED = 0 <;>
  by_cases h4 : s.init_flag &&& IOT_SDK_INITIALIZED = 0 <;>
  by_cases h5 : s.init_flag &&& WIFI_CONNECTED = 0 <;>
  by_cases h6 : s.init_flag &&& WCM_INITIALIZED = 0 <;>
  simp only [h1, h2, h3, h4, h5, h6, teardownCalls, teardownOrder, Teardown.mask, ne_eq,
    not_true_eq_false, not_false_eq_true, if_true, if_false, List.filter_cons,
    List.filter_nil, decide_True, decide_False, List.append_nil, List.nil_append,
    List.filterMap_append, List.filterMap_cons, List.filterMap_nil, Event.teardown?,
    List.cons_append, apply_ite (List.filterMap Event.teardown?), ite_self, Bool.false_eq_true]

/-- C1: for every `init_flag` and every outcome of the teardown calls, the
teardown calls made by `cleanup` are exactly the operations whose gating bit is
set, each once, as a sublist of the fixed order disconnect, MQTT library
cleanup, network stack cleanup, SDK cleanup, Wi-Fi disconnect, connection
manager deinit; an operation whose bit is clear is not called, and no outcome
of a teardown call changes which calls are made. -/
theorem C1_cleanup_gated_fixed_order (env : Env) (s : State) :
    teardownCalls ((cleanup env s).since s) =
        teardownOrder.filter (fun op => s.init_flag &&& op.mask ≠ 0) ∧
      (teardownCalls ((cleanup env s).since s)).Sublist teardownOrder ∧
      (teardownCalls ((cleanup env s).since s)).Nodup ∧
      (∀ op : Teardown, op ∈ teardownCalls ((cleanup env s).since s) ↔
        s.init_flag &&& op.mask ≠ 0) ∧
      (∀ env2 : Env, teardownCalls ((cleanup env2 s).since s) =
        teardownCalls ((cleanup env s).since s)) := by
  have hnodup : teardownOrder.Nodup := by decide
  refine ⟨cleanup_calls env s, ?_, ?_, ?_, ?_⟩
  · rw [cleanup_calls]; exact List.filter_sublist _
  · rw [cleanup_calls]; exact hnodup.filter _
  · intro op
    rw [cleanup_calls, List.mem_filter]
    have hmem : op ∈ teardownOrder := by cases op <;> decide
    simp [hmem]
  · intro env2
    rw [cleanup_calls, cleanup_calls]

/-- The teardown calls of two traces one after the other. -/
theorem teardownCalls_append (a b : List Event) :
    teardownCalls (a ++ b) = teardownCalls a ++ teardownCalls b := by
  simp [teardownCalls, List.filterMap_append]

/-- The trace after `cleanup` is the trace before it followed by the events
`cleanup` appended. -/
theorem cleanup_trace_since (env : Env) (s : State) :
    (cleanup env s).trace = s.trace ++ (cleanup env s).since s := by
  rw [State.since, cleanup_trace, List.drop_left]

/-- The capabilities of the bring-up steps are the capabilities in the order of
their acquisition. -/
theorem bringupOrder_capabilities :
    bringupOrder.filterMap BringupStep.capability = capabilityOrder := by
  decide

/-- When the bring-up fails, `mqtt_client_task` runs `cleanup` on the flag that
records the capabilities acquired, and deletes itself: the teardown calls it
makes are those of `cleanup`. -/
theorem mqtt_client_task_of_failure (env : Env) (s : State) (k : BringupStep)
    (hk : firstFailing env = some k) :
    (mqtt_client_task env s).1 = Ending.task_deleted ∧
      teardownCalls ((mqtt_client_task env s).2.since s) =
        teardownOrder.filter (fun op =>
          grant ((bringupOrder.takeWhile (fun step => decide (step ≠ k))).filterMap
            BringupStep.capability) s.init_flag &&& op.mask ≠ 0) := by
  obtain ⟨evs, hb, ht, ha⟩ := bring_up_failed_spec env
    { (s.emit (.xQueueCreate MQTT_STATUS_QUEUE_LENGTH)) with
      mqtt_status_q := some (xQueueCreate MQTT_STATUS_QUEUE_LENGTH) }
  have hfail : bringupOrder.all (·.succeeds env) = false := by
    have hk' := List.find?_some hk
    have hmem := List.mem_of_find?_eq_some hk
    rw [List.all_eq_false]
    exact ⟨k, hmem, by simpa using hk'⟩
  have htw := takeWhile_eq_of_find? (fun step : BringupStep => step.succeeds env)
    bringupOrder k hk
  rw [htw] at ha
  rw [hfail] at hb
  simp only [mqtt_client_task, hb, Bool.not_false, if_true, exit_cleanup]
  refine ⟨trivial, ?_⟩
  simp only [State.emit, State.since]
  rw [cleanup_trace_since]
  simp only [List.append_assoc, List.drop_left, teardownCalls_append, cleanup_calls, ht, ha]
  simp [teardownCalls, Event.teardown?]

/-- The teardown operation of a capability acquired by the failing step or by
a later one is not among the teardown operations of the earlier steps. -/
theorem later_steps_not_torn_down (k step : BringupStep) (c : Capability)
    (hstep : step ∈ bringupOrder.dropWhile (fun step => decide (step ≠ k)))
    (hc : step.capability = some c) :
    c.teardown ∉ (((bringupOrder.takeWhile (fun step => decide (step ≠ k))).filterMap
      BringupStep.capability).map Capability.teardown).reverse := by
  revert hstep hc
  cases k <;> cases step <;> cases c <;> decide

/-- C2: starting from `init_flag = 0`, when the first failing bring-up step is
`k`, `mqtt_client_task` ends by deleting itself, and the teardown calls it made
are exactly the teardown operations of the capabilities acquired by the steps
before `k`, in the reverse of the order of acquisition; no teardown operation
of step `k` or of a later step is called. -/
theorem C2_failed_bringup_teardown (env : Env) (s : State) (k : BringupStep)
    (h0 : s.init_flag = 0) (hk : firstFailing env = some k) :
    (mqtt_client_task env s).1 = Ending.task_deleted ∧
      teardownCalls ((mqtt_client_task env s).2.since s) =
        (((bringupOrder.takeWhile (fun step => decide (step ≠ k))).filterMap
          BringupStep.capability).map Capability.teardown).reverse ∧
      ∀ step ∈ bringupOrder.dropWhile (fun step => decide (step ≠ k)), ∀ c : Capability,
        step.capability = some c →
          c.teardown ∉ teardownCalls ((mqtt_client_task env s).2.since s) := by
  obtain ⟨hend, hcalls⟩ := mqtt_client_task_of_failure env s k hk
  have hpre : (bringupOrder.takeWhile (fun step => decide (step ≠ k))).filterMap
      BringupStep.capability <+: capabilityOrder := by
    rw [← bringupOrder_capabilities]
    exact List.IsPrefix.filterMap _ ( List.takeWhile_prefix _)
  rw [h0, filter_teardownOrder_of_initial _ hpre] at hcalls
  refine ⟨hend, hcalls, ?_⟩
  intro step hstep c hc
  rw [hcalls]
  exact later_steps_not_torn_down k step c hstep hc

/-- C2, at the start state, in an environment where the initialization of the
MQTT library is the first step to fail: the network stack, the SDK, the link
and the connection manager are torn down, in this order. -/
theorem C2_failed_bringup_teardown_witness :
    State.initial.init_flag = 0 ∧
      firstFailing Env.mqttInitFails = some BringupStep.IotMqtt_Init ∧
      teardownCalls ((mqtt_client_task Env.mqttInitFails State.initial).2.since State.initial) =
        [Teardown.IotNetworkSecureSockets_Cleanup, .IotSdk_Cleanup, .cy_wcm_disconnect_ap,
          .cy_wcm_deinit] :=
  ⟨rfl, by decide,
    (C2_failed_bringup_teardown Env.mqttInitFails State.initial .IotMqtt_Init rfl
      (by decide)).2.1⟩

/-- No association attempt succeeds exactly when `Env.associates` is false. -/
theorem Env.associates_eq_false_iff (env : Env) :
    env.associates = false ↔
      ∀ i, i < env.MAX_WIFI_CONN_RETRIES → env.cy_wcm_connect_ap i ≠ CY_RSLT_SUCCESS := by
  simp [Env.associates, List.any_eq_false, List.mem_range]

/-- C3: starting from `init_flag = 0`, after `wifi_connect` followed, when it
succeeded, by `mqtt_connect`, the bit of a capability is set in `init_flag`
exactly when the run contains the initialization call of that capability with
a successful result. When `cy_wcm_init` succeeds and every association attempt
fails, `init_flag` is exactly `WCM_INITIALIZED`; when `cy_wcm_init` fails it
is still `0`. -/
theorem C3_capability_bits (env : Env) (s : State) (h0 : s.init_flag = 0) :
    (∀ c : Capability, (bring_up_failed env s).2.init_flag &&& c.mask ≠ 0 ↔
        ∃ e ∈ (bring_up_failed env s).2.since s, e.acquires? = some c) ∧
      (env.cy_wcm_init = CY_RSLT_SUCCESS →
        (∀ i, i < env.MAX_WIFI_CONN_RETRIES → env.cy_wcm_connect_ap i ≠ CY_RSLT_SUCCESS) →
          (bring_up_failed env s).1 = true ∧
          (bring_up_failed env s).2.init_flag = WCM_INITIALIZED ∧
          (wifi_connect env s).2.init_flag = WCM_INITIALIZED) ∧
      (env.cy_wcm_init ≠ CY_RSLT_SUCCESS →
        (bring_up_failed env s).1 = true ∧
        (bring_up_failed env s).2.init_flag = 0 ∧
        (wifi_connect env s).2.init_flag = 0) := by
  obtain ⟨evs, hb, -, ha⟩ := bring_up_failed_spec env s
  obtain ⟨e1, m, hw, -, ha1, -⟩ := wifi_connect_spec env s
  rw [hb, hw]
  simp only [State.since, List.drop_left, h0]
  refine ⟨?_, ?_, ?_⟩
  · intro c
    rw [grant_zero_and_mask]
    simp [acquired, List.mem_filterMap]
  · intro hinit hall
    have hassoc := (Env.associates_eq_false_iff env).mpr hall
    rw [ha, ha1]
    simp [bringupOrder, BringupStep.succeeds, hinit, hassoc, BringupStep.capability, grant,
      Capability.mask]
  · intro hinit
    rw [ha, ha1]
    simp [bringupOrder, BringupStep.succeeds, hinit, grant]

/-- C3, at the start state with every association attempt failing: the run
fails and `init_flag` is `WCM_INITIALIZED`. -/
theorem C3_capability_bits_witness :
    State.initial.init_flag = 0 ∧
      (bring_up_failed Env.neverAssociates State.initial).2.init_flag = WCM_INITIALIZED :=
  ⟨rfl, ((C3_capability_bits Env.neverAssociates State.initial rfl).2.1 rfl
    (fun _ _ => Nat.one_ne_zero)).2.1⟩

/-- After a non-empty sequence of overwrites the queue holds the last item
written in place of its oldest item. -/
theorem foldl_xQueueOverwrite (w : List mqtt_result_t) (q : Queue) (h : w ≠ []) :
    w.foldl xQueueOverwrite q = { q with items := w.getLast h :: q.items.tail } := by
  induction w generalizing q with
  | nil => exact absurd rfl h
  | cons v w ih =>
    cases w with
    | nil => simp [xQueueOverwrite]
    | cons v2 w2 =>
      rw [List.foldl_cons, ih _ (by simp)]
      simp [xQueueOverwrite]

/-- Overwrites on a queue handle that is not `NULL`. -/
theorem foldl_map_xQueueOverwrite (w : List mqtt_result_t) (q : Queue) :
    w.foldl (fun (o : Option Queue) v => o.map (xQueueOverwrite · v)) (some q) =
      some (w.foldl xQueueOverwrite q) := by
  induction w generalizing q with
  | nil => rfl
  | cons v w ih => simp [List.foldl_cons, ih]

/-- The writes of two traces one after the other. -/
theorem statusWrites_append (a b : List Event) :
    statusWrites (a ++ b) = statusWrites a ++ statusWrites b := by
  simp [statusWrites, List.filterMap_append]

/-- One iteration of the loop of `publisher_task` with the notification `v`
pending: the notification is consumed, the payload for `v` and its length are
stored in `publishInfo`, the publish is made; when it fails the failure is
written to the status queue and the task suspends itself. -/
theorem publisher_task_loop_eq (result : Nat) (s : State) (v : Nat)
    (hn : s.publisher_notification = some v) :
    MqttClient.publisher_task_loop result s =
      some (decide (result = IOT_MQTT_SUCCESS),
        { s with
          publisher_notification := none
          publishInfo := { s.publishInfo with
            pPayload := payloadFor v, payloadLength := strlen (payloadFor v) }
          mqtt_status_q :=
            if result = IOT_MQTT_SUCCESS then s.mqtt_status_q
            else s.mqtt_status_q.map (xQueueOverwrite · .MQTT_PUBLISH_FAILURE)
          trace := s.trace ++
            ([.printf "Publishing '%s' on the topic '%s'\n\n",
              .IotMqtt_PublishSync { s.publishInfo with
                pPayload := payloadFor v, payloadLength := strlen (payloadFor v) }
                0 MQTT_TIMEOUT_MS result] ++
            (if result = IOT_MQTT_SUCCESS then []
              else [.printf "MQTT Publish failed with error '%s'.\n\n",
                .xQueueOverwrite .MQTT_PUBLISH_FAILURE, .vTaskSuspend .publisher_task])) }) := by
  by_cases hv : v = DEVICE_ON_STATE <;> by_cases hr : result = IOT_MQTT_SUCCESS <;>
    simp [MqttClient.publisher_task_loop, hn, hv, hr, payloadFor, State.emit]

/-- One step of a writer appends events to the trace and changes the status
queue by the calls of `xQueueOverwrite` among these events, and by nothing
else. -/
theorem StatusSender.run_spec (a : StatusSender) (s : State) :
    ∃ evs : List Event,
      (a.run s).trace = s.trace ++ evs ∧
      (a.run s).mqtt_status_q =
        (statusWrites evs).foldl (fun (o : Option Queue) v => o.map (xQueueOverwrite · v))
          s.mqtt_status_q := by
  refine ⟨(a.run s).since s, ?_⟩
  cases a with
  | publisher_task_loop result =>
    cases hn : s.publisher_notification with
    | none => simp [StatusSender.run, MqttClient.publisher_task_loop, hn, State.since, statusWrites]
    | some v =>
      by_cases hr : result = IOT_MQTT_SUCCESS
      · simp [StatusSender.run, publisher_task_loop_eq _ _ _ hn, hr, State.since, statusWrites]
      · simp [StatusSender.run, publisher_task_loop_eq _ _ _ hn, hr, State.since, statusWrites]
  | subscriber_task result =>
    by_cases hr : result = EXIT_SUCCESS
    · simp [StatusSender.run, MqttClient.subscriber_task, hr, State.since, statusWrites,
        State.emit]
    · simp [StatusSender.run, MqttClient.subscriber_task, hr, State.since, statusWrites,
        State.emit]
  | mqtt_disconnect_callback reason =>
    by_cases hr : reason = .IOT_MQTT_DISCONNECT_CALLED
    · simp [StatusSender.run, MqttClient.mqtt_disconnect_callback, hr, State.since,
        statusWrites]
    · simp [StatusSender.run, MqttClient.mqtt_disconnect_callback, hr, State.since,
        statusWrites, State.emit]

/-- The steps of a sequence of writers append events to the trace and change
the status queue by the calls of `xQueueOverwrite` among these events. -/
theorem runSenders_spec (l : List StatusSender) (s : State) :
    ∃ evs : List Event,
      (runSenders l s).trace = s.trace ++ evs ∧
      (runSenders l s).mqtt_status_q =
        (statusWrites evs).foldl (fun (o : Option Queue) v => o.map (xQueueOverwrite · v))
          s.mqtt_status_q := by
  induction l generalizing s with
  | nil => exact ⟨[], by simp [runSenders], by simp [runSenders, statusWrites]⟩
  | cons a l ih =>
    obtain ⟨e1, ht1, hq1⟩ := a.run_spec s
    obtain ⟨e2, ht2, hq2⟩ := ih (a.run s)
    refine ⟨e1 ++ e2, ?_, ?_⟩
    · simp only [runSenders, List.foldl_cons] at ht2 ⊢
      rw [ht2, ht1, List.append_assoc]
    · simp only [runSenders, List.foldl_cons] at hq2 ⊢
      rw [hq2, hq1, statusWrites_append, List.foldl_append]

/-- C5: the status queue is created with length one, and each of its writers
(the publisher, the subscriber, the disconnect callback) changes it through
`xQueueOverwrite` only. From a queue of that length holding at most one item,
after any sequence of steps of the writers with no receive in between, the
queue still holds at most one item; when no write was made it is unchanged, and
otherwise the next receive yields the item written last and leaves the queue
empty. -/
theorem C5_status_queue_last_write_wins (l : List StatusSender) (s : State) (q : Queue)
    (hq : s.mqtt_status_q = some q) (hcap : q.uxLength = MQTT_STATUS_QUEUE_LENGTH)
    (hwf : q.items.length ≤ q.uxLength) :
    (xQueueCreate MQTT_STATUS_QUEUE_LENGTH).uxLength = 1 ∧
      ∃ q' : Queue,
        (runSenders l s).mqtt_status_q = some q' ∧
        q'.uxLength = 1 ∧
        q'.items.length ≤ 1 ∧
        (statusWrites ((runSenders l s).since s) = [] → q' = q) ∧
        ∀ h : statusWrites ((runSenders l s).since s) ≠ [],
          xQueueReceive q' =
            some ((statusWrites ((runSenders l s).since s)).getLast h, { q with items := [] }) := by
  obtain ⟨evs, ht, hqs⟩ := runSenders_spec l s
  have hsince : (runSenders l s).since s = evs := by
    simp [State.since, ht]
  have hcap1 : q.uxLength = 1 := hcap
  have hlen : q.items.length ≤ 1 := hcap1 ▸ hwf
  have htail : q.items.tail = [] := by
    cases hi : q.items with
    | nil => rfl
    | cons a t =>
      cases t with
      | nil => rfl
      | cons b t2 => rw [hi] at hlen; simp at hlen
  rw [hsince, hqs, hq, foldl_map_xQueueOverwrite]
  refine ⟨rfl, _, rfl, ?_, ?_, ?_, ?_⟩
  · by_cases hw : statusWrites evs = []
    · simp [hw, hcap1]
    · rw [foldl_xQueueOverwrite _ _ hw]; exact hcap1
  · by_cases hw : statusWrites evs = []
    · simp [hw, hlen]
    · rw [foldl_xQueueOverwrite _ _ hw, htail]; simp
  · intro hw
    simp [hw]
  · intro hw
    rw [foldl_xQueueOverwrite _ _ hw, htail]
    simp [xQueueReceive]

/-- C5, for a failed subscription, a failed publish and an unexpected
disconnect in this order, on the freshly created queue: the receive yields
`MQTT_DISCONNECT`. -/
theorem C5_status_queue_last_write_wins_witness :
    State.supervised.mqtt_status_q = some (xQueueCreate MQTT_STATUS_QUEUE_LENGTH) ∧
      (xQueueCreate MQTT_STATUS_QUEUE_LENGTH).uxLength = MQTT_STATUS_QUEUE_LENGTH ∧
      (xQueueCreate MQTT_STATUS_QUEUE_LENGTH).items.length ≤
        (xQueueCreate MQTT_STATUS_QUEUE_LENGTH).uxLength ∧
      ∃ q' : Queue,
        (runSenders [.subscriber_task 1, .publisher_task_loop 1,
          .mqtt_disconnect_callback .IOT_MQTT_KEEP_ALIVE_TIMEOUT]
            State.supervised).mqtt_status_q = some q' ∧
        xQueueReceive q' = some (mqtt_result_t.MQTT_DISCONNECT,
          { xQueueCreate MQTT_STATUS_QUEUE_LENGTH with items := [] }) := by
  refine ⟨rfl, rfl, by decide, ?_⟩
  obtain ⟨-, q', h1, -, -, -, h2⟩ := C5_status_queue_last_write_wins
    [.subscriber_task 1, .publisher_task_loop 1,
      .mqtt_disconnect_callback .IOT_MQTT_KEEP_ALIVE_TIMEOUT]
    State.supervised (xQueueCreate MQTT_STATUS_QUEUE_LENGTH) rfl rfl (by decide)
  exact ⟨q', h1, h2 (by decide)⟩

/-- The length of a byte sequence without NUL, as `strlen` computes it. -/
theorem strlen_eq_length (a : List Nat) (h : ∀ c ∈ a, c ≠ 0) : strlen a = a.length := by
  unfold strlen
  rw [List.takeWhile_eq_self_iff.mpr]
  intro c hc
  simpa using h c hc

/-- Comparing a string literal without NUL with memory, over the length of the
literal: `strncmp` returns 0 exactly when the bytes are those of the literal. -/
theorem strncmp_literal (a : List Nat) (h : ∀ c ∈ a, c ≠ 0) (p : Nat → Nat) :
    strncmp (literal a) p a.length = 0 ↔ payloadBytes p a.length = a := by
  induction a generalizing p with
  | nil => simp [strncmp, payloadBytes]
  | cons c a ih =>
    have hc : c ≠ 0 := h c (List.mem_cons_self _ _)
    have hshift : (fun i => literal (c :: a) (i + 1)) = literal a := by
      funext i; simp [literal]
    have h0 : literal (c :: a) 0 = c := by simp [literal]
    have ih' := ih (fun c' hc' => h c' (List.mem_cons_of_mem _ hc')) (fun i => p (i + 1))
    have hrange : payloadBytes p (a.length + 1) =
        p 0 :: payloadBytes (fun i => p (i + 1)) a.length := by
      simp [payloadBytes, List.range_succ_eq_map, Function.comp_def]
    rw [List.length_cons, hrange, strncmp, hshift, h0]
    by_cases hp : c = p 0
    · simp [hp.symm, hc, ih']
    · have hne : (c : Int) - (p 0 : Int) ≠ 0 := by
        intro he
        apply hp
        omega
      have hp' : ¬ p 0 = c := fun he => hp he.symm
      simp [hp, hne, hp']

/-- The test `mqtt_subscription_callback` makes for one command: the length of
the command equals `payloadLength` and `strncmp` returns 0, exactly when the
payload is the byte sequence of the command. -/
theorem command_test_iff (a : List Nat) (h : ∀ c ∈ a, c ≠ 0) (p : Nat → Nat) (n : Nat) :
    (strlen a = n ∧ strncmp (literal a) p n = 0) ↔ payloadBytes p n = a := by
  rw [strlen_eq_length a h]
  constructor
  · rintro ⟨rfl, hcmp⟩
    exact (strncmp_literal a h p).mp hcmp
  · intro hb
    have hn : a.length = n := by
      rw [← hb]; simp [payloadBytes]
    subst hn
    exact ⟨rfl, (strncmp_literal a h p).mpr hb⟩

/-- Neither command contains a NUL byte. -/
theorem commands_without_nul :
    (∀ c ∈ MQTT_DEVICE_ON_MESSAGE, c ≠ 0) ∧ (∀ c ∈ MQTT_DEVICE_OFF_MESSAGE, c ≠ 0) := by
  decide

/-- C6: `mqtt_subscription_callback` notifies the subscriber task with
`DEVICE_ON_STATE` exactly when the payload is the 7 bytes `TURN ON`, with
`DEVICE_OFF_STATE` exactly when it is the 8 bytes `TURN OFF`; it never writes
to the status queue and never changes `current_device_state`; for every other
payload it sends no notification and changes nothing but the diagnostics. -/
theorem C6_subscription_callback_exact_match (pPayload : Nat → Nat) (payloadLength : Nat)
    (s : State) :
    MQTT_DEVICE_ON_MESSAGE.length = 7 ∧ MQTT_DEVICE_OFF_MESSAGE.length = 8 ∧
      subscriberNotifications ((mqtt_subscription_callback pPayload payloadLength s).since s) =
        (if payloadBytes pPayload payloadLength = MQTT_DEVICE_ON_MESSAGE then [DEVICE_ON_STATE]
          else if payloadBytes pPayload payloadLength = MQTT_DEVICE_OFF_MESSAGE then
            [DEVICE_OFF_STATE]
          else []) ∧
      (DEVICE_ON_STATE ∈ subscriberNotifications
          ((mqtt_subscription_callback pPayload payloadLength s).since s) ↔
        payloadBytes pPayload payloadLength = MQTT_DEVICE_ON_MESSAGE) ∧
      (DEVICE_OFF_STATE ∈ subscriberNotifications
          ((mqtt_subscription_callback pPayload payloadLength s).since s) ↔
        payloadBytes pPayload payloadLength = MQTT_DEVICE_OFF_MESSAGE) ∧
      statusWrites ((mqtt_subscription_callback pPayload payloadLength s).since s) = [] ∧
      (mqtt_subscription_callback pPayload payloadLength s).mqtt_status_q = s.mqtt_status_q ∧
      (mqtt_subscription_callback pPayload payloadLength s).current_device_state =
        s.current_device_state ∧
      (payloadBytes pPayload payloadLength ≠ MQTT_DEVICE_ON_MESSAGE →
        payloadBytes pPayload payloadLength ≠ MQTT_DEVICE_OFF_MESSAGE →
        ∃ lines : List Event,
          mqtt_subscription_callback pPayload payloadLength s =
            { s with trace := s.trace ++ lines } ∧
          ∀ e ∈ lines, ∃ format, e = Event.printf format) := by
  have hon := command_test_iff MQTT_DEVICE_ON_MESSAGE commands_without_nul.1 pPayload
    payloadLength
  have hoff := command_test_iff MQTT_DEVICE_OFF_MESSAGE commands_without_nul.2 pPayload
    payloadLength
  have hne : MQTT_DEVICE_ON_MESSAGE ≠ MQTT_DEVICE_OFF_MESSAGE := by decide
  refine ⟨by decide, by decide, ?_⟩
  unfold mqtt_subscription_callback
  simp only [hon, hoff]
  by_cases h1 : payloadBytes pPayload payloadLength = MQTT_DEVICE_ON_MESSAGE
  · have h2 : payloadBytes pPayload payloadLength ≠ MQTT_DEVICE_OFF_MESSAGE := by
      rw [h1]; exact hne
    simp [h1, hne, notify_subscriber, State.emit, State.since, subscriberNotifications,
      statusWrites, DEVICE_ON_STATE, DEVICE_OFF_STATE]
  · by_cases h2 : payloadBytes pPayload payloadLength = MQTT_DEVICE_OFF_MESSAGE
    · simp [h2, hne.symm, notify_subscriber, State.emit, State.since,
        subscriberNotifications, statusWrites, DEVICE_ON_STATE, DEVICE_OFF_STATE]
    · simp [h1, h2, State.emit, State.since, subscriberNotifications, statusWrites]

/-- The digits written by `%lu` are ASCII digits, hence not NUL. -/
theorem format_lu_aux_ge (fuel n : Nat) (acc : List Nat) (h : ∀ c ∈ acc, 48 ≤ c) :
    ∀ c ∈ format_lu_aux fuel n acc, 48 ≤ c := by
  induction fuel generalizing n acc with
  | zero => simpa [format_lu_aux] using h
  | succ fuel ih =>
    unfold format_lu_aux
    split_ifs with hn
    · intro c hc
      rcases List.mem_cons.mp hc with rfl | hc
      · omega
      · exact h c hc
    · apply ih
      intro c hc
      rcases List.mem_cons.mp hc with rfl | hc
      · omega
      · exact h c hc

/-- No byte of the text of the identifier is NUL. -/
theorem identifierText_ne_zero (env : Env) : ∀ c ∈ identifierText env, c ≠ 0 := by
  intro c hc
  rcases List.mem_append.mp hc with hc | hc
  · have : ∀ c ∈ MQTT_CLIENT_IDENTIFIER_PREFIX, c ≠ 0 := by decide
    exact this c hc
  · have := format_lu_aux_ge _ _ [] (by simp) c hc
    omega

/-- The buffer after `mqtt_get_unique_client_identifier` when `snprintf` reports
no error: the first 23 bytes of the text, a NUL, and the rest of the buffer. -/
theorem identifier_written (env : Env) (buf : List Nat) (s : State)
    (herr : env.snprintf_error = false) :
    (mqtt_get_unique_client_identifier env buf s).2.1 =
      (identifierText env).take 23 ++ 0 :: buf.drop (((identifierText env).take 23).length + 1) := by
  simp [mqtt_get_unique_client_identifier, snprintf, herr, MQTT_CLIENT_IDENTIFIER_MAX_LEN,
    identifierText]

/-- The length `strlen` finds in a buffer that holds a text without NUL
followed by a NUL. -/
theorem strlen_terminated (t rest : List Nat) (h : ∀ c ∈ t, c ≠ 0) :
    strlen (t ++ 0 :: rest) = t.length := by
  unfold strlen
  rw [List.takeWhile_append_of_pos (by intro c hc; simpa using h c hc)]
  simp

/-- C7: when `mqtt_get_unique_client_identifier` returns `EXIT_SUCCESS` on a
buffer of `MQTT_CLIENT_IDENTIFIER_MAX_LEN` = 24 bytes, the buffer still has 24
bytes, the string in it has at most 23 characters and is followed by a NUL
inside the buffer, and it begins with `MQTT_CLIENT_IDENTIFIER_PREFIX`; the
string is the first 23 characters of the prefix followed by the clock reading
in decimal. -/
theorem C7_identifier_fits_buffer (env : Env) (buf : List Nat) (s : State)
    (hbuf : buf.length = MQTT_CLIENT_IDENTIFIER_MAX_LEN)
    (hok : (mqtt_get_unique_client_identifier env buf s).1 = EXIT_SUCCESS) :
    (mqtt_get_unique_client_identifier env buf s).2.1.length = MQTT_CLIENT_IDENTIFIER_MAX_LEN ∧
      MQTT_CLIENT_IDENTIFIER_MAX_LEN - 1 = 23 ∧
      strlen (mqtt_get_unique_client_identifier env buf s).2.1 ≤
        MQTT_CLIENT_IDENTIFIER_MAX_LEN - 1 ∧
      (mqtt_get_unique_client_identifier env buf s).2.1[
        strlen (mqtt_get_unique_client_identifier env buf s).2.1]? = some 0 ∧
      MQTT_CLIENT_IDENTIFIER_PREFIX <+:
        (mqtt_get_unique_client_identifier env buf s).2.1.take
          (strlen (mqtt_get_unique_client_identifier env buf s).2.1) ∧
      (mqtt_get_unique_client_identifier env buf s).2.1.take
          (strlen (mqtt_get_unique_client_identifier env buf s).2.1) =
        (identifierText env).take 23 := by
  have herr : env.snprintf_error = false := by
    have h1 := (mqtt_get_unique_client_identifier_status env buf s).1
    rw [hok] at h1
    cases he : env.snprintf_error
    · rfl
    · rw [he] at h1; simp [EXIT_SUCCESS, EXIT_FAILURE] at h1
  have hnz : ∀ c ∈ (identifierText env).take 23, c ≠ 0 :=
    fun c hc => identifierText_ne_zero env c (List.mem_of_mem_take hc)
  have hlen23 : ((identifierText env).take 23).length ≤ 23 := by
    rw [List.length_take]; omega
  have hbuf24 : buf.length = 24 := hbuf
  rw [identifier_written env buf s herr, strlen_terminated _ _ hnz]
  refine ⟨?_, rfl, hlen23, ?_, ?_, ?_⟩
  · simp only [List.length_append, List.length_cons, List.length_drop,
      MQTT_CLIENT_IDENTIFIER_MAX_LEN]
    omega
  · rw [List.getElem?_append_right (Nat.le_refl _)]
    simp
  · rw [List.take_left]
    have hpre : MQTT_CLIENT_IDENTIFIER_PREFIX.length ≤ 23 := by decide
    rw [identifierText, List.take_append_eq_append_take, List.take_of_length_le hpre]
    exact List.prefix_append _ _
  · rw [List.take_left]

/-- C7, for the clock reading 4321 and the zeroed buffer of `mqtt_connect`: the
identifier is `psoc6-mqtt-client4321`. -/
theorem C7_identifier_fits_buffer_witness :
    (List.replicate MQTT_CLIENT_IDENTIFIER_MAX_LEN 0).length = MQTT_CLIENT_IDENTIFIER_MAX_LEN ∧
      (mqtt_get_unique_client_identifier Env.allSucceed
        (List.replicate MQTT_CLIENT_IDENTIFIER_MAX_LEN 0) State.initial).1 = EXIT_SUCCESS ∧
      (mqtt_get_unique_client_identifier Env.allSucceed
        (List.replicate MQTT_CLIENT_IDENTIFIER_MAX_LEN 0) State.initial).2.1.take
          (strlen (mqtt_get_unique_client_identifier Env.allSucceed
            (List.replicate MQTT_CLIENT_IDENTIFIER_MAX_LEN 0) State.initial).2.1) =
        "psoc6-mqtt-client4321".toList.map Char.toNat :=
  ⟨by decide, by decide,
    (C7_identifier_fits_buffer Env.allSucceed
      (List.replicate MQTT_CLIENT_IDENTIFIER_MAX_LEN 0) State.initial (by decide)
      (by decide)).2.2.2.2.2.trans (by decide)⟩

/-- C8: at the clock reading 1000000 the prefix and the decimal clock value
take 24 characters, one more than the buffer can hold; `snprintf` returns 24,
which is not negative, so `mqtt_get_unique_client_identifier` returns
`EXIT_SUCCESS` with the identifier cut to `psoc6-mqtt-client100000`, and
`mqtt_connect` goes on to call `IotMqtt_Connect` with it and succeeds. -/
theorem C8_overlong_identifier_returns_success :
    (identifierText Env.clock1000000).length = 24 ∧
      (mqtt_get_unique_client_identifier Env.clock1000000
        (List.replicate MQTT_CLIENT_IDENTIFIER_MAX_LEN 0) State.initial).1 = EXIT_SUCCESS ∧
      (mqtt_get_unique_client_identifier Env.clock1000000
        (List.replicate MQTT_CLIENT_IDENTIFIER_MAX_LEN 0) State.initial).2.1 =
        "psoc6-mqtt-client100000".toList.map Char.toNat ++ [0] ∧
      (mqtt_connect Env.clock1000000 State.initial).1 = EXIT_SUCCESS ∧
      acquired (mqtt_connect Env.clock1000000 State.initial).2.trace =
        [Capability.iot_sdk, .network_stack, .libs, .connection] := by
  decide

/-- C9: the clock readings 1000000 and 1000001 differ, and for both
`mqtt_get_unique_client_identifier` returns `EXIT_SUCCESS` and leaves the same
identifier, `psoc6-mqtt-client100000`, in the buffer. -/
theorem C9_distinct_clock_readings_same_identifier :
    Env.clock1000000.IotClock_GetTimeMs ≠ Env.clock1000001.IotClock_GetTimeMs ∧
      (mqtt_get_unique_client_identifier Env.clock1000000
        (List.replicate MQTT_CLIENT_IDENTIFIER_MAX_LEN 0) State.initial).1 = EXIT_SUCCESS ∧
      (mqtt_get_unique_client_identifier Env.clock1000001
        (List.replicate MQTT_CLIENT_IDENTIFIER_MAX_LEN 0) State.initial).1 = EXIT_SUCCESS ∧
      (mqtt_get_unique_client_identifier Env.clock1000000
        (List.replicate MQTT_CLIENT_IDENTIFIER_MAX_LEN 0) State.initial).2.1 =
      (mqtt_get_unique_client_identifier Env.clock1000001
        (List.replicate MQTT_CLIENT_IDENTIFIER_MAX_LEN 0) State.initial).2.1 := by
  decide

/-- No action changes the fields of `publishInfo` that its initialiser sets. -/
theorem System.step_publishInfo_static (sys : System) (a : Action) :
    (sys.step a).state.publishInfo.static = sys.state.publishInfo.static := by
  cases a with
  | isr_button_press =>
    simp [System.step, MqttClient.isr_button_press, notify_publisher, State.emit]
  | mqtt_subscription_callback p n =>
    simp only [System.step, MqttClient.mqtt_subscription_callback, notify_subscriber,
      State.emit]
    split_ifs <;> rfl
  | mqtt_disconnect_callback r =>
    simp only [System.step, MqttClient.mqtt_disconnect_callback, State.emit]
    split_ifs <;> rfl
  | subscriber_task r =>
    simp only [System.step, MqttClient.subscriber_task, State.emit]
    cases sys.subscriber <;> first | rfl | (split_ifs <;> rfl)
  | subscriber_task_loop =>
    simp only [System.step, MqttClient.subscriber_task_loop, State.emit]
    cases sys.subscriber <;> simp only []
    cases sys.state.subscriber_notification <;> rfl
  | publisher_task =>
    simp only [System.step, MqttClient.publisher_task, State.emit]
    cases sys.publisher <;> rfl
  | publisher_task_loop r =>
    simp only [System.step]
    cases sys.publisher <;> simp only []
    cases hn : sys.state.publisher_notification with
    | none => simp [MqttClient.publisher_task_loop, hn]
    | some v =>
      rw [publisher_task_loop_eq _ _ _ hn]
      by_cases hr : r = IOT_MQTT_SUCCESS <;> simp [hr, IotMqttPublishInfo_t.static]

/-- No sequence of actions changes the fields of `publishInfo` that its
initialiser sets. -/
theorem System.run_publishInfo_static (sys : System) (actions : List Action) :
    (sys.run actions).state.publishInfo.static = sys.state.publishInfo.static := by
  induction actions generalizing sys with
  | nil => rfl
  | cons a l ih =>
    simp only [System.run, List.foldl_cons] at ih ⊢
    rw [ih, System.step_publishInfo_static]

/-- C11: in every state reached from one in which `publishInfo` has its
initialiser, when the publisher is in its loop and receives the event value
`v`, it makes one publish call, on the topic `MQTT_TOPIC` with QoS
`MQTT_MESSAGES_QOS`, retry interval 1000 ms and retry limit 10, with the
payload `MQTT_DEVICE_ON_MESSAGE` and length 7 when `v = DEVICE_ON_STATE` and
the payload `MQTT_DEVICE_OFF_MESSAGE` and length 8 otherwise. When the call
returns success, nothing is written to the status queue, the worker stays in
its loop with no notification pending, and a further iteration stays blocked. -/
theorem C11_publisher_publishes_event (sys0 sys : System) (actions : List Action)
    (v result : Nat)
    (h0 : sys0.state.publishInfo = publishInfo_initializer)
    (hreach : sys = sys0.run actions)
    (hp : sys.publisher = .in_loop)
    (hn : sys.state.publisher_notification = some v) :
    publishCalls ((sys.step (.publisher_task_loop result)).state.since sys.state) =
        [({ qos := MQTT_MESSAGES_QOS, pTopicName := MQTT_TOPIC, topicNameLength := 9,
            retryMs := 1000, retryLimit := 10,
            pPayload :=
              if v = DEVICE_ON_STATE then MQTT_DEVICE_ON_MESSAGE else MQTT_DEVICE_OFF_MESSAGE,
            payloadLength := if v = DEVICE_ON_STATE then 7 else 8 }, result)] ∧
      MQTT_TOPIC = "ledstatus".toList.map Char.toNat ∧
      MQTT_DEVICE_ON_MESSAGE = "TURN ON".toList.map Char.toNat ∧
      MQTT_DEVICE_OFF_MESSAGE = "TURN OFF".toList.map Char.toNat ∧
      (result = IOT_MQTT_SUCCESS →
        statusWrites ((sys.step (.publisher_task_loop result)).state.since sys.state) = [] ∧
        (sys.step (.publisher_task_loop result)).state.mqtt_status_q = sys.state.mqtt_status_q ∧
        (sys.step (.publisher_task_loop result)).publisher = .in_loop ∧
        (sys.step (.publisher_task_loop result)).state.publisher_notification = none ∧
        ∀ next : Nat,
          (sys.step (.publisher_task_loop result)).step (.publisher_task_loop next) =
            sys.step (.publisher_task_loop result)) := by
  have hstatic : sys.state.publishInfo.static = publishInfo_initializer.static := by
    rw [hreach, System.run_publishInfo_static, h0]
  simp only [IotMqttPublishInfo_t.static, publishInfo_initializer, Prod.mk.injEq] at hstatic
  obtain ⟨hq, ht, hl, hms, hlim⟩ := hstatic
  have hlenOn : strlen MQTT_DEVICE_ON_MESSAGE = 7 := by decide
  have hlenOff : strlen MQTT_DEVICE_OFF_MESSAGE = 8 := by decide
  refine ⟨?_, rfl, rfl, rfl, ?_⟩
  · simp only [System.step, hp, publisher_task_loop_eq _ _ _ hn]
    by_cases hr : result = IOT_MQTT_SUCCESS <;> by_cases hv : v = DEVICE_ON_STATE <;>
      simp [hr, hv, State.since, publishCalls, payloadFor, hq, ht, hl, hms, hlim, hlenOn,
        hlenOff, PUBLISH_RETRY_MS, PUBLISH_RETRY_LIMIT, MQTT_TOPIC]
  · intro hr
    simp only [System.step, hp, publisher_task_loop_eq _ _ _ hn]
    simp [hr, State.since, statusWrites, MqttClient.publisher_task_loop, hp]

/-- C11, from the start: the publisher starts, the button is pressed while the
device is off, and the publish succeeds: the payload is `TURN ON`. -/
theorem C11_publisher_publishes_event_witness :
    System.initial.state.publishInfo = publishInfo_initializer ∧
      (System.initial.run [.publisher_task, .isr_button_press]).publisher = .in_loop ∧
      (System.initial.run [.publisher_task, .isr_button_press]).state.publisher_notification =
        some DEVICE_ON_STATE ∧
      publishCalls (((System.initial.run [.publisher_task, .isr_button_press]).step
          (.publisher_task_loop IOT_MQTT_SUCCESS)).state.since
            (System.initial.run [.publisher_task, .isr_button_press]).state) =
        [({ qos := 1, pTopicName := "ledstatus".toList.map Char.toNat, topicNameLength := 9,
            retryMs := 1000, retryLimit := 10,
            pPayload := "TURN ON".toList.map Char.toNat, payloadLength := 7 },
          IOT_MQTT_SUCCESS)] :=
  ⟨rfl, rfl, rfl,
    (C11_publisher_publishes_event System.initial
      (System.initial.run [.publisher_task, .isr_button_press])
      [.publisher_task, .isr_button_press] DEVICE_ON_STATE IOT_MQTT_SUCCESS rfl rfl rfl rfl).1⟩

/-- The function `cleanup` only appends `cleanupEvents` to the trace. -/
theorem cleanup_eq_events (env : Env) (s : State) :
    cleanup env s = { s with trace := s.trace ++ cleanupEvents env s.init_flag } := by
  rw [cleanup_eq, cleanupEvents]

/-- The events `cleanup` appends, read from its result. -/
theorem cleanup_since (env : Env) (s : State) :
    (cleanup env s).since s = cleanupEvents env s.init_flag := by
  rw [cleanup_eq_events]
  simp [State.since]

/-- What the loop of `mqtt_client_task` does when it receives the status `v`:
the receive, the unsubscribe for a failed publish, the deletion of the
workers, `cleanup`, and the deletion of the task itself. -/
theorem mqtt_client_task_loop_eq (env : Env) (s : State) (q q' : Queue) (v : mqtt_result_t)
    (hq : s.mqtt_status_q = some q)
    (hrecv : xQueueReceive (env.status_sends.foldl xQueueOverwrite q) = some (v, q')) :
    mqtt_client_task_loop env s =
      (Ending.task_deleted,
        { s with
          mqtt_status_q := some q'
          trace := s.trace ++ (Event.xQueueReceive v :: (unsubscribeEvents env v ++
            (deletionEvents s ++ (cleanupEvents env s.init_flag ++
              [Event.vTaskDelete .mqtt_client_task])))) }) := by
  unfold mqtt_client_task_loop
  cases v <;> cases hs : s.subscriber_task_handle <;> cases hp : s.publisher_task_handle <;>
    by_cases hu : env.IotMqtt_UnsubscribeSync = IOT_MQTT_SUCCESS <;>
    simp [hq, hrecv, exit_cleanup, cleanup_eq_events, mqtt_unsubscribe, State.emit,
      unsubscribeEvents, deletionEvents, hs, hp, hu]

/-- The function `cleanup` makes no call of `IotMqtt_UnsubscribeSync` and deletes
no task. -/
theorem cleanupEvents_no_unsubscribe_no_delete (env : Env) (flag : Nat) :
    unsubscribeCalls (cleanupEvents env flag) = [] ∧
      deletedTasks (cleanupEvents env flag) = [] := by
  constructor
  · simp only [unsubscribeCalls, cleanupEvents, List.filterMap_append, List.append_eq_nil]
    refine ⟨⟨⟨⟨⟨?_, ?_⟩, ?_⟩, ?_⟩, ?_⟩, ?_⟩ <;> split_ifs <;> rfl
  · simp only [deletedTasks, cleanupEvents, List.filterMap_append, List.append_eq_nil]
    refine ⟨⟨⟨⟨⟨?_, ?_⟩, ?_⟩, ?_⟩, ?_⟩, ?_⟩ <;> split_ifs <;> rfl

/-- The call of `mqtt_unsubscribe` deletes no task and tears nothing down; it
calls `IotMqtt_UnsubscribeSync` once, for a failed publish only. -/
theorem unsubscribeEvents_calls (env : Env) (v : mqtt_result_t) :
    deletedTasks (unsubscribeEvents env v) = [] ∧
      teardownCalls (unsubscribeEvents env v) = [] ∧
      unsubscribeCalls (unsubscribeEvents env v) =
        (if v = .MQTT_PUBLISH_FAILURE then [env.IotMqtt_UnsubscribeSync] else []) ∧
      ∀ e ∈ unsubscribeEvents env v,
        (∃ r, e = Event.IotMqtt_UnsubscribeSync r) ∨ ∃ f, e = Event.printf f := by
  cases v <;> by_cases hu : env.IotMqtt_UnsubscribeSync = IOT_MQTT_SUCCESS <;>
    simp [unsubscribeEvents, deletedTasks, teardownCalls, unsubscribeCalls, Event.teardown?, hu]

/-- The deletion of the workers calls neither `IotMqtt_UnsubscribeSync` nor a
teardown operation. -/
theorem deletionEvents_calls (s : State) :
    unsubscribeCalls (deletionEvents s) = [] ∧ teardownCalls (deletionEvents s) = [] ∧
      deletedTasks (deletionEvents s) =
        (if s.subscriber_task_handle then [Task.subscriber_task] else []) ++
        (if s.publisher_task_handle then [Task.publisher_task] else []) := by
  cases hs : s.subscriber_task_handle <;> cases hp : s.publisher_task_handle <;>
    simp [deletionEvents, unsubscribeCalls, teardownCalls, deletedTasks, Event.teardown?, hs, hp]

/-- C12: when the supervisor receives a status from the queue, whichever of the
three it is, it ends by deleting itself; after the receive and the events of
an unsubscribe it deletes the subscriber task and the publisher task, each
only if its handle is not `NULL`, runs `cleanup`, whose teardown calls are
those of the bits set in `init_flag`, and deletes itself; what follows the
unsubscribe is the same whatever was sent and received. -/
theorem C12_supervisor_on_signal (env : Env) (s : State) (q q' : Queue) (v : mqtt_result_t)
    (hq : s.mqtt_status_q = some q)
    (hrecv : xQueueReceive (env.status_sends.foldl xQueueOverwrite q) = some (v, q')) :
    (mqtt_client_task_loop env s).1 = Ending.task_deleted ∧
      (∃ unsub : List Event,
        (∀ e ∈ unsub, (∃ r, e = Event.IotMqtt_UnsubscribeSync r) ∨ ∃ f, e = Event.printf f) ∧
        (mqtt_client_task_loop env s).2.since s =
          Event.xQueueReceive v :: unsub ++
            ((if s.subscriber_task_handle then [Event.vTaskDelete .subscriber_task] else []) ++
              (if s.publisher_task_handle then
                [Event.publisher_cleanup, Event.vTaskDelete .publisher_task] else []) ++
              (cleanup env s).since s ++ [Event.vTaskDelete .mqtt_client_task])) ∧
      teardownCalls ((mqtt_client_task_loop env s).2.since s) =
        teardownOrder.filter (fun op => s.init_flag &&& op.mask ≠ 0) ∧
      deletedTasks ((mqtt_client_task_loop env s).2.since s) =
        (if s.subscriber_task_handle then [Task.subscriber_task] else []) ++
          (if s.publisher_task_handle then [Task.publisher_task] else []) ++
          [Task.mqtt_client_task] ∧
      (mqtt_client_task_loop env s).2.init_flag = s.init_flag ∧
      ∀ (sends2 : List mqtt_result_t) (v2 : mqtt_result_t) (q2 : Queue),
        xQueueReceive (sends2.foldl xQueueOverwrite q) = some (v2, q2) →
        ∃ unsub2 : List Event,
          (∀ e ∈ unsub2, (∃ r, e = Event.IotMqtt_UnsubscribeSync r) ∨ ∃ f, e = Event.printf f) ∧
          (mqtt_client_task_loop { env with status_sends := sends2 } s).2.since s =
            Event.xQueueReceive v2 :: unsub2 ++
              ((if s.subscriber_task_handle then [Event.vTaskDelete .subscriber_task] else []) ++
                (if s.publisher_task_handle then
                  [Event.publisher_cleanup, Event.vTaskDelete .publisher_task] else []) ++
                (cleanup env s).since s ++ [Event.vTaskDelete .mqtt_client_task]) := by
  have hcalls := cleanup_calls env s
  rw [cleanup_since] at hcalls ⊢
  rw [mqtt_client_task_loop_eq env s q q' v hq hrecv]
  obtain ⟨hu1, hu2, -, hu4⟩ := unsubscribeEvents_calls env v
  obtain ⟨-, hd2, hd3⟩ := deletionEvents_calls s
  obtain ⟨-, hc2⟩ := cleanupEvents_no_unsubscribe_no_delete env s.init_flag
  refine ⟨rfl, ⟨unsubscribeEvents env v, hu4, ?_⟩, ?_, ?_, rfl, ?_⟩
  · simp [State.since, deletionEvents]
  · simp only [State.since, List.drop_left]
    rw [show ∀ (a : Event) (l : List Event), a :: l = [a] ++ l from fun _ _ => rfl]
    simp only [teardownCalls_append, hu2, hd2, hcalls]
    simp [teardownCalls, Event.teardown?]
  · simp only [State.since, List.drop_left]
    rw [show ∀ (a : Event) (l : List Event), a :: l = [a] ++ l from fun _ _ => rfl]
    simp only [deletedTasks, List.filterMap_append] at hu1 hd3 hc2 ⊢
    rw [hu1, hd3, hc2]
    simp
  · intro sends2 v2 q2 hrecv2
    have h2 := mqtt_client_task_loop_eq { env with status_sends := sends2 } s q q2 v2 hq hrecv2
    rw [h2]
    refine ⟨unsubscribeEvents env v2, (unsubscribeEvents_calls env v2).2.2.2, ?_⟩
    simp only [State.since, List.drop_left, deletionEvents]
    have e1 : unsubscribeEvents { env with status_sends := sends2 } v2 =
        unsubscribeEvents env v2 := by cases v2 <;> rfl
    have e2 : cleanupEvents { env with status_sends := sends2 } s.init_flag =
        cleanupEvents env s.init_flag := rfl
    rw [e1, e2]
    simp

/-- C12, after a complete bring-up with both workers created and a failed
publish reported: the supervisor deletes both workers and then itself. -/
theorem C12_supervisor_on_signal_witness :
    State.running.mqtt_status_q = some (xQueueCreate MQTT_STATUS_QUEUE_LENGTH) ∧
      xQueueReceive (Env.publishFailureSent.status_sends.foldl xQueueOverwrite
          (xQueueCreate MQTT_STATUS_QUEUE_LENGTH)) =
        some (.MQTT_PUBLISH_FAILURE, xQueueCreate MQTT_STATUS_QUEUE_LENGTH) ∧
      deletedTasks ((mqtt_client_task_loop Env.publishFailureSent State.running).2.since
          State.running) =
        [Task.subscriber_task, Task.publisher_task, Task.mqtt_client_task] :=
  ⟨rfl, rfl,
    (C12_supervisor_on_signal Env.publishFailureSent State.running
      (xQueueCreate MQTT_STATUS_QUEUE_LENGTH) (xQueueCreate MQTT_STATUS_QUEUE_LENGTH)
      .MQTT_PUBLISH_FAILURE rfl rfl).2.2.2.1⟩

/-- C13: when the supervisor receives a status, it calls `mqtt_unsubscribe`
exactly once if the status is `MQTT_PUBLISH_FAILURE` and not at all otherwise.
Its actions split into a first part, which holds the unsubscribe and neither
deletes a task nor tears anything down, and a second part, which holds every
deletion and every teardown call and no unsubscribe; the second part and the
variables left behind are the same whatever the unsubscribe returns. -/
theorem C13_unsubscribe_only_for_publish_failure (env : Env) (s : State) (q q' : Queue)
    (v : mqtt_result_t) (hq : s.mqtt_status_q = some q)
    (hrecv : xQueueReceive (env.status_sends.foldl xQueueOverwrite q) = some (v, q')) :
    unsubscribeCalls ((mqtt_client_task_loop env s).2.since s) =
        (if v = .MQTT_PUBLISH_FAILURE then [env.IotMqtt_UnsubscribeSync] else []) ∧
      ((unsubscribeCalls ((mqtt_client_task_loop env s).2.since s)).length = 1 ↔
        v = .MQTT_PUBLISH_FAILURE) ∧
      ((unsubscribeCalls ((mqtt_client_task_loop env s).2.since s)).length = 0 ↔
        v ≠ .MQTT_PUBLISH_FAILURE) ∧
      ∃ first second : List Event,
        (mqtt_client_task_loop env s).2.since s = first ++ second ∧
        deletedTasks first = [] ∧ teardownCalls first = [] ∧
        unsubscribeCalls second = [] ∧
        deletedTasks second = deletedTasks ((mqtt_client_task_loop env s).2.since s) ∧
        teardownCalls second = teardownCalls ((mqtt_client_task_loop env s).2.since s) ∧
        ∀ result : Nat, ∃ first2 : List Event,
          (mqtt_client_task_loop { env with IotMqtt_UnsubscribeSync := result } s).2.since s =
            first2 ++ second ∧
          deletedTasks first2 = [] ∧ teardownCalls first2 = [] ∧
          { (mqtt_client_task_loop { env with IotMqtt_UnsubscribeSync := result } s).2 with
              trace := [] } =
            { (mqtt_client_task_loop env s).2 with trace := [] } := by
  obtain ⟨hu1, hu2, hu3, -⟩ := unsubscribeEvents_calls env v
  obtain ⟨hd1, -, -⟩ := deletionEvents_calls s
  obtain ⟨hc1, -⟩ := cleanupEvents_no_unsubscribe_no_delete env s.init_flag
  have hsince : (mqtt_client_task_loop env s).2.since s =
      (Event.xQueueReceive v :: unsubscribeEvents env v) ++
        (deletionEvents s ++ (cleanupEvents env s.init_flag ++
          [Event.vTaskDelete .mqtt_client_task])) := by
    rw [mqtt_client_task_loop_eq env s q q' v hq hrecv]
    simp [State.since]
  have hfirst : deletedTasks (Event.xQueueReceive v :: unsubscribeEvents env v) = [] ∧
      teardownCalls (Event.xQueueReceive v :: unsubscribeEvents env v) = [] ∧
      unsubscribeCalls (Event.xQueueReceive v :: unsubscribeEvents env v) =
        (if v = .MQTT_PUBLISH_FAILURE then [env.IotMqtt_UnsubscribeSync] else []) := by
    simp only [deletedTasks, teardownCalls, unsubscribeCalls, List.filterMap_cons,
      Event.teardown?] at hu1 hu2 hu3 ⊢
    exact ⟨hu1, hu2, hu3⟩
  have hsecond : unsubscribeCalls (deletionEvents s ++ (cleanupEvents env s.init_flag ++
      [Event.vTaskDelete .mqtt_client_task])) = [] := by
    simp only [unsubscribeCalls, List.filterMap_append] at hd1 hc1 ⊢
    rw [hd1, hc1]; rfl
  have hall : unsubscribeCalls ((mqtt_client_task_loop env s).2.since s) =
      (if v = .MQTT_PUBLISH_FAILURE then [env.IotMqtt_UnsubscribeSync] else []) := by
    rw [hsince]
    simp only [unsubscribeCalls, List.filterMap_append] at hfirst hsecond ⊢
    rw [hfirst.2.2, hsecond, List.append_nil]
  refine ⟨hall, ?_, ?_, _, _, hsince, hfirst.1, hfirst.2.1, hsecond, ?_, ?_, ?_⟩
  · rw [hall]; cases v <;> simp
  · rw [hall]; cases v <;> simp
  · rw [hsince]
    simp only [deletedTasks, List.filterMap_append] at hfirst ⊢
    rw [hfirst.1, List.nil_append]
  · rw [hsince, teardownCalls_append (Event.xQueueReceive v :: unsubscribeEvents env v),
      hfirst.2.1, List.nil_append]
  · intro result
    have h2 := mqtt_client_task_loop_eq { env with IotMqtt_UnsubscribeSync := result } s q q' v
      hq hrecv
    obtain ⟨hv1, hv2, -, -⟩ :=
      unsubscribeEvents_calls { env with IotMqtt_UnsubscribeSync := result } v
    refine ⟨Event.xQueueReceive v ::
      unsubscribeEvents { env with IotMqtt_UnsubscribeSync := result } v, ?_, ?_, ?_, ?_⟩
    · rw [h2]
      have e2 : cleanupEvents { env with IotMqtt_UnsubscribeSync := result } s.init_flag =
          cleanupEvents env s.init_flag := rfl
      simp [State.since, e2]
    · simp only [deletedTasks, List.filterMap_cons] at hv1 ⊢
      exact hv1
    · simp only [teardownCalls, List.filterMap_cons, Event.teardown?] at hv2 ⊢
      exact hv2
    · rw [h2, mqtt_client_task_loop_eq env s q q' v hq hrecv]

/-- C13, for a failed publish reported and an unsubscribe that fails: the
unsubscribe is called once, and both workers and the supervisor are deleted
all the same. -/
theorem C13_unsubscribe_only_for_publish_failure_witness :
    State.running.mqtt_status_q = some (xQueueCreate MQTT_STATUS_QUEUE_LENGTH) ∧
      xQueueReceive (Env.unsubscribeFails.status_sends.foldl xQueueOverwrite
          (xQueueCreate MQTT_STATUS_QUEUE_LENGTH)) =
        some (.MQTT_PUBLISH_FAILURE, xQueueCreate MQTT_STATUS_QUEUE_LENGTH) ∧
      unsubscribeCalls ((mqtt_client_task_loop Env.unsubscribeFails State.running).2.since
          State.running) = [1] :=
  ⟨rfl, rfl,
    (C13_unsubscribe_only_for_publish_failure Env.unsubscribeFails State.running
      (xQueueCreate MQTT_STATUS_QUEUE_LENGTH) (xQueueCreate MQTT_STATUS_QUEUE_LENGTH)
      .MQTT_PUBLISH_FAILURE rfl rfl).1⟩

/-- Every action only appends to the trace. -/
theorem System.step_trace (sys : System) (a : Action) :
    (sys.step a).state.trace = sys.state.trace ++ (sys.step a).state.since sys.state := by
  cases a with
  | isr_button_press =>
    simp [System.step, MqttClient.isr_button_press, notify_publisher, State.emit, State.since]
  | mqtt_subscription_callback p n =>
    simp only [System.step, MqttClient.mqtt_subscription_callback, notify_subscriber,
      State.emit, State.since]
    split_ifs <;> simp
  | mqtt_disconnect_callback r =>
    simp only [System.step, MqttClient.mqtt_disconnect_callback, State.emit, State.since]
    split_ifs <;> simp
  | subscriber_task r =>
    simp only [System.step, MqttClient.subscriber_task, State.emit, State.since]
    cases sys.subscriber <;> first | simp; done | (split_ifs <;> simp)
  | subscriber_task_loop =>
    simp only [System.step, MqttClient.subscriber_task_loop, State.emit, State.since]
    cases sys.subscriber <;> cases sys.state.subscriber_notification <;> simp
  | publisher_task =>
    simp only [System.step, MqttClient.publisher_task, State.emit, State.since]
    cases sys.publisher <;> simp
  | publisher_task_loop r =>
    simp only [System.step, State.since]
    cases sys.publisher <;> simp only [] <;> try simp
    cases hn : sys.state.publisher_notification with
    | none => simp [MqttClient.publisher_task_loop, hn]
    | some v =>
      rw [publisher_task_loop_eq _ _ _ hn]
      by_cases hr : r = IOT_MQTT_SUCCESS <;> simp [hr]

/-- The events appended between two states when a third lies between them. -/
theorem State.since_append {s0 s1 s2 : State} (h1 : s1.trace = s0.trace ++ s1.since s0)
    (h2 : s2.trace = s1.trace ++ s2.since s1) :
    s2.since s0 = s1.since s0 ++ s2.since s1 := by
  have h : s2.trace = s0.trace ++ (s1.since s0 ++ s2.since s1) := by
    rw [← List.append_assoc, ← h1]
    exact h2
  conv_lhs => rw [State.since, h, List.drop_left]

/-- Every sequence of actions only appends to the trace. -/
theorem System.run_trace (sys : System) (actions : List Action) :
    (sys.run actions).state.trace =
      sys.state.trace ++ (sys.run actions).state.since sys.state := by
  induction actions generalizing sys with
  | nil => simp [System.run, State.since]
  | cons a l ih =>
    have h1 := sys.step_trace a
    have h2 := ih (sys.step a)
    simp only [System.run, List.foldl_cons] at h2 ⊢
    rw [State.since_append h1 h2, ← List.append_assoc, ← h1, ← h2]

/-- The events of a sequence of actions are those of the first action followed
by those of the rest. -/
theorem System.run_cons_since (sys : System) (a : Action) (l : List Action) :
    (sys.run (a :: l)).state.since sys.state =
      (sys.step a).state.since sys.state ++
        ((sys.step a).run l).state.since (sys.step a).state := by
  have h1 := sys.step_trace a
  have h2 := (sys.step a).run_trace l
  exact State.since_append h1 h2

/-- Once the publisher is suspended, an action leaves it suspended, makes no
publish call and does not write `MQTT_PUBLISH_FAILURE`. -/
theorem System.step_of_publisher_suspended (sys : System) (a : Action)
    (h : sys.publisher = .suspended) :
    (sys.step a).publisher = .suspended ∧
      publishCalls ((sys.step a).state.since sys.state) = [] ∧
      mqtt_result_t.MQTT_PUBLISH_FAILURE ∉ statusWrites ((sys.step a).state.since sys.state) := by
  cases a with
  | isr_button_press =>
    simp [System.step, h, MqttClient.isr_button_press, notify_publisher, State.emit,
      State.since, publishCalls, statusWrites]
  | mqtt_subscription_callback p n =>
    simp only [System.step, h, MqttClient.mqtt_subscription_callback, notify_subscriber,
      State.emit, State.since]
    split_ifs <;> simp [publishCalls, statusWrites]
  | mqtt_disconnect_callback r =>
    simp only [System.step, h, MqttClient.mqtt_disconnect_callback, State.emit, State.since]
    split_ifs <;> simp [publishCalls, statusWrites]
  | subscriber_task r =>
    simp only [System.step, MqttClient.subscriber_task, State.emit, State.since]
    cases sys.subscriber <;> first
      | (simp [h, publishCalls, statusWrites]; done)
      | (split_ifs <;> simp [h, publishCalls, statusWrites])
  | subscriber_task_loop =>
    simp only [System.step, MqttClient.subscriber_task_loop, State.emit, State.since]
    cases sys.subscriber <;> cases sys.state.subscriber_notification <;>
      simp [h, publishCalls, statusWrites]
  | publisher_task =>
    simp [System.step, h, State.since, publishCalls, statusWrites]
  | publisher_task_loop r =>
    simp [System.step, h, State.since, publishCalls, statusWrites]

/-- Once the publisher is suspended, no sequence of actions makes it publish or
write `MQTT_PUBLISH_FAILURE` again. -/
theorem System.run_of_publisher_suspended (sys : System) (actions : List Action)
    (h : sys.publisher = .suspended) :
    (sys.run actions).publisher = .suspended ∧
      publishCalls ((sys.run actions).state.since sys.state) = [] ∧
      mqtt_result_t.MQTT_PUBLISH_FAILURE ∉
        statusWrites ((sys.run actions).state.since sys.state) := by
  induction actions generalizing sys with
  | nil => simp [System.run, State.since, h, publishCalls, statusWrites]
  | cons a l ih =>
    obtain ⟨h1, h2, h3⟩ := sys.step_of_publisher_suspended a h
    obtain ⟨i1, i2, i3⟩ := ih (sys.step a) h1
    rw [System.run_cons_since]
    refine ⟨i1, ?_, ?_⟩
    · simp only [publishCalls, List.filterMap_append] at h2 i2 ⊢
      rw [h2, i2]; rfl
    · rw [statusWrites_append, List.mem_append]
      rintro (hm | hm)
      · exact h3 hm
      · exact i3 hm

/-- C14: when the publisher, in its loop with an event pending, makes a publish
call that returns anything but `IOT_MQTT_SUCCESS`, it writes
`MQTT_PUBLISH_FAILURE` to the status queue, once, by `xQueueOverwrite`, and
suspends itself; after that, whatever the button, the callbacks and the
workers do, it stays suspended, makes no further publish call and writes
`MQTT_PUBLISH_FAILURE` no more. -/
theorem C14_failed_publish_is_absorbing (sys : System) (v result : Nat)
    (later : List Action)
    (hp : sys.publisher = .in_loop)
    (hn : sys.state.publisher_notification = some v)
    (hr : result ≠ IOT_MQTT_SUCCESS) :
    statusWrites ((sys.step (.publisher_task_loop result)).state.since sys.state) =
        [mqtt_result_t.MQTT_PUBLISH_FAILURE] ∧
      (sys.step (.publisher_task_loop result)).state.mqtt_status_q =
        sys.state.mqtt_status_q.map (xQueueOverwrite · .MQTT_PUBLISH_FAILURE) ∧
      ((sys.step (.publisher_task_loop result)).state.since sys.state).getLast? =
        some (Event.vTaskSuspend .publisher_task) ∧
      (sys.step (.publisher_task_loop result)).publisher = .suspended ∧
      ((sys.step (.publisher_task_loop result)).run later).publisher = .suspended ∧
      publishCalls (((sys.step (.publisher_task_loop result)).run later).state.since
        (sys.step (.publisher_task_loop result)).state) = [] ∧
      mqtt_result_t.MQTT_PUBLISH_FAILURE ∉
        statusWrites (((sys.step (.publisher_task_loop result)).run later).state.since
          (sys.step (.publisher_task_loop result)).state) := by
  have hstep : sys.step (.publisher_task_loop result) =
      { sys with
        state := ((MqttClient.publisher_task_loop result sys.state).getD (false, sys.state)).2
        publisher := .suspended } := by
    simp [System.step, hp, publisher_task_loop_eq _ _ _ hn, hr]
  have hsusp : (sys.step (.publisher_task_loop result)).publisher = .suspended := by
    rw [hstep]
  refine ⟨?_, ?_, ?_, hsusp, System.run_of_publisher_suspended _ later hsusp⟩
  · rw [hstep]
    simp [publisher_task_loop_eq _ _ _ hn, hr, State.since, statusWrites]
  · rw [hstep]
    simp [publisher_task_loop_eq _ _ _ hn, hr]
  · rw [hstep]
    simp [publisher_task_loop_eq _ _ _ hn, hr, State.since]

/-- C14, from the start: the publisher starts, the button is pressed, the
publish fails; then the button is pressed again and the publisher is given
another turn: no further publish is made. -/
theorem C14_failed_publish_is_absorbing_witness :
    (System.initial.run [.publisher_task, .isr_button_press]).publisher = .in_loop ∧
      (System.initial.run [.publisher_task, .isr_button_press]).state.publisher_notification =
        some DEVICE_ON_STATE ∧
      (1 : Nat) ≠ IOT_MQTT_SUCCESS ∧
      publishCalls ((((System.initial.run [.publisher_task, .isr_button_press]).step
          (.publisher_task_loop 1)).run [.isr_button_press, .publisher_task_loop 0]).state.since
          ((System.initial.run [.publisher_task, .isr_button_press]).step
            (.publisher_task_loop 1)).state) = [] :=
  ⟨rfl, rfl, by decide,
    (C14_failed_publish_is_absorbing (System.initial.run [.publisher_task, .isr_button_press])
      DEVICE_ON_STATE 1 [.isr_button_press, .publisher_task_loop 0] rfl rfl
      (by decide)).2.2.2.2.2.1⟩

/-- C15: on both notification channels a notification sent while one is pending
is dropped. With the value `p` pending for the publisher, `isr_button_press`
leaves `p` pending and its notification is refused; the publisher then
publishes the payload of `p` and the slot is empty. With the value `p` pending
for the subscriber, `mqtt_subscription_callback` leaves `p` pending, whatever
the message, and any notification it sends is refused; the subscriber then
writes `p` to the LED and to `current_device_state` and the slot is empty. -/
theorem C15_pending_notification_is_kept (s : State) (p : Nat) :
    (s.publisher_notification = some p →
      (isr_button_press s).publisher_notification = some p ∧
      publisherNotifications ((isr_button_press s).since s) =
        [(if s.current_device_state = DEVICE_ON_STATE then DEVICE_OFF_STATE
          else DEVICE_ON_STATE, false)] ∧
      ∀ result : Nat, ∃ s' : State, ∃ continues : Bool,
        publisher_task_loop result (isr_button_press s) = some (continues, s') ∧
        (publishCalls (s'.since (isr_button_press s))).map (fun c => c.1.pPayload) =
          [if p = DEVICE_ON_STATE then MQTT_DEVICE_ON_MESSAGE else MQTT_DEVICE_OFF_MESSAGE] ∧
        s'.publisher_notification = none) ∧
    (s.subscriber_notification = some p →
      ∀ (pPayload : Nat → Nat) (payloadLength : Nat),
        (mqtt_subscription_callback pPayload payloadLength s).subscriber_notification =
          some p ∧
        (∀ e ∈ (mqtt_subscription_callback pPayload payloadLength s).since s,
          ∀ task value pass, e = Event.xTaskNotify task value pass → pass = false) ∧
        ∃ s' : State,
          subscriber_task_loop (mqtt_subscription_callback pPayload payloadLength s) =
            some s' ∧
          ledWrites (s'.since (mqtt_subscription_callback pPayload payloadLength s)) = [p] ∧
          s'.current_device_state = p ∧
          s'.subscriber_notification = none) := by
  constructor
  · intro hn
    have hkeep : (isr_button_press s).publisher_notification = some p := by
      simp [isr_button_press, notify_publisher, xTaskNotify_eSetValueWithoutOverwrite, hn,
        State.emit]
    refine ⟨hkeep, ?_, ?_⟩
    · simp [isr_button_press, notify_publisher, xTaskNotify_eSetValueWithoutOverwrite, hn,
        State.emit, State.since, publisherNotifications]
    · intro result
      refine ⟨_, _, publisher_task_loop_eq result _ p hkeep, ?_, rfl⟩
      by_cases hr : result = IOT_MQTT_SUCCESS <;>
        simp [State.since, publishCalls, payloadFor, hr]
  · intro hn pPayload payloadLength
    have hkeep : (mqtt_subscription_callback pPayload payloadLength s).subscriber_notification =
        some p := by
      simp only [mqtt_subscription_callback, notify_subscriber,
        xTaskNotify_eSetValueWithoutOverwrite, State.emit, hn]
      split_ifs <;> rfl
    refine ⟨hkeep, ?_, ?_⟩
    · simp only [mqtt_subscription_callback, notify_subscriber,
        xTaskNotify_eSetValueWithoutOverwrite, State.emit, State.since, hn]
      split_ifs <;> simp
    · simp [subscriber_task_loop, hkeep, State.emit, State.since, ledWrites]

/-- C15, with the value `DEVICE_ON_STATE` pending for the publisher. -/
theorem C15_pending_notification_is_kept_witness :
    State.supervised.publisher_notification = some DEVICE_ON_STATE ∧
      (isr_button_press State.supervised).publisher_notification = some DEVICE_ON_STATE :=
  ⟨rfl, ((C15_pending_notification_is_kept State.supervised DEVICE_ON_STATE).1 rfl).1⟩

/-- C17: `mqtt_disconnect_callback` writes `MQTT_DISCONNECT` to the status
queue, by `xQueueOverwrite`, exactly when the reason is not
`IOT_MQTT_DISCONNECT_CALLED`; an item waiting in the queue of length one is
replaced by it; for the reason `IOT_MQTT_DISCONNECT_CALLED` nothing at all is
changed. -/
theorem C17_disconnect_callback (disconnectReason : IotMqttDisconnectReason_t) (s : State) :
    statusWrites ((mqtt_disconnect_callback disconnectReason s).since s) =
        (if disconnectReason = .IOT_MQTT_DISCONNECT_CALLED then []
          else [mqtt_result_t.MQTT_DISCONNECT]) ∧
      (statusWrites ((mqtt_disconnect_callback disconnectReason s).since s) =
          [mqtt_result_t.MQTT_DISCONNECT] ↔
        disconnectReason ≠ .IOT_MQTT_DISCONNECT_CALLED) ∧
      (mqtt_disconnect_callback disconnectReason s).mqtt_status_q =
        (if disconnectReason = .IOT_MQTT_DISCONNECT_CALLED then s.mqtt_status_q
          else s.mqtt_status_q.map (xQueueOverwrite · .MQTT_DISCONNECT)) ∧
      (∀ unconsumed : mqtt_result_t,
        xQueueOverwrite { uxLength := MQTT_STATUS_QUEUE_LENGTH, items := [unconsumed] }
            .MQTT_DISCONNECT =
          { uxLength := MQTT_STATUS_QUEUE_LENGTH, items := [.MQTT_DISCONNECT] }) ∧
      xQueueOverwrite (xQueueCreate MQTT_STATUS_QUEUE_LENGTH) .MQTT_DISCONNECT =
        { uxLength := MQTT_STATUS_QUEUE_LENGTH, items := [.MQTT_DISCONNECT] } ∧
      mqtt_disconnect_callback .IOT_MQTT_DISCONNECT_CALLED s = s := by
  refine ⟨?_, ?_, ?_, fun _ => rfl, rfl, ?_⟩
  · by_cases h : disconnectReason = .IOT_MQTT_DISCONNECT_CALLED <;>
      simp [mqtt_disconnect_callback, h, State.emit, State.since, statusWrites]
  · by_cases h : disconnectReason = .IOT_MQTT_DISCONNECT_CALLED <;>
      simp [mqtt_disconnect_callback, h, State.emit, State.since, statusWrites]
  · by_cases h : disconnectReason = .IOT_MQTT_DISCONNECT_CALLED <;>
      simp [mqtt_disconnect_callback, h, State.emit]
  · simp [mqtt_disconnect_callback]

/-- C16 as stated fails: in the run `System.twoPresses` the first press requests
`DEVICE_ON_STATE` and is accepted, the second requests `DEVICE_OFF_STATE` and
is refused; the one publish the publisher makes carries `TURN ON`, the value of
the first press, and nothing is left pending for it. -/
theorem C16_second_press_is_not_observed :
    publisherNotifications System.twoPresses.state.trace =
        [(DEVICE_ON_STATE, true), (DEVICE_OFF_STATE, false)] ∧
      (publishCalls System.twoPresses.state.trace).map (fun c => c.1.pPayload) =
        [MQTT_DEVICE_ON_MESSAGE] ∧
      MQTT_DEVICE_ON_MESSAGE ≠ MQTT_DEVICE_OFF_MESSAGE ∧
      System.twoPresses.state.publisher_notification = none := by
  decide

/-- An action other than an iteration of the publisher's loop keeps a
notification pending for the publisher, keeps the publisher in its loop and
makes no publish call. -/
theorem System.step_keeps_pending (sys : System) (a : Action) (p : Nat)
    (ha : a.isPublisherLoop = false) (hp : sys.publisher = .in_loop)
    (hn : sys.state.publisher_notification = some p) :
    (sys.step a).publisher = .in_loop ∧
      (sys.step a).state.publisher_notification = some p ∧
      publishCalls ((sys.step a).state.since sys.state) = [] := by
  cases a with
  | isr_button_press =>
    simp [System.step, hp, hn, MqttClient.isr_button_press, notify_publisher,
      xTaskNotify_eSetValueWithoutOverwrite, State.emit, State.since, publishCalls]
  | mqtt_subscription_callback pPayload n =>
    simp only [System.step, hp, MqttClient.mqtt_subscription_callback, notify_subscriber,
      State.emit, State.since]
    split_ifs <;> simp [hn, publishCalls]
  | mqtt_disconnect_callback r =>
    simp only [System.step, hp, MqttClient.mqtt_disconnect_callback, State.emit, State.since]
    split_ifs <;> simp [hn, publishCalls]
  | subscriber_task r =>
    simp only [System.step, MqttClient.subscriber_task, State.emit, State.since]
    cases sys.subscriber <;> first
      | (simp [hp, hn, publishCalls]; done)
      | (split_ifs <;> simp [hp, hn, publishCalls])
  | subscriber_task_loop =>
    simp only [System.step, MqttClient.subscriber_task_loop, State.emit, State.since]
    cases sys.subscriber <;> cases sys.state.subscriber_notification <;>
      simp [hp, hn, publishCalls]
  | publisher_task =>
    simp [System.step, hp, hn, State.since, publishCalls]
  | publisher_task_loop r => simp [Action.isPublisherLoop] at ha

/-- A sequence of actions without an iteration of the publisher's loop keeps a
notification pending for the publisher and makes no publish call. -/
theorem System.run_keeps_pending (sys : System) (actions : List Action) (p : Nat)
    (ha : ∀ a ∈ actions, a.isPublisherLoop = false) (hp : sys.publisher = .in_loop)
    (hn : sys.state.publisher_notification = some p) :
    (sys.run actions).publisher = .in_loop ∧
      (sys.run actions).state.publisher_notification = some p ∧
      publishCalls ((sys.run actions).state.since sys.state) = [] := by
  induction actions generalizing sys with
  | nil => simp [System.run, State.since, hp, hn, publishCalls]
  | cons a l ih =>
    obtain ⟨h1, h2, h3⟩ := sys.step_keeps_pending a p (ha a (List.mem_cons_self _ _)) hp hn
    obtain ⟨i1, i2, i3⟩ := ih (sys.step a)
      (fun b hb => ha b (List.mem_cons_of_mem _ hb)) h1 h2
    rw [System.run_cons_since]
    refine ⟨i1, i2, ?_⟩
    simp only [publishCalls, List.filterMap_append] at h3 i3 ⊢
    rw [h3, i3]; rfl

/-- C16, amended: when the button is pressed twice before the publisher, in its
loop with nothing pending, runs again, whatever else happens in between, the
first press is accepted and the second is refused; no publish is made in
between, and the publisher's next iteration publishes the payload of the value
requested by the first press and leaves nothing pending. -/
theorem C16_first_press_is_observed (sys sys1 sys2 sys3 sys4 : System)
    (between : List Action) (result : Nat)
    (hp : sys.publisher = .in_loop)
    (hnone : sys.state.publisher_notification = none)
    (hbetween : ∀ a ∈ between, a.isPublisherLoop = false)
    (h1 : sys1 = sys.step .isr_button_press)
    (h2 : sys2 = sys1.run between)
    (h3 : sys3 = sys2.step .isr_button_press)
    (h4 : sys4 = sys3.step (.publisher_task_loop result)) :
    publisherNotifications (sys1.state.since sys.state) =
        [(if sys.state.current_device_state = DEVICE_ON_STATE then DEVICE_OFF_STATE
          else DEVICE_ON_STATE, true)] ∧
      publisherNotifications (sys3.state.since sys2.state) =
        [(if sys2.state.current_device_state = DEVICE_ON_STATE then DEVICE_OFF_STATE
          else DEVICE_ON_STATE, false)] ∧
      publishCalls (sys3.state.since sys1.state) = [] ∧
      (publishCalls (sys4.state.since sys3.state)).map (fun c => c.1.pPayload) =
        [if sys.state.current_device_state = DEVICE_ON_STATE then MQTT_DEVICE_OFF_MESSAGE
          else MQTT_DEVICE_ON_MESSAGE] ∧
      sys4.state.publisher_notification = none := by
  have hp1 : sys1.publisher = .in_loop := by rw [h1]; simp [System.step, hp]
  have hn1 : sys1.state.publisher_notification =
      some (if sys.state.current_device_state = DEVICE_ON_STATE then DEVICE_OFF_STATE
        else DEVICE_ON_STATE) := by
    rw [h1]
    simp [System.step, MqttClient.isr_button_press, notify_publisher,
      xTaskNotify_eSetValueWithoutOverwrite, hnone, State.emit]
  obtain ⟨hp2, hn2, hc2⟩ := System.run_keeps_pending sys1 between _ hbetween hp1 hn1
  rw [← h2] at hp2 hn2 hc2
  obtain ⟨hp3, hn3, hc3⟩ := System.step_keeps_pending sys2 .isr_button_press _ rfl hp2 hn2
  rw [← h3] at hp3 hn3 hc3
  refine ⟨?_, ?_, ?_, ?_, ?_⟩
  · rw [h1]
    simp [System.step, MqttClient.isr_button_press, notify_publisher,
      xTaskNotify_eSetValueWithoutOverwrite, hnone, State.emit, State.since,
      publisherNotifications]
  · rw [h3]
    simp [System.step, MqttClient.isr_button_press, notify_publisher,
      xTaskNotify_eSetValueWithoutOverwrite, hn2, State.emit, State.since,
      publisherNotifications]
  · have e1 : sys2.state.trace = sys1.state.trace ++ sys2.state.since sys1.state := by
      rw [h2]; exact System.run_trace sys1 between
    have e2 : sys3.state.trace = sys2.state.trace ++ sys3.state.since sys2.state := by
      rw [h3]; exact System.step_trace sys2 .isr_button_press
    rw [State.since_append e1 e2]
    simp only [publishCalls, List.filterMap_append] at hc2 hc3 ⊢
    rw [hc2, hc3]; rfl
  · rw [h4]
    simp only [System.step, hp3, publisher_task_loop_eq _ _ _ hn3]
    by_cases hr : result = IOT_MQTT_SUCCESS <;>
      by_cases hc : sys.state.current_device_state = DEVICE_ON_STATE <;>
      simp [hr, hc, State.since, publishCalls, payloadFor, DEVICE_ON_STATE, DEVICE_OFF_STATE]
  · rw [h4]
    simp only [System.step, hp3, publisher_task_loop_eq _ _ _ hn3]
    by_cases hr : result = IOT_MQTT_SUCCESS <;> simp [hr]

/-- C16 amended, on the run of `System.twoPresses`: the payload published is
`TURN ON`, the request of the first press. -/
theorem C16_first_press_is_observed_witness :
    (System.initial.run [.publisher_task, .subscriber_task EXIT_SUCCESS]).publisher =
        .in_loop ∧
      (System.initial.run
        [.publisher_task, .subscriber_task EXIT_SUCCESS]).state.publisher_notification = none ∧
      (publishCalls (System.twoPresses.state.since
          (System.initial.run [.publisher_task, .subscriber_task EXIT_SUCCESS, .isr_button_press,
            .mqtt_subscription_callback (literal MQTT_DEVICE_ON_MESSAGE) 7,
            .subscriber_task_loop, .isr_button_press]).state)).map (fun c => c.1.pPayload) =
        [MQTT_DEVICE_ON_MESSAGE] :=
  ⟨rfl, rfl,
    (C16_first_press_is_observed
      (System.initial.run [.publisher_task, .subscriber_task EXIT_SUCCESS])
      _ _ _ System.twoPresses
      [.mqtt_subscription_callback (literal MQTT_DEVICE_ON_MESSAGE) 7, .subscriber_task_loop]
      IOT_MQTT_SUCCESS rfl rfl (by intro a ha; simp at ha; rcases ha with rfl | rfl <;> rfl)
      rfl rfl rfl rfl).2.2.2.1⟩

/-- What an action does to the subscriber, by its phase. Created: either it
stays created, with no subscribe call and no LED write, or the action is its
start, which makes the one subscribe call and no LED write, and leaves it in
its loop on success and suspended otherwise. In its loop: it stays there and
makes no subscribe call. Suspended: it stays suspended, makes no subscribe
call, and writes neither the LED nor `current_device_state`. -/
theorem System.step_subscriber (sys : System) (a : Action) :
    (sys.subscriber = .created →
      ((sys.step a).subscriber = .created ∧
        subscribeCalls ((sys.step a).state.since sys.state) = [] ∧
        ledWrites ((sys.step a).state.since sys.state) = []) ∨
      (∃ r, subscribeCalls ((sys.step a).state.since sys.state) = [r] ∧
        ledWrites ((sys.step a).state.since sys.state) = [] ∧
        (sys.step a).subscriber = (if r = EXIT_SUCCESS then .in_loop else .suspended))) ∧
    (sys.subscriber = .in_loop →
      (sys.step a).subscriber = .in_loop ∧
        subscribeCalls ((sys.step a).state.since sys.state) = []) ∧
    (sys.subscriber = .suspended →
      (sys.step a).subscriber = .suspended ∧
        subscribeCalls ((sys.step a).state.since sys.state) = [] ∧
        ledWrites ((sys.step a).state.since sys.state) = [] ∧
        (sys.step a).state.current_device_state = sys.state.current_device_state) := by
  cases a with
  | isr_button_press =>
    simp [System.step, MqttClient.isr_button_press, notify_publisher, State.emit,
      State.since, subscribeCalls, ledWrites]
  | mqtt_subscription_callback p n =>
    simp only [System.step, MqttClient.mqtt_subscription_callback, notify_subscriber,
      State.emit, State.since]
    split_ifs <;> simp [subscribeCalls, ledWrites]
  | mqtt_disconnect_callback r =>
    simp only [System.step, MqttClient.mqtt_disconnect_callback, State.emit, State.since]
    split_ifs <;> simp [subscribeCalls, ledWrites]
  | subscriber_task r =>
    simp only [System.step, MqttClient.subscriber_task, State.emit, State.since]
    cases hph : sys.subscriber
    · by_cases hr : r = EXIT_SUCCESS <;> simp [hr, subscribeCalls, ledWrites]
    · simp [hph, subscribeCalls, ledWrites]
    · simp [hph, subscribeCalls, ledWrites]
  | subscriber_task_loop =>
    simp only [System.step, MqttClient.subscriber_task_loop, State.emit, State.since]
    cases hph : sys.subscriber <;> cases sys.state.subscriber_notification <;>
      simp [hph, subscribeCalls, ledWrites]
  | publisher_task =>
    simp only [System.step, MqttClient.publisher_task, State.emit, State.since]
    cases sys.publisher <;> simp [subscribeCalls, ledWrites]
  | publisher_task_loop r =>
    simp only [System.step, State.since]
    cases sys.publisher <;> simp only [] <;> try simp [subscribeCalls, ledWrites]
    cases hn : sys.state.publisher_notification with
    | none => simp [MqttClient.publisher_task_loop, hn, subscribeCalls, ledWrites]
    | some v =>
      rw [publisher_task_loop_eq _ _ _ hn]
      by_cases hr : r = IOT_MQTT_SUCCESS <;> simp [hr, subscribeCalls, ledWrites]

/-- Once the subscriber is suspended, no sequence of actions makes it call
`IotMqtt_SubscribeSync`, write the LED or write `current_device_state`. -/
theorem System.run_of_subscriber_suspended (sys : System) (actions : List Action)
    (h : sys.subscriber = .suspended) :
    (sys.run actions).subscriber = .suspended ∧
      subscribeCalls ((sys.run actions).state.since sys.state) = [] ∧
      ledWrites ((sys.run actions).state.since sys.state) = [] ∧
      (sys.run actions).state.current_device_state = sys.state.current_device_state := by
  induction actions generalizing sys with
  | nil => simp [System.run, State.since, h, subscribeCalls, ledWrites]
  | cons a l ih =>
    obtain ⟨h1, h2, h3, h4⟩ := (sys.step_subscriber a).2.2 h
    obtain ⟨i1, i2, i3, i4⟩ := ih (sys.step a) h1
    rw [System.run_cons_since]
    refine ⟨i1, ?_, ?_, ?_⟩
    · simp only [subscribeCalls, List.filterMap_append] at h2 i2 ⊢
      rw [h2, i2]; rfl
    · simp only [ledWrites, List.filterMap_append] at h3 i3 ⊢
      rw [h3, i3]; rfl
    · simp only [System.run, List.foldl_cons] at i4 ⊢
      rw [i4, h4]

/-- While the subscriber is in its loop, no sequence of actions makes it call
`IotMqtt_SubscribeSync`. -/
theorem System.run_of_subscriber_in_loop (sys : System) (actions : List Action)
    (h : sys.subscriber = .in_loop) :
    (sys.run actions).subscriber = .in_loop ∧
      subscribeCalls ((sys.run actions).state.since sys.state) = [] := by
  induction actions generalizing sys with
  | nil => simp [System.run, State.since, h, subscribeCalls]
  | cons a l ih =>
    obtain ⟨h1, h2⟩ := (sys.step_subscriber a).2.1 h
    obtain ⟨i1, i2⟩ := ih (sys.step a) h1
    rw [System.run_cons_since]
    refine ⟨i1, ?_⟩
    simp only [subscribeCalls, List.filterMap_append] at h2 i2 ⊢
    rw [h2, i2]; rfl

/-- The history of a subscriber from its creation: either it has not started,
and there was no subscribe call and no LED write; or the events split into a
part that ends with its start, holding the one subscribe call and no LED
write, and a part with no subscribe call, in which it is in its loop if the
call succeeded and suspended, with no LED write, if it failed. -/
theorem System.run_of_subscriber_created (sys : System) (actions : List Action)
    (h : sys.subscriber = .created) :
    ((sys.run actions).subscriber = .created ∧
      subscribeCalls ((sys.run actions).state.since sys.state) = [] ∧
      ledWrites ((sys.run actions).state.since sys.state) = []) ∨
    (∃ (first second : List Event) (r : Nat),
      (sys.run actions).state.since sys.state = first ++ second ∧
      subscribeCalls first = [r] ∧ ledWrites first = [] ∧ subscribeCalls second = [] ∧
      (sys.run actions).subscriber = (if r = EXIT_SUCCESS then .in_loop else .suspended) ∧
      (r ≠ EXIT_SUCCESS → ledWrites second = [])) := by
  induction actions generalizing sys with
  | nil => left; simp [System.run, State.since, h, subscribeCalls, ledWrites]
  | cons a l ih =>
    rw [System.run_cons_since]
    rcases (sys.step_subscriber a).1 h with ⟨h1, h2, h3⟩ | ⟨r, h2, h3, h1⟩
    · rcases ih (sys.step a) h1 with ⟨i1, i2, i3⟩ | ⟨first, second, r, i0, i1, i2, i3, i4, i5⟩
      · left
        refine ⟨i1, ?_, ?_⟩
        · simp only [subscribeCalls, List.filterMap_append] at h2 i2 ⊢
          rw [h2, i2]; rfl
        · simp only [ledWrites, List.filterMap_append] at h3 i3 ⊢
          rw [h3, i3]; rfl
      · right
        refine ⟨(sys.step a).state.since sys.state ++ first, second, r, ?_, ?_, ?_, i3, i4, i5⟩
        · rw [i0, List.append_assoc]
        · simp only [subscribeCalls, List.filterMap_append] at h2 i1 ⊢
          rw [h2, i1]; rfl
        · simp only [ledWrites, List.filterMap_append] at h3 i2 ⊢
          rw [h3, i2]; rfl
    · right
      refine ⟨(sys.step a).state.since sys.state,
        ((sys.step a).run l).state.since (sys.step a).state, r, rfl, h2, h3, ?_, ?_, ?_⟩
      · by_cases hr : r = EXIT_SUCCESS
        · rw [if_pos hr] at h1
          exact (System.run_of_subscriber_in_loop _ l h1).2
        · rw [if_neg hr] at h1
          exact (System.run_of_subscriber_suspended _ l h1).2.1
      · by_cases hr : r = EXIT_SUCCESS
        · rw [if_pos hr] at h1 ⊢
          exact (System.run_of_subscriber_in_loop _ l h1).1
        · rw [if_neg hr] at h1 ⊢
          exact (System.run_of_subscriber_suspended _ l h1).1
      · intro hr
        rw [if_neg hr] at h1
        exact (System.run_of_subscriber_suspended _ l h1).2.2.1

/-- C18: in every run of the system from a state in which the subscriber has
been created, `IotMqtt_SubscribeSync` is called at most once, and exactly once
as soon as the subscriber has started; all LED writes come after that call,
and there is one only if the call succeeded. When the call returns anything
but success, the subscriber writes `MQTT_SUBSCRIBE_FAILURE` to the status
queue by `xQueueOverwrite` and suspends itself, and afterwards, whatever
happens, it stays suspended and writes neither the LED nor
`current_device_state`. -/
theorem C18_subscribe_once (sys final : System) (actions later : List Action) (r : Nat)
    (hc : sys.subscriber = .created) (hrun : final = sys.run actions)
    (hr : r ≠ EXIT_SUCCESS) :
    (subscribeCalls (final.state.since sys.state)).length ≤ 1 ∧
      (final.subscriber ≠ .created →
        (subscribeCalls (final.state.since sys.state)).length = 1) ∧
      (final.subscriber = .in_loop →
        subscribeCalls (final.state.since sys.state) = [EXIT_SUCCESS]) ∧
      (ledWrites (final.state.since sys.state) ≠ [] →
        subscribeCalls (final.state.since sys.state) = [EXIT_SUCCESS]) ∧
      (∃ first second : List Event,
        final.state.since sys.state = first ++ second ∧
        ledWrites first = [] ∧ subscribeCalls second = []) ∧
      statusWrites ((sys.step (.subscriber_task r)).state.since sys.state) =
        [mqtt_result_t.MQTT_SUBSCRIBE_FAILURE] ∧
      (sys.step (.subscriber_task r)).state.mqtt_status_q =
        sys.state.mqtt_status_q.map (xQueueOverwrite · .MQTT_SUBSCRIBE_FAILURE) ∧
      ((sys.step (.subscriber_task r)).state.since sys.state).getLast? =
        some (Event.vTaskSuspend .subscriber_task) ∧
      (sys.step (.subscriber_task r)).subscriber = .suspended ∧
      ((sys.step (.subscriber_task r)).run later).subscriber = .suspended ∧
      ledWrites (((sys.step (.subscriber_task r)).run later).state.since
        (sys.step (.subscriber_task r)).state) = [] ∧
      ((sys.step (.subscriber_task r)).run later).state.current_device_state =
        sys.state.current_device_state := by
  have hstep : sys.step (.subscriber_task r) =
      { sys with state := (MqttClient.subscriber_task r sys.state).2, subscriber := .suspended } := by
    simp [System.step, hc, MqttClient.subscriber_task, hr]
  have hsusp : (sys.step (.subscriber_task r)).subscriber = .suspended := by rw [hstep]
  obtain ⟨l1, -, l3, l4⟩ := System.run_of_subscriber_suspended _ later hsusp
  have hcds : (sys.step (.subscriber_task r)).state.current_device_state =
      sys.state.current_device_state := by
    rw [hstep]; simp [MqttClient.subscriber_task, hr, State.emit]
  have hist := System.run_of_subscriber_created sys actions hc
  rw [← hrun] at hist
  refine ⟨?_, ?_, ?_, ?_, ?_, ?_, ?_, ?_, hsusp, l1, l3, by rw [l4, hcds]⟩
  · rcases hist with ⟨-, h2, -⟩ | ⟨first, second, r', h0, h1, -, h3, -, -⟩
    · rw [h2]; simp
    · rw [h0]
      simp only [subscribeCalls, List.filterMap_append] at h1 h3 ⊢
      rw [h1, h3]; simp
  · intro hne
    rcases hist with ⟨h1, -, -⟩ | ⟨first, second, r', h0, h1, -, h3, -, -⟩
    · exact absurd h1 hne
    · rw [h0]
      simp only [subscribeCalls, List.filterMap_append] at h1 h3 ⊢
      rw [h1, h3]; simp
  · intro hin
    rcases hist with ⟨h1, -, -⟩ | ⟨first, second, r', h0, h1, -, h3, h4, -⟩
    · rw [h1] at hin; exact absurd hin (by decide)
    · have hr' : r' = EXIT_SUCCESS := by
        by_contra hne
        rw [if_neg hne, hin] at h4
        exact absurd h4 (by decide)
      rw [h0]
      simp only [subscribeCalls, List.filterMap_append] at h1 h3 ⊢
      rw [h1, h3, hr']; rfl
  · intro hled
    rcases hist with ⟨-, -, h3⟩ | ⟨first, second, r', h0, h1, h2, h3, -, h5⟩
    · exact absurd h3 hled
    · have hr' : r' = EXIT_SUCCESS := by
        by_contra hne
        apply hled
        rw [h0]
        simp only [ledWrites, List.filterMap_append] at h2 ⊢
        have := h5 hne
        simp only [ledWrites] at this
        rw [h2, this]; rfl
      rw [h0]
      simp only [subscribeCalls, List.filterMap_append] at h1 h3 ⊢
      rw [h1, h3, hr']; rfl
  · rcases hist with ⟨-, h2, h3⟩ | ⟨first, second, r', h0, -, h2, h3, -, -⟩
    · exact ⟨final.state.since sys.state, [], by simp, h3, rfl⟩
    · exact ⟨first, second, h0, h2, h3⟩
  · rw [hstep]
    simp [MqttClient.subscriber_task, hr, State.emit, State.since, statusWrites]
  · rw [hstep]
    simp [MqttClient.subscriber_task, hr, State.emit]
  · rw [hstep]
    simp [MqttClient.subscriber_task, hr, State.emit, State.since]

/-- C18, from the start with a failing subscription: afterwards a message
`TURN ON` arrives and the subscriber is given a turn, and the LED is not
written. -/
theorem C18_subscribe_once_witness :
    System.initial.subscriber = .created ∧ (1 : Nat) ≠ EXIT_SUCCESS ∧
      ledWrites (((System.initial.step (.subscriber_task 1)).run
          [.mqtt_subscription_callback (literal MQTT_DEVICE_ON_MESSAGE) 7,
            .subscriber_task_loop]).state.since
          (System.initial.step (.subscriber_task 1)).state) = [] :=
  ⟨rfl, by decide,
    (C18_subscribe_once System.initial System.initial []
      [.mqtt_subscription_callback (literal MQTT_DEVICE_ON_MESSAGE) 7, .subscriber_task_loop] 1
      rfl rfl (by decide)).2.2.2.2.2.2.2.2.2.2.1⟩

/-- The calls `mqtt_connect` makes and the last thing it prints: the steps are
invoked in order up to and including the first one that fails, and the message
printed last on a failure is the error message of the failing step. -/
theorem mqtt_connect_calls (env : Env) (s : State) :
    bringupCalls ((mqtt_connect env s).2.since s) =
        sessionSteps.take ((sessionSteps.takeWhile (·.succeeds env)).length + 1) ∧
      (firstFailingSession env = none →
        bringupCalls ((mqtt_connect env s).2.since s) = sessionSteps) ∧
      ∀ k, firstFailingSession env = some k →
        ((mqtt_connect env s).2.since s).getLast? = some (Event.printf (sessionErrorMessage k)) := by
  have hlen : ∀ a b : Nat, ¬ ((a : Int) + (b : Int) < 0) := fun a b => by omega
  cases h1 : env.IotSdk_Init
  · simp [mqtt_connect, CHECK_RESULT, h1, State.emit, State.since, BringupStep.succeeds,
      bringupCalls, Event.bringupStep?, sessionSteps, firstFailingSession,
      sessionErrorMessage, EXIT_FAILURE, EXIT_SUCCESS]
  · by_cases h2 : env.IotNetworkSecureSockets_Init = 0
    · by_cases h3 : env.IotMqtt_Init = 0
      · cases h4 : env.snprintf_error
        · by_cases h5 : env.IotMqtt_Connect = 0
          · simp [mqtt_connect, CHECK_RESULT, h1, h2, h3, h4, h5, State.emit, State.since,
              BringupStep.succeeds, bringupCalls, Event.bringupStep?, sessionSteps,
              firstFailingSession, sessionErrorMessage, EXIT_FAILURE, EXIT_SUCCESS,
              mqtt_get_unique_client_identifier, snprintf, hlen,
              MQTT_CLIENT_IDENTIFIER_MAX_LEN]
          · simp [mqtt_connect, CHECK_RESULT, h1, h2, h3, h4, h5, State.emit, State.since,
              BringupStep.succeeds, bringupCalls, Event.bringupStep?, sessionSteps,
              firstFailingSession, sessionErrorMessage, EXIT_FAILURE, EXIT_SUCCESS,
              mqtt_get_unique_client_identifier, snprintf, hlen,
              MQTT_CLIENT_IDENTIFIER_MAX_LEN]
        · simp [mqtt_connect, CHECK_RESULT, h1, h2, h3, h4, State.emit, State.since,
            BringupStep.succeeds, bringupCalls, Event.bringupStep?, sessionSteps,
            firstFailingSession, sessionErrorMessage, EXIT_FAILURE, EXIT_SUCCESS,
            mqtt_get_unique_client_identifier, snprintf]
      · simp [mqtt_connect, CHECK_RESULT, h1, h2, h3, State.emit, State.since,
          BringupStep.succeeds, bringupCalls, Event.bringupStep?, sessionSteps,
          firstFailingSession, sessionErrorMessage, EXIT_FAILURE, EXIT_SUCCESS]
    · simp [mqtt_connect, CHECK_RESULT, h1, h2, State.emit, State.since,
        BringupStep.succeeds, bringupCalls, Event.bringupStep?, sessionSteps,
        firstFailingSession, sessionErrorMessage, EXIT_FAILURE, EXIT_SUCCESS]

/-- A list in which some element fails a test splits at the first such element:
the elements before it pass, and the rest follows it. -/
theorem find?_not_split {α : Type} (p : α → Bool) :
    ∀ (l : List α) (k : α), l.find? (fun x => !p x) = some k →
      l = l.takeWhile p ++ k :: (l.dropWhile p).tail ∧ p k = false
  | [], k, h => by simp at h
  | a :: l, k, h => by
    cases hp : p a
    · simp [List.find?, hp] at h
      subst h
      simp [List.takeWhile, List.dropWhile, hp]
    · simp [List.find?, hp] at h
      have ih := find?_not_split p l k h
      simp only [List.takeWhile, List.dropWhile, hp, List.cons_append, List.cons.injEq,
        true_and]
      exact ih

/-- Taking one element more than a front part of a list. -/
theorem take_length_succ_append {α : Type} (a : List α) (k : α) (b : List α) :
    (a ++ k :: b).take (a.length + 1) = a ++ [k] := by
  induction a with
  | nil => simp
  | cons x a ih => simpa using ih

/-- The steps of `mqtt_connect` are pairwise distinct. -/
theorem sessionSteps_nodup : sessionSteps.Nodup := by decide

/-- C19: in `mqtt_connect` the steps `IotSdk_Init`, `IotNetworkSecureSockets_Init`,
`IotMqtt_Init`, generation of the client identifier and `IotMqtt_Connect` are
invoked in this order. If none fails, all five are invoked and the function
returns `EXIT_SUCCESS`. If `k` is the first step that fails, the steps invoked
are the ones before `k` followed by `k`, no step after `k` is invoked, the
function returns `EXIT_FAILURE`, and the capability bit of every step before
`k` is set in `init_flag`. In both cases every bit of `init_flag` that was set
before the call is set after it. -/
theorem C19_session_steps_in_order (env : Env) (s : State) :
    (firstFailingSession env = none →
        bringupCalls ((mqtt_connect env s).2.since s) = sessionSteps ∧
          (mqtt_connect env s).1 = EXIT_SUCCESS) ∧
      (∀ k, firstFailingSession env = some k →
        sessionSteps = sessionSteps.takeWhile (·.succeeds env) ++
            k :: (sessionSteps.dropWhile (·.succeeds env)).tail ∧
          (∀ step ∈ sessionSteps.takeWhile (·.succeeds env), step.succeeds env = true) ∧
          k.succeeds env = false ∧
          bringupCalls ((mqtt_connect env s).2.since s) =
            sessionSteps.takeWhile (·.succeeds env) ++ [k] ∧
          (∀ step ∈ (sessionSteps.dropWhile (·.succeeds env)).tail,
            step ∉ bringupCalls ((mqtt_connect env s).2.since s)) ∧
          (mqtt_connect env s).1 = EXIT_FAILURE ∧
          (∀ step ∈ sessionSteps.takeWhile (·.succeeds env), ∀ c, step.capability = some c →
            (mqtt_connect env s).2.init_flag &&& c.mask ≠ 0)) ∧
      (∀ i, s.init_flag.testBit i = true →
        (mqtt_connect env s).2.init_flag.testBit i = true) := by
  obtain ⟨evs, hrun, -, hacq⟩ := mqtt_connect_spec env s
  obtain ⟨hcalls, hnone, -⟩ := mqtt_connect_calls env s
  have hflag : (mqtt_connect env s).2.init_flag = grant (acquired evs) s.init_flag := by
    rw [hrun]
  refine ⟨fun h => ⟨hnone h, ?_⟩, fun k hk => ?_, fun i hi => ?_⟩
  · have hall : sessionSteps.all (·.succeeds env) = true := by
      rw [List.all_eq_true]
      intro step hstep
      have := List.find?_eq_none.1 h step hstep
      simpa using this
    rw [hrun]
    simp only [sessionSteps] at hall
    simp [hall]
  · obtain ⟨hsplit, hfalse⟩ := find?_not_split (fun step : BringupStep => step.succeeds env) sessionSteps k hk
    have hcalls2 : bringupCalls ((mqtt_connect env s).2.since s) =
        sessionSteps.takeWhile (·.succeeds env) ++ [k] := by
      rw [hcalls]
      have := congrArg
        (List.take ((sessionSteps.takeWhile (·.succeeds env)).length + 1)) hsplit
      rw [this, take_length_succ_append]
    have hnodup := sessionSteps_nodup
    rw [hsplit] at hnodup
    refine ⟨hsplit, fun step hstep => (List.mem_takeWhile_imp hstep), hfalse, hcalls2,
      fun step hstep hmem => ?_, ?_, fun step hstep c hc => ?_⟩
    · rw [hcalls2, List.mem_append, List.mem_singleton] at hmem
      rw [List.nodup_append] at hnodup
      rcases hmem with hmem | hmem
      · exact hnodup.2.2 hmem (List.mem_cons_of_mem _ hstep)
      · subst hmem
        exact (List.nodup_cons.1 hnodup.2.1).1 hstep
    · have hall : sessionSteps.all (·.succeeds env) = false := by
        rw [List.all_eq_false]
        refine ⟨k, ?_, by simp [hfalse]⟩
        rw [hsplit]
        simp
      rw [hrun]
      simp only [sessionSteps] at hall
      simp [hall]
    · rw [hflag, Capability.mask_eq, and_two_pow_ne_zero, testBit_grant, hacq]
      simp only [Bool.or_eq_true, List.any_eq_true, decide_eq_true_eq]
      refine Or.inr ⟨c, ?_, rfl⟩
      rw [List.mem_filterMap]
      exact ⟨step, hstep, hc⟩
  · rw [hflag, testBit_grant, hi, Bool.true_or]

/-- An instance of C19: when the initialization of the MQTT library fails, the
SDK, the network stack and the MQTT library initializations are invoked, in
this order, and nothing else. -/
theorem C19_session_steps_in_order_witness :
    firstFailingSession Env.mqttInitFails = some .IotMqtt_Init ∧
      bringupCalls ((mqtt_connect Env.mqttInitFails State.initial).2.since State.initial) =
        sessionSteps.takeWhile (·.succeeds Env.mqttInitFails) ++ [.IotMqtt_Init] :=
  ⟨by decide,
    ((C19_session_steps_in_order Env.mqttInitFails State.initial).2.1 .IotMqtt_Init
      (by decide)).2.2.2.1⟩

/-- Different steps of `mqtt_connect` have different error messages. -/
theorem sessionErrorMessage_injective :
    ∀ a ∈ sessionSteps, ∀ b ∈ sessionSteps,
      sessionErrorMessage a = sessionErrorMessage b → a = b := by
  simp [sessionSteps, sessionErrorMessage]

/-- C20, counterexample: a run of `mqtt_connect` in which the initialization of
the SDK fails and a run in which the MQTT connection fails, which are different
steps, return the same result to the caller. -/
theorem C20_failing_step_not_in_result :
    firstFailingSession Env.sdkInitFails = some .IotSdk_Init ∧
      firstFailingSession Env.connectFails = some .IotMqtt_Connect ∧
      BringupStep.IotSdk_Init ≠ BringupStep.IotMqtt_Connect ∧
      (mqtt_connect Env.sdkInitFails State.initial).1 =
        (mqtt_connect Env.connectFails State.initial).1 := by
  refine ⟨by decide, by decide, by decide, ?_⟩
  obtain ⟨evs1, h1, -⟩ := mqtt_connect_spec Env.sdkInitFails State.initial
  obtain ⟨evs2, h2, -⟩ := mqtt_connect_spec Env.connectFails State.initial
  rw [h1, h2]
  rfl

/-- C20, amended: the result of `mqtt_connect` does not tell which step failed.
Any two runs that fail, at whichever steps, return the same value
`EXIT_FAILURE`; the step that failed shows only in the error message printed
last, which is the message of the failing step, and the messages of two runs
are the same exactly when the steps that failed are the same. -/
theorem C20_failure_result_is_uniform (env1 env2 : Env) (s1 s2 : State) (k1 k2 : BringupStep)
    (h1 : firstFailingSession env1 = some k1) (h2 : firstFailingSession env2 = some k2) :
    (mqtt_connect env1 s1).1 = EXIT_FAILURE ∧
      (mqtt_connect env2 s2).1 = EXIT_FAILURE ∧
      (mqtt_connect env1 s1).1 = (mqtt_connect env2 s2).1 ∧
      ((mqtt_connect env1 s1).2.since s1).getLast? =
        some (Event.printf (sessionErrorMessage k1)) ∧
      ((mqtt_connect env2 s2).2.since s2).getLast? =
        some (Event.printf (sessionErrorMessage k2)) ∧
      (((mqtt_connect env1 s1).2.since s1).getLast? =
        ((mqtt_connect env2 s2).2.since s2).getLast? ↔ k1 = k2) := by
  have hfail : ∀ (env : Env) (s : State) (k : BringupStep), firstFailingSession env = some k →
      (mqtt_connect env s).1 = EXIT_FAILURE ∧ k ∈ sessionSteps := by
    intro env s k hk
    obtain ⟨evs, hrun, -⟩ := mqtt_connect_spec env s
    obtain ⟨hsplit, hfalse⟩ :=
      find?_not_split (fun step : BringupStep => step.succeeds env) sessionSteps k hk
    have hmem : k ∈ sessionSteps := by
      rw [hsplit]
      simp
    have hall : sessionSteps.all (·.succeeds env) = false := by
      rw [List.all_eq_false]
      exact ⟨k, hmem, by simp [hfalse]⟩
    rw [hrun]
    simp only [sessionSteps] at hall
    exact ⟨by simp [hall], hmem⟩
  have hm1 := (mqtt_connect_calls env1 s1).2.2 k1 h1
  have hm2 := (mqtt_connect_calls env2 s2).2.2 k2 h2
  refine ⟨(hfail env1 s1 k1 h1).1, (hfail env2 s2 k2 h2).1,
    (hfail env1 s1 k1 h1).1.trans (hfail env2 s2 k2 h2).1.symm, hm1, hm2, ?_⟩
  rw [hm1, hm2]
  constructor
  · intro h
    simp only [Option.some.injEq, Event.printf.injEq] at h
    exact sessionErrorMessage_injective k1 (hfail env1 s1 k1 h1).2 k2 (hfail env2 s2 k2 h2).2 h
  · intro h
    rw [h]

/-- An instance of the amended C20: the run in which the SDK initialization
fails and the run in which the MQTT connection fails return the same result. -/
theorem C20_failure_result_is_uniform_witness :
    firstFailingSession Env.sdkInitFails = some .IotSdk_Init ∧
      firstFailingSession Env.connectFails = some .IotMqtt_Connect ∧
      (mqtt_connect Env.sdkInitFails State.initial).1 = EXIT_FAILURE ∧
      (mqtt_connect Env.connectFails State.running).1 = EXIT_FAILURE :=
  ⟨by decide, by decide,
    (C20_failure_result_is_uniform Env.sdkInitFails Env.connectFails State.initial
      State.running .IotSdk_Init .IotMqtt_Connect (by decide) (by decide)).1,
    (C20_failure_result_is_uniform Env.sdkInitFails Env.connectFails State.initial
      State.running .IotSdk_Init .IotMqtt_Connect (by decide) (by decide)).2.1⟩

/-- The teardown calls among the events of `cleanup`. -/
theorem teardownCalls_cleanupEvents (env : Env) (flag : Nat) :
    teardownCalls (cleanupEvents env flag) =
      teardownOrder.filter (fun op => flag &&& op.mask ≠ 0) := by
  have h := cleanup_calls env
    { init_flag := flag, current_device_state := 0, mqtt_status_q := none,
      subscriber_task_handle := false, publisher_task_handle := false,
      subscriber_notification := none, publisher_notification := none,
      publishInfo := publishInfo_initializer, trace := [] }
  rw [cleanup_since] at h
  exact h

/-- C21 as stated fails: after a complete bring-up (`State.running`, all six
bits set) a second run of `cleanup` issues all six teardown calls again, so two
runs in succession issue twelve calls and one run issues six. -/
theorem C21_second_cleanup_tears_down_again :
    teardownCalls ((cleanup Env.allSucceed State.running).since State.running) =
        teardownOrder ∧
      teardownCalls ((cleanup Env.allSucceed (cleanup Env.allSucceed State.running)).since
          (cleanup Env.allSucceed State.running)) = teardownOrder ∧
      teardownCalls ((cleanup Env.allSucceed (cleanup Env.allSucceed State.running)).since
          State.running) ≠
        teardownCalls ((cleanup Env.allSucceed State.running).since State.running) := by
  decide

/-- C21, amended: `cleanup` leaves `init_flag` as it is, so a second run in
succession issues exactly the teardown calls of the first run again; the calls
of the two runs together are those of one run, twice over, and they are the
calls of one run only when no capability bit is set, in which case neither run
issues any call. -/
theorem C21_cleanup_repeats (env : Env) (s : State) :
    (cleanup env s).init_flag = s.init_flag ∧
      teardownCalls ((cleanup env (cleanup env s)).since (cleanup env s)) =
        teardownCalls ((cleanup env s).since s) ∧
      teardownCalls ((cleanup env (cleanup env s)).since s) =
        teardownCalls ((cleanup env s).since s) ++ teardownCalls ((cleanup env s).since s) ∧
      (teardownCalls ((cleanup env (cleanup env s)).since s) =
          teardownCalls ((cleanup env s).since s) ↔
        ∀ op : Teardown, s.init_flag &&& op.mask = 0) ∧
      ((∀ op : Teardown, s.init_flag &&& op.mask = 0) ↔
        teardownCalls ((cleanup env s).since s) = []) := by
  have hflag : (cleanup env s).init_flag = s.init_flag := (cleanup_frame env s).1
  have h1 : (cleanup env s).since s = cleanupEvents env s.init_flag := cleanup_since env s
  have h2 : (cleanup env (cleanup env s)).since (cleanup env s) =
      cleanupEvents env s.init_flag := by
    rw [cleanup_since, hflag]
  have h12 : (cleanup env (cleanup env s)).since s =
      cleanupEvents env s.init_flag ++ cleanupEvents env s.init_flag := by
    rw [State.since_append (cleanup_trace_since env s)
      (cleanup_trace_since env (cleanup env s)), h1, h2]
  have hnil : (∀ op : Teardown, s.init_flag &&& op.mask = 0) ↔
      teardownCalls (cleanupEvents env s.init_flag) = [] := by
    rw [teardownCalls_cleanupEvents, List.filter_eq_nil_iff]
    constructor
    · intro h op _
      simp [h op]
    · intro h op
      have := h op (by cases op <;> simp [teardownOrder])
      simpa using this
  refine ⟨hflag, by rw [h1, h2], by rw [h12, h1, teardownCalls_append], ?_, by rw [h1]; exact hnil⟩
  rw [h12, h1, teardownCalls_append, hnil]
  constructor
  · intro h
    have := congrArg List.length h
    simp only [List.length_append] at this
    exact List.length_eq_zero.1 (by omega)
  · intro h
    rw [h]
    rfl

/-- The events appended to a trace, read off an equation for the trace. -/
theorem since_of_trace_eq {s s2 : State} {l : List Event} (h : s2.trace = s.trace ++ l) :
    s2.since s = l := by
  simp [State.since, h]

/-- The events of the association loop are lines of diagnostics, association
attempts and delays, appended to the trace. -/
theorem wifi_connect_loop_events (env : Env) :
    ∀ (remaining retry_count : Nat) (s : State),
      (wifi_connect_loop env remaining retry_count s).2.trace =
          s.trace ++ (wifi_connect_loop env remaining retry_count s).2.since s ∧
        ∀ e ∈ (wifi_connect_loop env remaining retry_count s).2.since s,
          e.inWifiConnect = true
  | 0, retry_count, s => by
    simp [wifi_connect_loop, State.emit, State.since, Event.inWifiConnect]
  | remaining + 1, retry_count, s => by
    by_cases h0 : env.cy_wcm_connect_ap retry_count = CY_RSLT_SUCCESS
    · cases hv : env.ip_address_version <;>
        simp [wifi_connect_loop, h0, hv, State.emit, State.since, Event.inWifiConnect]
    · obtain ⟨s4, hs4⟩ : ∃ s4 : State, s4 =
          (((s.emit (.printf "Connecting to Wi-Fi AP '%s'\n")).emit
            (.cy_wcm_connect_ap (env.cy_wcm_connect_ap retry_count))).emit (.printf
              "Connection to Wi-Fi network failed with error code 0x%0X. Retrying in %d ms...\n")).emit
            (.vTaskDelay env.WIFI_CONN_RETRY_INTERVAL_MS) := ⟨_, rfl⟩
      have h4 : s4.trace = s.trace ++ [Event.printf "Connecting to Wi-Fi AP '%s'\n",
          Event.cy_wcm_connect_ap (env.cy_wcm_connect_ap retry_count), Event.printf
            "Connection to Wi-Fi network failed with error code 0x%0X. Retrying in %d ms...\n",
          Event.vTaskDelay env.WIFI_CONN_RETRY_INTERVAL_MS] := by
        rw [hs4]
        simp [State.emit]
      obtain ⟨ht, hc⟩ := wifi_connect_loop_events env remaining (retry_count + 1) s4
      simp only [wifi_connect_loop, h0, if_false, ← hs4]
      generalize wifi_connect_loop env remaining (retry_count + 1) s4 = r at ht hc ⊢
      have hs := State.since_append
        (show s4.trace = s.trace ++ s4.since s by rw [since_of_trace_eq h4]; exact h4) ht
      rw [since_of_trace_eq h4] at hs
      refine ⟨by rw [hs, ht, h4, List.append_assoc], ?_⟩
      intro e he
      rw [hs] at he
      simp only [List.mem_append, List.mem_cons, List.mem_singleton, List.not_mem_nil,
        or_false] at he
      rcases he with (rfl | rfl | rfl | rfl) | he
      · rfl
      · rfl
      · rfl
      · rfl
      · exact hc e he

/-- The events of `wifi_connect` are lines of diagnostics, the initialization
of the connection manager, association attempts and delays; the function
changes nothing but `init_flag` and the trace. -/
theorem wifi_connect_events (env : Env) (s : State) :
    ∃ W : List Event,
      (wifi_connect env s).2 =
          { s with init_flag := (wifi_connect env s).2.init_flag, trace := s.trace ++ W } ∧
        (∀ e ∈ W, e.inWifiConnect = true) ∧
        (∀ i, s.init_flag.testBit i = true →
          (wifi_connect env s).2.init_flag.testBit i = true) := by
  obtain ⟨evs, m, hw, -⟩ := wifi_connect_spec env s
  refine ⟨evs, by rw [hw], ?_, ?_⟩
  · have hsince : (wifi_connect env s).2.since s = evs := by
      rw [hw]
      simp [State.since]
    rw [← hsince, wifi_connect_eq]
    split_ifs with h1
    · obtain ⟨ht, hc⟩ := wifi_connect_loop_events env env.MAX_WIFI_CONN_RETRIES 0
        { s with
          init_flag := s.init_flag ||| WCM_INITIALIZED
          trace := s.trace ++ [.cy_wcm_init env.cy_wcm_init,
            .printf "\nWi-Fi Connection Manager initialized.\n"] }
      generalize wifi_connect_loop env env.MAX_WIFI_CONN_RETRIES 0 _ = r at ht hc ⊢
      intro e he
      have hs : r.2.since s = Event.cy_wcm_init env.cy_wcm_init ::
          Event.printf "\nWi-Fi Connection Manager initialized.\n" ::
            r.2.since { s with
              init_flag := s.init_flag ||| WCM_INITIALIZED
              trace := s.trace ++ [.cy_wcm_init env.cy_wcm_init,
                .printf "\nWi-Fi Connection Manager initialized.\n"] } := by
        rw [State.since, ht]
        simp
      rw [hs] at he
      simp only [List.mem_cons] at he
      rcases he with rfl | rfl | he
      · rfl
      · rfl
      · exact hc e he
    · simp [State.since, Event.inWifiConnect]
  · intro i hi
    rw [hw]
    simp only [testBit_grant, hi, Bool.true_or]

/-- The events of `mqtt_connect` are lines of diagnostics and the calls of its
five steps; the function changes nothing but `init_flag` and the trace. -/
theorem mqtt_connect_events (env : Env) (s : State) :
    ∃ M : List Event,
      (mqtt_connect env s).2 =
          { s with init_flag := (mqtt_connect env s).2.init_flag, trace := s.trace ++ M } ∧
        (∀ e ∈ M, e.inMqttConnect = true) ∧
        (∀ i, s.init_flag.testBit i = true →
          (mqtt_connect env s).2.init_flag.testBit i = true) ∧
        (∃ r, M.head? = some (Event.IotSdk_Init r)) := by
  have hlen : ∀ a b : Nat, ¬ ((a : Int) + (b : Int) < 0) := fun a b => by omega
  obtain ⟨evs, hm, -⟩ := mqtt_connect_spec env s
  have hsince : (mqtt_connect env s).2.since s = evs := by
    rw [hm]
    simp [State.since]
  refine ⟨evs, by rw [hm], ?_, ?_, ?_⟩
  · rw [← hsince]
    cases h1 : env.IotSdk_Init
    · simp [mqtt_connect, CHECK_RESULT, h1, State.emit, State.since, Event.inMqttConnect,
        EXIT_FAILURE, EXIT_SUCCESS]
    · by_cases h2 : env.IotNetworkSecureSockets_Init = 0
      · by_cases h3 : env.IotMqtt_Init = 0
        · cases h4 : env.snprintf_error
          · by_cases h5 : env.IotMqtt_Connect = 0
            · simp [mqtt_connect, CHECK_RESULT, h1, h2, h3, h4, h5, State.emit, State.since,
                Event.inMqttConnect, EXIT_FAILURE, EXIT_SUCCESS,
                mqtt_get_unique_client_identifier, snprintf, hlen,
                MQTT_CLIENT_IDENTIFIER_MAX_LEN]
            · simp [mqtt_connect, CHECK_RESULT, h1, h2, h3, h4, h5, State.emit, State.since,
                Event.inMqttConnect, EXIT_FAILURE, EXIT_SUCCESS,
                mqtt_get_unique_client_identifier, snprintf, hlen,
                MQTT_CLIENT_IDENTIFIER_MAX_LEN]
          · simp [mqtt_connect, CHECK_RESULT, h1, h2, h3, h4, State.emit, State.since,
              Event.inMqttConnect, EXIT_FAILURE, EXIT_SUCCESS,
              mqtt_get_unique_client_identifier, snprintf]
        · simp [mqtt_connect, CHECK_RESULT, h1, h2, h3, State.emit, State.since,
            Event.inMqttConnect, EXIT_FAILURE, EXIT_SUCCESS]
      · simp [mqtt_connect, CHECK_RESULT, h1, h2, State.emit, State.since,
          Event.inMqttConnect, EXIT_FAILURE, EXIT_SUCCESS]
  · intro i hi
    rw [hm]
    simp only [testBit_grant, hi, Bool.true_or]
  · rw [← hsince]
    cases h1 : env.IotSdk_Init
    · simp [mqtt_connect, CHECK_RESULT, h1, State.emit, State.since, EXIT_FAILURE, EXIT_SUCCESS]
    · by_cases h2 : env.IotNetworkSecureSockets_Init = 0
      · by_cases h3 : env.IotMqtt_Init = 0
        · cases h4 : env.snprintf_error
          · by_cases h5 : env.IotMqtt_Connect = 0
            · simp [mqtt_connect, CHECK_RESULT, h1, h2, h3, h4, h5, State.emit, State.since,
                EXIT_FAILURE, EXIT_SUCCESS,
                mqtt_get_unique_client_identifier, snprintf, hlen,
                MQTT_CLIENT_IDENTIFIER_MAX_LEN]
            · simp [mqtt_connect, CHECK_RESULT, h1, h2, h3, h4, h5, State.emit, State.since,
                EXIT_FAILURE, EXIT_SUCCESS,
                mqtt_get_unique_client_identifier, snprintf, hlen,
                MQTT_CLIENT_IDENTIFIER_MAX_LEN]
          · simp [mqtt_connect, CHECK_RESULT, h1, h2, h3, h4, State.emit, State.since,
              EXIT_FAILURE, EXIT_SUCCESS,
              mqtt_get_unique_client_identifier, snprintf]
        · simp [mqtt_connect, CHECK_RESULT, h1, h2, h3, State.emit, State.since,
            EXIT_FAILURE, EXIT_SUCCESS]
      · simp [mqtt_connect, CHECK_RESULT, h1, h2, State.emit, State.since,
          EXIT_FAILURE, EXIT_SUCCESS]

/-- The events of `cleanup` are lines of diagnostics and teardown calls. -/
theorem cleanupEvents_events (env : Env) (flag : Nat) :
    ∀ e ∈ cleanupEvents env flag, e.inCleanup = true := by
  intro e he
  simp only [cleanupEvents, List.mem_append] at he
  rcases he with ((((he | he) | he) | he) | he) | he <;>
    (split_ifs at he <;> simp at he <;> (try rcases he with rfl | rfl) <;> rfl)

/-- The label `exit_cleanup`, in terms of the events of `cleanup`. -/
theorem exit_cleanup_eq (env : Env) (s : State) :
    exit_cleanup env s =
      (Ending.task_deleted,
        { s with trace := s.trace ++
          (cleanupEvents env s.init_flag ++ [Event.vTaskDelete .mqtt_client_task]) }) := by
  simp [exit_cleanup, cleanup_eq_events, State.emit]

/-- The function `mqtt_client_task`, by the outcome of each of its stages:
`wifi_connect`, `mqtt_connect`, the creation of the subscriber task and the
creation of the publisher task. -/
theorem mqtt_client_task_eq (env : Env) (s : State) :
    mqtt_client_task env s =
      if (wifi_connect env s.queueCreated).1 ≠ EXIT_SUCCESS then
        exit_cleanup env (wifi_connect env s.queueCreated).2
      else if (mqtt_connect env (wifi_connect env s.queueCreated).2).1 ≠ EXIT_SUCCESS then
        exit_cleanup env (mqtt_connect env (wifi_connect env s.queueCreated).2).2
      else if env.xTaskCreate_subscriber = false then
        exit_cleanup env
          { (mqtt_connect env (wifi_connect env s.queueCreated).2).2 with
            trace := (mqtt_connect env (wifi_connect env s.queueCreated).2).2.trace ++
              [Event.xTaskCreate .subscriber_task false,
                Event.printf "Failed to create the Subscriber task!\n"] }
      else if env.xTaskCreate_publisher = false then
        exit_cleanup env
          { (mqtt_connect env (wifi_connect env s.queueCreated).2).2 with
            subscriber_task_handle := true
            trace := (mqtt_connect env (wifi_connect env s.queueCreated).2).2.trace ++
              [Event.xTaskCreate .subscriber_task true, Event.vTaskDelay TASK_CREATION_DELAY_MS,
                Event.xTaskCreate .publisher_task false,
                Event.printf "Failed to create Publisher task!\n"] }
      else
        mqtt_client_task_loop env
          { (mqtt_connect env (wifi_connect env s.queueCreated).2).2 with
            subscriber_task_handle := true
            publisher_task_handle := true
            trace := (mqtt_connect env (wifi_connect env s.queueCreated).2).2.trace ++
              [Event.xTaskCreate .subscriber_task true, Event.vTaskDelay TASK_CREATION_DELAY_MS,
                Event.xTaskCreate .publisher_task true] } := by
  simp only [mqtt_client_task, bring_up_failed, State.queueCreated]
  generalize wifi_connect env _ = w
  obtain ⟨rw, sw⟩ := w
  by_cases hw : rw = EXIT_SUCCESS
  · generalize hm : mqtt_connect env sw = m
    obtain ⟨rm, sm⟩ := m
    by_cases hm2 : rm = EXIT_SUCCESS
    · cases h1 : env.xTaskCreate_subscriber <;> cases h2 : env.xTaskCreate_publisher <;>
        simp [hw, hm, hm2, h1, h2, State.emit]
    · simp [hw, hm, hm2]
  · simp [hw]

/-- The loop of `mqtt_client_task` when nothing is received: the task stays
blocked and only the queue has changed. -/
theorem mqtt_client_task_loop_blocked (env : Env) (s : State)
    (h : (s.mqtt_status_q.map (fun q => env.status_sends.foldl xQueueOverwrite q)).bind
      xQueueReceive = none) :
    mqtt_client_task_loop env s =
      (Ending.blocked_in_xQueueReceive,
        { s with mqtt_status_q :=
          s.mqtt_status_q.map (fun q => env.status_sends.foldl xQueueOverwrite q) }) := by
  simp only [mqtt_client_task_loop, h]

/-- Every run of `mqtt_client_task`, case by case. With `W` the events of
`wifi_connect`, `M` those of `mqtt_connect`, and `fw`, `fm` the values of
`init_flag` they leave: the result and the final state when `wifi_connect`
fails, when `mqtt_connect` fails, when the subscriber task or the publisher
task cannot be created, when nothing is received from the status queue, and
when a status is received. -/
theorem mqtt_client_task_run (env : Env) (s : State) :
    ∃ (W M : List Event) (fw fm : Nat),
      (∀ e ∈ W, e.inWifiConnect = true) ∧ (∀ e ∈ M, e.inMqttConnect = true) ∧
      (∃ r, M.head? = some (Event.IotSdk_Init r)) ∧
      (∀ i, s.init_flag.testBit i = true → fw.testBit i = true) ∧
      (∀ i, fw.testBit i = true → fm.testBit i = true) ∧
      ((wifi_connect env s.queueCreated).1 ≠ EXIT_SUCCESS →
        mqtt_client_task env s = (Ending.task_deleted,
          { s with
            init_flag := fw
            mqtt_status_q := some (xQueueCreate MQTT_STATUS_QUEUE_LENGTH)
            trace := s.trace ++ (Event.xQueueCreate MQTT_STATUS_QUEUE_LENGTH :: W ++
              (cleanupEvents env fw ++ [Event.vTaskDelete .mqtt_client_task])) })) ∧
      ((wifi_connect env s.queueCreated).1 = EXIT_SUCCESS →
        (mqtt_connect env (wifi_connect env s.queueCreated).2).1 ≠ EXIT_SUCCESS →
        mqtt_client_task env s = (Ending.task_deleted,
          { s with
            init_flag := fm
            mqtt_status_q := some (xQueueCreate MQTT_STATUS_QUEUE_LENGTH)
            trace := s.trace ++ (Event.xQueueCreate MQTT_STATUS_QUEUE_LENGTH :: W ++ M ++
              (cleanupEvents env fm ++ [Event.vTaskDelete .mqtt_client_task])) })) ∧
      ((wifi_connect env s.queueCreated).1 = EXIT_SUCCESS →
        (mqtt_connect env (wifi_connect env s.queueCreated).2).1 = EXIT_SUCCESS →
        env.xTaskCreate_subscriber = false →
        mqtt_client_task env s = (Ending.task_deleted,
          { s with
            init_flag := fm
            mqtt_status_q := some (xQueueCreate MQTT_STATUS_QUEUE_LENGTH)
            trace := s.trace ++ (Event.xQueueCreate MQTT_STATUS_QUEUE_LENGTH :: W ++ M ++
              [Event.xTaskCreate .subscriber_task false,
                Event.printf "Failed to create the Subscriber task!\n"] ++
              (cleanupEvents env fm ++ [Event.vTaskDelete .mqtt_client_task])) })) ∧
      ((wifi_connect env s.queueCreated).1 = EXIT_SUCCESS →
        (mqtt_connect env (wifi_connect env s.queueCreated).2).1 = EXIT_SUCCESS →
        env.xTaskCreate_subscriber = true → env.xTaskCreate_publisher = false →
        mqtt_client_task env s = (Ending.task_deleted,
          { s with
            init_flag := fm
            mqtt_status_q := some (xQueueCreate MQTT_STATUS_QUEUE_LENGTH)
            subscriber_task_handle := true
            trace := s.trace ++ (Event.xQueueCreate MQTT_STATUS_QUEUE_LENGTH :: W ++ M ++
              [Event.xTaskCreate .subscriber_task true, Event.vTaskDelay TASK_CREATION_DELAY_MS,
                Event.xTaskCreate .publisher_task false,
                Event.printf "Failed to create Publisher task!\n"] ++
              (cleanupEvents env fm ++ [Event.vTaskDelete .mqtt_client_task])) })) ∧
      ((wifi_connect env s.queueCreated).1 = EXIT_SUCCESS →
        (mqtt_connect env (wifi_connect env s.queueCreated).2).1 = EXIT_SUCCESS →
        env.xTaskCreate_subscriber = true → env.xTaskCreate_publisher = true →
        xQueueReceive (env.status_sends.foldl xQueueOverwrite
          (xQueueCreate MQTT_STATUS_QUEUE_LENGTH)) = none →
        mqtt_client_task env s = (Ending.blocked_in_xQueueReceive,
          { s with
            init_flag := fm
            mqtt_status_q := some (env.status_sends.foldl xQueueOverwrite
              (xQueueCreate MQTT_STATUS_QUEUE_LENGTH))
            subscriber_task_handle := true
            publisher_task_handle := true
            trace := s.trace ++ (Event.xQueueCreate MQTT_STATUS_QUEUE_LENGTH :: W ++ M ++
              [Event.xTaskCreate .subscriber_task true, Event.vTaskDelay TASK_CREATION_DELAY_MS,
                Event.xTaskCreate .publisher_task true]) })) ∧
      (∀ (v : mqtt_result_t) (q : Queue),
        (wifi_connect env s.queueCreated).1 = EXIT_SUCCESS →
        (mqtt_connect env (wifi_connect env s.queueCreated).2).1 = EXIT_SUCCESS →
        env.xTaskCreate_subscriber = true → env.xTaskCreate_publisher = true →
        xQueueReceive (env.status_sends.foldl xQueueOverwrite
          (xQueueCreate MQTT_STATUS_QUEUE_LENGTH)) = some (v, q) →
        mqtt_client_task env s = (Ending.task_deleted,
          { s with
            init_flag := fm
            mqtt_status_q := some q
            subscriber_task_handle := true
            publisher_task_handle := true
            trace := s.trace ++ (Event.xQueueCreate MQTT_STATUS_QUEUE_LENGTH :: W ++ M ++
              [Event.xTaskCreate .subscriber_task true, Event.vTaskDelay TASK_CREATION_DELAY_MS,
                Event.xTaskCreate .publisher_task true] ++
              (Event.xQueueReceive v :: unsubscribeEvents env v ++
                [Event.vTaskDelete .subscriber_task, Event.publisher_cleanup,
                  Event.vTaskDelete .publisher_task]) ++
              (cleanupEvents env fm ++ [Event.vTaskDelete .mqtt_client_task])) })) := by
  obtain ⟨W, hW, hWc, hWm⟩ := wifi_connect_events env s.queueCreated
  obtain ⟨M, hM, hMc, hMm, hMh⟩ := mqtt_connect_events env (wifi_connect env s.queueCreated).2
  refine ⟨W, M, (wifi_connect env s.queueCreated).2.init_flag,
    (mqtt_connect env (wifi_connect env s.queueCreated).2).2.init_flag, hWc, hMc, hMh, hWm, hMm,
    ?_, ?_, ?_, ?_, ?_, ?_⟩
  · intro h1
    rw [mqtt_client_task_eq, if_pos h1, exit_cleanup_eq, hW]
    simp [State.queueCreated, State.emit]
  · intro h1 h2
    rw [mqtt_client_task_eq, if_neg (not_not.2 h1), if_pos h2, exit_cleanup_eq, hM, hW]
    simp [State.queueCreated, State.emit]
  · intro h1 h2 h3
    rw [mqtt_client_task_eq, if_neg (not_not.2 h1), if_neg (not_not.2 h2), if_pos h3,
      exit_cleanup_eq, hM, hW]
    simp [State.queueCreated, State.emit]
  · intro h1 h2 h3 h4
    rw [mqtt_client_task_eq, if_neg (not_not.2 h1), if_neg (not_not.2 h2),
      if_neg (by simp [h3]), if_pos h4, exit_cleanup_eq, hM, hW]
    simp [State.queueCreated, State.emit]
  · intro h1 h2 h3 h4 h5
    rw [mqtt_client_task_eq, if_neg (not_not.2 h1), if_neg (not_not.2 h2),
      if_neg (by simp [h3]), if_neg (by simp [h4]), mqtt_client_task_loop_blocked, hM, hW]
    · simp [State.queueCreated, State.emit]
    · rw [hM, hW]
      simpa [State.queueCreated, State.emit] using h5
  · intro v q h1 h2 h3 h4 h5
    rw [mqtt_client_task_eq, if_neg (not_not.2 h1), if_neg (not_not.2 h2),
      if_neg (by simp [h3]), if_neg (by simp [h4]),
      mqtt_client_task_loop_eq env _ (xQueueCreate MQTT_STATUS_QUEUE_LENGTH) q v ?_ h5, hM, hW]
    · simp [State.queueCreated, State.emit, deletionEvents]
    · rw [hM, hW]
      simp [State.queueCreated, State.emit]

/-- A reading of a trace that skips every event of a class finds nothing in a
list of events of that class. -/
theorem filterMap_eq_nil_of_class {α : Type} (p : Event → Bool) (f : Event → Option α)
    (hf : ∀ e, p e = true → f e = none) (l : List Event) (hl : ∀ e ∈ l, p e = true) :
    l.filterMap f = [] :=
  List.filterMap_eq_nil_iff.2 fun e he => hf e (hl e he)

/-- The events of `wifi_connect` and of `mqtt_connect` are neither teardown
calls nor deletions of a task. -/
theorem bringup_events_calls (W M : List Event) (hW : ∀ e ∈ W, e.inWifiConnect = true)
    (hM : ∀ e ∈ M, e.inMqttConnect = true) :
    teardownCalls W = [] ∧ teardownCalls M = [] ∧ deletedTasks W = [] ∧ deletedTasks M = [] := by
  refine ⟨filterMap_eq_nil_of_class Event.inWifiConnect _ ?_ W hW,
    filterMap_eq_nil_of_class Event.inMqttConnect _ ?_ M hM,
    filterMap_eq_nil_of_class Event.inWifiConnect _ ?_ W hW,
    filterMap_eq_nil_of_class Event.inMqttConnect _ ?_ M hM⟩ <;>
  · intro e he
    cases e <;> first
      | rfl
      | (simp [Event.inWifiConnect, Event.inMqttConnect] at he)

/-- C22: a run of `mqtt_client_task` ends with the deletion of the task exactly
when `wifi_connect` fails, `mqtt_connect` fails, the subscriber task or the
publisher task cannot be created, or a status is received from the queue; in
the one remaining case the task stays blocked in `xQueueReceive`, with no
teardown call and no deletion made. A run that ends is a first part, which
holds no teardown call and no deletion of the supervisor, followed by the
events of one run of `cleanup` on the final `init_flag`, followed by
`vTaskDelete( NULL )` as its last event; the teardown calls of the whole run
are those of that one `cleanup`, each made once. -/
theorem C22_cleanup_once_before_delete (env : Env) (s : State) :
    ((mqtt_client_task env s).1 = Ending.task_deleted ↔
      ((wifi_connect env s.queueCreated).1 ≠ EXIT_SUCCESS ∨
        (mqtt_connect env (wifi_connect env s.queueCreated).2).1 ≠ EXIT_SUCCESS ∨
        env.xTaskCreate_subscriber = false ∨ env.xTaskCreate_publisher = false ∨
        ∃ v q, xQueueReceive (env.status_sends.foldl xQueueOverwrite
          (xQueueCreate MQTT_STATUS_QUEUE_LENGTH)) = some (v, q))) ∧
      ((mqtt_client_task env s).1 = Ending.task_deleted →
        (∃ before : List Event,
          (mqtt_client_task env s).2.since s =
            before ++ (cleanupEvents env (mqtt_client_task env s).2.init_flag ++
              [Event.vTaskDelete .mqtt_client_task]) ∧
          teardownCalls before = [] ∧ Task.mqtt_client_task ∉ deletedTasks before) ∧
        teardownCalls ((mqtt_client_task env s).2.since s) =
          teardownOrder.filter
            (fun op => (mqtt_client_task env s).2.init_flag &&& op.mask ≠ 0) ∧
        (teardownCalls ((mqtt_client_task env s).2.since s)).Nodup ∧
        ((mqtt_client_task env s).2.since s).getLast? =
          some (Event.vTaskDelete .mqtt_client_task) ∧
        (deletedTasks ((mqtt_client_task env s).2.since s)).count .mqtt_client_task = 1) ∧
      ((mqtt_client_task env s).1 = Ending.blocked_in_xQueueReceive →
        teardownCalls ((mqtt_client_task env s).2.since s) = [] ∧
        deletedTasks ((mqtt_client_task env s).2.since s) = []) := by
  obtain ⟨W, M, fw, fm, hWc, hMc, -, -, -, hA, hB, hC, hD, hE, hF⟩ := mqtt_client_task_run env s
  obtain ⟨tW, tM, dW, dM⟩ := bringup_events_calls W M hWc hMc
  have hnodup : ∀ flag : Nat,
      (teardownOrder.filter (fun op => flag &&& op.mask ≠ 0)).Nodup :=
    fun flag => List.Nodup.filter _ (by decide)
  have key : ∀ (before : List Event) (flag : Nat) (st : State),
      mqtt_client_task env s = (Ending.task_deleted, st) →
      st.init_flag = flag →
      st.trace = s.trace ++ (before ++ (cleanupEvents env flag ++
        [Event.vTaskDelete .mqtt_client_task])) →
      teardownCalls before = [] → Task.mqtt_client_task ∉ deletedTasks before →
      (∃ before : List Event,
          (mqtt_client_task env s).2.since s =
            before ++ (cleanupEvents env (mqtt_client_task env s).2.init_flag ++
              [Event.vTaskDelete .mqtt_client_task]) ∧
          teardownCalls before = [] ∧ Task.mqtt_client_task ∉ deletedTasks before) ∧
        teardownCalls ((mqtt_client_task env s).2.since s) =
          teardownOrder.filter
            (fun op => (mqtt_client_task env s).2.init_flag &&& op.mask ≠ 0) ∧
        (teardownCalls ((mqtt_client_task env s).2.since s)).Nodup ∧
        ((mqtt_client_task env s).2.since s).getLast? =
          some (Event.vTaskDelete .mqtt_client_task) ∧
        (deletedTasks ((mqtt_client_task env s).2.since s)).count .mqtt_client_task = 1 := by
    intro before flag st hrun hflag htrace htb hdb
    have hsince : (mqtt_client_task env s).2.since s =
        before ++ (cleanupEvents env flag ++ [Event.vTaskDelete .mqtt_client_task]) := by
      rw [hrun]
      exact since_of_trace_eq htrace
    have hf : (mqtt_client_task env s).2.init_flag = flag := by rw [hrun]; exact hflag
    have htc : teardownCalls ((mqtt_client_task env s).2.since s) =
        teardownOrder.filter (fun op => flag &&& op.mask ≠ 0) := by
      rw [hsince, teardownCalls_append, teardownCalls_append, htb,
        teardownCalls_cleanupEvents]
      simp [teardownCalls, Event.teardown?]
    rw [hf]
    refine ⟨⟨before, hsince, htb, hdb⟩, htc, by rw [htc]; exact hnodup flag, ?_, ?_⟩
    · rw [hsince, ← List.append_assoc, List.getLast?_append]
      rfl
    · rw [hsince]
      have hc := (cleanupEvents_no_unsubscribe_no_delete env flag).2
      have h0 := List.count_eq_zero.2 hdb
      simp only [deletedTasks, List.filterMap_append] at hc h0 ⊢
      rw [List.count_append, List.count_append, h0, hc]
      rfl
  have tU := fun v => (unsubscribeEvents_calls env v).2.1
  have dU := fun v => (unsubscribeEvents_calls env v).1
  by_cases h1 : (wifi_connect env s.queueCreated).1 = EXIT_SUCCESS
  · by_cases h2 : (mqtt_connect env (wifi_connect env s.queueCreated).2).1 = EXIT_SUCCESS
    · cases h3 : env.xTaskCreate_subscriber
      · have hrun := hC h1 h2 h3
        refine ⟨by simp [hrun], fun _ => key _ fm _ hrun rfl rfl ?_ ?_, by simp [hrun]⟩
        · simp only [teardownCalls] at tW tM ⊢
          simp [List.filterMap_append, tW, tM, Event.teardown?]
        · simp only [deletedTasks] at dW dM ⊢
          simp [List.filterMap_append, dW, dM]
      · cases h4 : env.xTaskCreate_publisher
        · have hrun := hD h1 h2 h3 h4
          refine ⟨by simp [hrun], fun _ => key _ fm _ hrun rfl rfl ?_ ?_, by simp [hrun]⟩
          · simp only [teardownCalls] at tW tM ⊢
            simp [List.filterMap_append, tW, tM, Event.teardown?]
          · simp only [deletedTasks] at dW dM ⊢
            simp [List.filterMap_append, dW, dM]
        · cases h5 : xQueueReceive (env.status_sends.foldl xQueueOverwrite
            (xQueueCreate MQTT_STATUS_QUEUE_LENGTH)) with
          | none =>
            have hrun := hE h1 h2 h3 h4 h5
            refine ⟨by simp [hrun, h1, h2], by simp [hrun], fun _ => ?_⟩
            rw [hrun]
            simp only [State.since, List.drop_left]
            constructor
            · simp only [teardownCalls] at tW tM ⊢
              simp [List.filterMap_append, tW, tM, Event.teardown?]
            · simp only [deletedTasks] at dW dM ⊢
              simp [List.filterMap_append, dW, dM]
          | some vq =>
            obtain ⟨v, q⟩ := vq
            have hrun := hF v q h1 h2 h3 h4 h5
            have tUv := tU v
            have dUv := dU v
            refine ⟨by simp [hrun], fun _ => key _ fm _ hrun rfl rfl ?_ ?_, by simp [hrun]⟩
            · simp only [teardownCalls] at tW tM tUv ⊢
              simp [List.filterMap_append, tW, tM, tUv, Event.teardown?]
            · simp only [deletedTasks] at dW dM dUv ⊢
              simp [List.filterMap_append, dW, dM, dUv]
    · have hrun := hB h1 h2
      refine ⟨by simp [hrun, h2], fun _ => key _ fm _ hrun rfl rfl ?_ ?_, by simp [hrun]⟩
      · simp only [teardownCalls] at tW tM ⊢
        simp [List.filterMap_append, tW, tM, Event.teardown?]
      · simp only [deletedTasks] at dW dM ⊢
        simp [List.filterMap_append, dW, dM]
  · have hrun := hA h1
    refine ⟨by simp [hrun, h1], fun _ => key _ fw _ hrun rfl rfl ?_ ?_, by simp [hrun]⟩
    · simp only [teardownCalls] at tW ⊢
      simp [List.filterMap_append, tW, Event.teardown?]
    · simp only [deletedTasks] at dW ⊢
      simp [List.filterMap_append, dW]

/-- C22, when the initialization of the MQTT library fails: the run ends, and
its last event is the deletion of the supervisor. -/
theorem C22_cleanup_once_before_delete_witness :
    (mqtt_client_task Env.mqttInitFails State.initial).1 = Ending.task_deleted ∧
      ((mqtt_client_task Env.mqttInitFails State.initial).2.since State.initial).getLast? =
        some (Event.vTaskDelete .mqtt_client_task) :=
  ⟨by decide,
    ((C22_cleanup_once_before_delete Env.mqttInitFails State.initial).2.1
      (by decide)).2.2.2.1⟩

/-- The events of `wifi_connect`, of `cleanup` and of the unsubscribe hold no
call of a step of `mqtt_connect`, no creation of a task and no receive; the
events of `mqtt_connect` hold no creation of a task and no receive, and they do
hold a call of one of its steps. -/
theorem stage_events_calls (env : Env) (W M : List Event)
    (hW : ∀ e ∈ W, e.inWifiConnect = true) (hM : ∀ e ∈ M, e.inMqttConnect = true)
    (hMh : ∃ r, M.head? = some (Event.IotSdk_Init r)) :
    (sessionCalls W = [] ∧ taskCreations W = [] ∧ receives W = []) ∧
      (sessionCalls M ≠ [] ∧ taskCreations M = [] ∧ receives M = []) ∧
      (∀ flag, sessionCalls (cleanupEvents env flag) = [] ∧
        taskCreations (cleanupEvents env flag) = [] ∧ receives (cleanupEvents env flag) = []) ∧
      (∀ v, taskCreations (unsubscribeEvents env v) = [] ∧
        receives (unsubscribeEvents env v) = []) := by
  have hU : ∀ v, taskCreations (unsubscribeEvents env v) = [] ∧
      receives (unsubscribeEvents env v) = [] := by
    intro v
    cases v <;> by_cases hu : env.IotMqtt_UnsubscribeSync = IOT_MQTT_SUCCESS <;>
      simp [unsubscribeEvents, taskCreations, receives, hu]
  have hS : sessionCalls M ≠ [] := by
    obtain ⟨r, hr⟩ := hMh
    cases M with
    | nil => simp at hr
    | cons e M =>
      simp only [List.head?_cons, Option.some.injEq] at hr
      subst hr
      simp [sessionCalls]
  refine ⟨⟨filterMap_eq_nil_of_class Event.inWifiConnect _ ?_ W hW,
      filterMap_eq_nil_of_class Event.inWifiConnect _ ?_ W hW,
      filterMap_eq_nil_of_class Event.inWifiConnect _ ?_ W hW⟩,
    ⟨hS, filterMap_eq_nil_of_class Event.inMqttConnect _ ?_ M hM,
      filterMap_eq_nil_of_class Event.inMqttConnect _ ?_ M hM⟩,
    fun flag => ⟨filterMap_eq_nil_of_class Event.inCleanup _ ?_ _ (cleanupEvents_events env flag),
      filterMap_eq_nil_of_class Event.inCleanup _ ?_ _ (cleanupEvents_events env flag),
      filterMap_eq_nil_of_class Event.inCleanup _ ?_ _ (cleanupEvents_events env flag)⟩,
    hU⟩
  all_goals
    intro e he
    cases e <;> first
      | rfl
      | (simp [Event.inWifiConnect, Event.inMqttConnect, Event.inCleanup] at he)

/-- C23: the stages of `mqtt_client_task` are gated. A step of `mqtt_connect`
is called exactly when `wifi_connect` returned `EXIT_SUCCESS`; the subscriber
task is created exactly when both returned `EXIT_SUCCESS`; the publisher task
is created exactly when, in addition, the subscriber task was created, and
then its creation follows the creation of the subscriber task and a delay of
`TASK_CREATION_DELAY_MS`, which is 2000 ms, with nothing in between; the
supervisor waits on the status queue, blocked or receiving, exactly when both
tasks were created. -/
theorem C23_gated_bring_up (env : Env) (s : State) (t : List Event)
    (ht : t = (mqtt_client_task env s).2.since s) :
    (sessionCalls t ≠ [] ↔ (wifi_connect env s.queueCreated).1 = EXIT_SUCCESS) ∧
      taskCreations t =
        (if (wifi_connect env s.queueCreated).1 = EXIT_SUCCESS ∧
            (mqtt_connect env (wifi_connect env s.queueCreated).2).1 = EXIT_SUCCESS then
          (Task.subscriber_task, env.xTaskCreate_subscriber) ::
            (if env.xTaskCreate_subscriber = true then
              [(Task.publisher_task, env.xTaskCreate_publisher)] else [])
        else []) ∧
      ((∃ pass, (Task.subscriber_task, pass) ∈ taskCreations t) ↔
        ((wifi_connect env s.queueCreated).1 = EXIT_SUCCESS ∧
          (mqtt_connect env (wifi_connect env s.queueCreated).2).1 = EXIT_SUCCESS)) ∧
      ((∃ pass, (Task.publisher_task, pass) ∈ taskCreations t) ↔
        ((wifi_connect env s.queueCreated).1 = EXIT_SUCCESS ∧
          (mqtt_connect env (wifi_connect env s.queueCreated).2).1 = EXIT_SUCCESS ∧
          env.xTaskCreate_subscriber = true)) ∧
      (∀ pass, (Task.publisher_task, pass) ∈ taskCreations t →
        [Event.xTaskCreate .subscriber_task true, Event.vTaskDelay TASK_CREATION_DELAY_MS,
          Event.xTaskCreate .publisher_task pass] <:+: t) ∧
      TASK_CREATION_DELAY_MS = 2000 ∧
      (((mqtt_client_task env s).1 = Ending.blocked_in_xQueueReceive ∨ receives t ≠ []) ↔
        ((wifi_connect env s.queueCreated).1 = EXIT_SUCCESS ∧
          (mqtt_connect env (wifi_connect env s.queueCreated).2).1 = EXIT_SUCCESS ∧
          env.xTaskCreate_subscriber = true ∧ env.xTaskCreate_publisher = true)) ∧
      (((mqtt_client_task env s).1 = Ending.blocked_in_xQueueReceive ∨ receives t ≠ []) →
        taskCreations t = [(Task.subscriber_task, true), (Task.publisher_task, true)]) := by
  obtain ⟨W, M, fw, fm, hWc, hMc, hMh, -, -, hA, hB, hC, hD, hE, hF⟩ :=
    mqtt_client_task_run env s
  obtain ⟨⟨sW, cW, rW⟩, ⟨sM, cM, rM⟩, hC3, hU⟩ := stage_events_calls env W M hWc hMc hMh
  have sC := fun flag => (hC3 flag).1
  have cC := fun flag => (hC3 flag).2.1
  have rC := fun flag => (hC3 flag).2.2
  have cU := fun v => (hU v).1
  have rU := fun v => (hU v).2
  simp only [sessionCalls, taskCreations, receives] at sW cW rW sM cM rM sC cC rC cU rU ⊢
  have hinf : ∀ (pre post : List Event) (pass : Bool),
      [Event.xTaskCreate .subscriber_task true, Event.vTaskDelay TASK_CREATION_DELAY_MS,
        Event.xTaskCreate .publisher_task pass] <:+:
      pre ++ (Event.xTaskCreate .subscriber_task true ::
        Event.vTaskDelay TASK_CREATION_DELAY_MS ::
        Event.xTaskCreate .publisher_task pass :: post) :=
    fun pre post pass => ⟨pre, post, by simp⟩
  subst ht
  by_cases h1 : (wifi_connect env s.queueCreated).1 = EXIT_SUCCESS
  · by_cases h2 : (mqtt_connect env (wifi_connect env s.queueCreated).2).1 = EXIT_SUCCESS
    · cases h3 : env.xTaskCreate_subscriber
      · rw [hC h1 h2 h3]
        simp only [State.since, List.drop_left]
        simp [List.filterMap_append, sW, cW, rW, sM, cM, rM, sC, cC, rC, h1, h2,
          TASK_CREATION_DELAY_MS]
      · cases h4 : env.xTaskCreate_publisher
        · rw [hD h1 h2 h3 h4]
          simp only [State.since, List.drop_left]
          simp [List.filterMap_append, sW, cW, rW, sM, cM, rM, sC, cC, rC, h1, h2,
            TASK_CREATION_DELAY_MS]
          simpa [TASK_CREATION_DELAY_MS] using hinf
            (Event.xQueueCreate MQTT_STATUS_QUEUE_LENGTH :: W ++ M)
            ([Event.printf "Failed to create Publisher task!\n"] ++
              (cleanupEvents env fm ++ [Event.vTaskDelete .mqtt_client_task])) false
        · cases h5 : xQueueReceive (env.status_sends.foldl xQueueOverwrite
            (xQueueCreate MQTT_STATUS_QUEUE_LENGTH)) with
          | none =>
            rw [hE h1 h2 h3 h4 h5]
            simp only [State.since, List.drop_left]
            simp [List.filterMap_append, sW, cW, rW, sM, cM, rM, sC, cC, rC, h1, h2,
              TASK_CREATION_DELAY_MS]
            simpa [TASK_CREATION_DELAY_MS] using hinf
              (Event.xQueueCreate MQTT_STATUS_QUEUE_LENGTH :: W ++ M) [] true
          | some vq =>
            obtain ⟨v, q⟩ := vq
            rw [hF v q h1 h2 h3 h4 h5]
            simp only [State.since, List.drop_left]
            simp [List.filterMap_append, sW, cW, rW, sM, cM, rM, sC, cC, rC, cU, rU, h1, h2,
              TASK_CREATION_DELAY_MS]
            simpa [TASK_CREATION_DELAY_MS] using hinf
              (Event.xQueueCreate MQTT_STATUS_QUEUE_LENGTH :: W ++ M)
              ((Event.xQueueReceive v :: unsubscribeEvents env v ++
                [Event.vTaskDelete .subscriber_task, Event.publisher_cleanup,
                  Event.vTaskDelete .publisher_task]) ++
                (cleanupEvents env fm ++ [Event.vTaskDelete .mqtt_client_task])) true
    · rw [hB h1 h2]
      simp only [State.since, List.drop_left]
      simp [List.filterMap_append, sW, cW, rW, sM, cM, rM, sC, cC, rC, h1, h2,
        TASK_CREATION_DELAY_MS]
  · rw [hA h1]
    simp only [State.since, List.drop_left]
    simp [List.filterMap_append, sW, cW, rW, sC, cC, rC, h1, TASK_CREATION_DELAY_MS]

/-- C23, when every call succeeds and nothing is sent to the status queue: the
supervisor is blocked on the queue, and both tasks were created. -/
theorem C23_gated_bring_up_witness :
    (mqtt_client_task Env.allSucceed State.initial).1 = Ending.blocked_in_xQueueReceive ∧
      taskCreations ((mqtt_client_task Env.allSucceed State.initial).2.since State.initial) =
        [(Task.subscriber_task, true), (Task.publisher_task, true)] :=
  ⟨by decide,
    (C23_gated_bring_up Env.allSucceed State.initial _ rfl).2.2.2.2.2.2.2
      (Or.inl (by decide))⟩

/-- After a bring-up in which `wifi_connect` and `mqtt_connect` both return
`EXIT_SUCCESS`, the bits of all six capabilities are set in `init_flag`. -/
theorem bring_up_complete_flags (env : Env) (s : State)
    (h1 : (wifi_connect env s).1 = EXIT_SUCCESS)
    (h2 : (mqtt_connect env (wifi_connect env s).2).1 = EXIT_SUCCESS) (op : Teardown) :
    (mqtt_connect env (wifi_connect env s).2).2.init_flag &&& op.mask ≠ 0 := by
  obtain ⟨evs, hb, -, ha⟩ := bring_up_failed_spec env s
  have hb2 : bring_up_failed env s = (false, (mqtt_connect env (wifi_connect env s).2).2) := by
    simp [bring_up_failed, h1, h2]
  rw [hb2] at hb
  have hall : bringupOrder.all (·.succeeds env) = true := by
    have := congrArg Prod.fst hb
    simpa using this.symm
  have htw : bringupOrder.takeWhile (·.succeeds env) = bringupOrder := by
    rw [List.takeWhile_eq_self_iff]
    exact List.all_eq_true.1 hall
  rw [htw] at ha
  have hflag := congrArg (fun p => p.2.init_flag) hb
  simp only at hflag
  rw [hflag, ha]
  have hm : op.mask = 2 ^ (match op with
      | .IotMqtt_Disconnect => 5 | .IotMqtt_Cleanup => 4
      | .IotNetworkSecureSockets_Cleanup => 3 | .IotSdk_Cleanup => 2
      | .cy_wcm_disconnect_ap => 1 | .cy_wcm_deinit => 0) := by
    cases op <;> rfl
  rw [hm, and_two_pow_ne_zero, testBit_grant]
  cases op <;> simp [bringupOrder, BringupStep.capability, Capability.bit]

/-- The events of `wifi_connect` and of `mqtt_connect` hold no unsubscribe. -/
theorem bringup_events_no_unsubscribe (W M : List Event)
    (hW : ∀ e ∈ W, e.inWifiConnect = true) (hM : ∀ e ∈ M, e.inMqttConnect = true) :
    unsubscribeCalls W = [] ∧ unsubscribeCalls M = [] := by
  refine ⟨filterMap_eq_nil_of_class Event.inWifiConnect _ ?_ W hW,
    filterMap_eq_nil_of_class Event.inMqttConnect _ ?_ M hM⟩ <;>
  · intro e he
    cases e <;> first
      | rfl
      | (simp [Event.inWifiConnect, Event.inMqttConnect] at he)

/-- In every run of `mqtt_client_task`, a worker task is deleted only after a
status has been received from the queue. -/
theorem worker_deleted_only_after_receive (env : Env) (s : State)
    (h : Task.subscriber_task ∈ deletedTasks ((mqtt_client_task env s).2.since s) ∨
      Task.publisher_task ∈ deletedTasks ((mqtt_client_task env s).2.since s)) :
    receives ((mqtt_client_task env s).2.since s) ≠ [] := by
  obtain ⟨W, M, fw, fm, hWc, hMc, hMh, -, -, hA, hB, hC, hD, hE, hF⟩ :=
    mqtt_client_task_run env s
  obtain ⟨-, -, dW, dM⟩ := bringup_events_calls W M hWc hMc
  have dC := fun flag => (cleanupEvents_no_unsubscribe_no_delete env flag).2
  simp only [deletedTasks, receives] at dW dM dC h ⊢
  by_cases h1 : (wifi_connect env s.queueCreated).1 = EXIT_SUCCESS
  · by_cases h2 : (mqtt_connect env (wifi_connect env s.queueCreated).2).1 = EXIT_SUCCESS
    · cases h3 : env.xTaskCreate_subscriber
      · rw [hC h1 h2 h3] at h
        simp only [State.since, List.drop_left] at h
        simp [List.filterMap_append, dW, dM, dC] at h
      · cases h4 : env.xTaskCreate_publisher
        · rw [hD h1 h2 h3 h4] at h
          simp only [State.since, List.drop_left] at h
          simp [List.filterMap_append, dW, dM, dC] at h
        · cases h5 : xQueueReceive (env.status_sends.foldl xQueueOverwrite
            (xQueueCreate MQTT_STATUS_QUEUE_LENGTH)) with
          | none =>
            rw [hE h1 h2 h3 h4 h5] at h
            simp only [State.since, List.drop_left] at h
            simp [List.filterMap_append, dW, dM, dC] at h
          | some vq =>
            obtain ⟨v, q⟩ := vq
            rw [hF v q h1 h2 h3 h4 h5]
            simp only [State.since, List.drop_left]
            simp [List.filterMap_append]
    · rw [hB h1 h2] at h
      simp only [State.since, List.drop_left] at h
      simp [List.filterMap_append, dW, dM, dC] at h
  · rw [hA h1] at h
    simp only [State.since, List.drop_left] at h
    simp [List.filterMap_append, dW, dC] at h

/-- C30: when `wifi_connect` and `mqtt_connect` succeed and the subscriber task
is created but the publisher task is not, `mqtt_client_task` runs `cleanup` and
deletes itself: nothing is received from the status queue, no unsubscribe is
made, the only task deleted is the supervisor itself, and
`subscriber_task_handle` is still set at the end, while all six teardown calls
are made. In every run, a worker task is deleted only after a status has been
received from the queue. -/
theorem C30_subscriber_left_running (env : Env) (s : State)
    (h1 : (wifi_connect env s.queueCreated).1 = EXIT_SUCCESS)
    (h2 : (mqtt_connect env (wifi_connect env s.queueCreated).2).1 = EXIT_SUCCESS)
    (h3 : env.xTaskCreate_subscriber = true) (h4 : env.xTaskCreate_publisher = false) :
    (mqtt_client_task env s).1 = Ending.task_deleted ∧
      taskCreations ((mqtt_client_task env s).2.since s) =
        [(Task.subscriber_task, true), (Task.publisher_task, false)] ∧
      receives ((mqtt_client_task env s).2.since s) = [] ∧
      unsubscribeCalls ((mqtt_client_task env s).2.since s) = [] ∧
      deletedTasks ((mqtt_client_task env s).2.since s) = [Task.mqtt_client_task] ∧
      Task.subscriber_task ∉ deletedTasks ((mqtt_client_task env s).2.since s) ∧
      (mqtt_client_task env s).2.subscriber_task_handle = true ∧
      teardownCalls ((mqtt_client_task env s).2.since s) = teardownOrder ∧
      (∀ (env2 : Env) (s2 : State),
        (Task.subscriber_task ∈ deletedTasks ((mqtt_client_task env2 s2).2.since s2) ∨
          Task.publisher_task ∈ deletedTasks ((mqtt_client_task env2 s2).2.since s2)) →
        receives ((mqtt_client_task env2 s2).2.since s2) ≠ []) := by
  obtain ⟨W, M, fw, fm, hWc, hMc, hMh, -, -, -, -, -, hD, -, -⟩ := mqtt_client_task_run env s
  obtain ⟨tW, tM, dW, dM⟩ := bringup_events_calls W M hWc hMc
  obtain ⟨uW, uM⟩ := bringup_events_no_unsubscribe W M hWc hMc
  obtain ⟨⟨-, cW, rW⟩, ⟨-, cM, rM⟩, hC3, -⟩ := stage_events_calls env W M hWc hMc hMh
  have hrun := hD h1 h2 h3 h4
  have hflag : (mqtt_client_task env s).2.init_flag =
      (mqtt_connect env (wifi_connect env s.queueCreated).2).2.init_flag := by
    rw [mqtt_client_task_eq, if_neg (not_not.2 h1), if_neg (not_not.2 h2),
      if_neg (by simp [h3]), if_pos h4, exit_cleanup_eq]
  have hfm : fm = (mqtt_connect env (wifi_connect env s.queueCreated).2).2.init_flag := by
    rw [← hflag, hrun]
  have hall : teardownOrder.filter (fun op => fm &&& op.mask ≠ 0) = teardownOrder := by
    rw [List.filter_eq_self]
    intro op _
    rw [hfm]
    simpa using bring_up_complete_flags env s.queueCreated h1 h2 op
  have tC := teardownCalls_cleanupEvents env fm
  rw [hall] at tC
  have cC := (hC3 fm).2.1
  have rC := (hC3 fm).2.2
  have uC := (cleanupEvents_no_unsubscribe_no_delete env fm).1
  have dC := (cleanupEvents_no_unsubscribe_no_delete env fm).2
  refine ⟨by rw [hrun], ?_, ?_, ?_, ?_, ?_, by rw [hrun], ?_,
    fun env2 s2 => worker_deleted_only_after_receive env2 s2⟩
  · rw [hrun]
    simp only [State.since, List.drop_left]
    simp only [taskCreations] at cW cM cC ⊢
    simp [List.filterMap_append, cW, cM, cC]
  · rw [hrun]
    simp only [State.since, List.drop_left]
    simp only [receives] at rW rM rC ⊢
    simp [List.filterMap_append, rW, rM, rC]
  · rw [hrun]
    simp only [State.since, List.drop_left]
    simp only [unsubscribeCalls] at uW uM uC ⊢
    simp [List.filterMap_append, uW, uM, uC]
  · rw [hrun]
    simp only [State.since, List.drop_left]
    simp only [deletedTasks] at dW dM dC ⊢
    simp [List.filterMap_append, dW, dM, dC]
  · rw [hrun]
    simp only [State.since, List.drop_left]
    simp only [deletedTasks] at dW dM dC ⊢
    simp [List.filterMap_append, dW, dM, dC]
  · rw [hrun]
    simp only [State.since, List.drop_left]
    simp only [teardownCalls] at tW tM tC ⊢
    simp [List.filterMap_append, tW, tM, tC, Event.teardown?]

/-- C30, when every call succeeds but the creation of the publisher task: the
supervisor is the only task deleted. -/
theorem C30_subscriber_left_running_witness :
    (wifi_connect Env.publisherCreateFails State.initial.queueCreated).1 = EXIT_SUCCESS ∧
      (mqtt_connect Env.publisherCreateFails
        (wifi_connect Env.publisherCreateFails State.initial.queueCreated).2).1 =
          EXIT_SUCCESS ∧
      deletedTasks ((mqtt_client_task Env.publisherCreateFails State.initial).2.since
        State.initial) = [Task.mqtt_client_task] :=
  ⟨by decide, by decide,
    (C30_subscriber_left_running Env.publisherCreateFails State.initial (by decide)
      (by decide) rfl rfl).2.2.2.2.1⟩

/-- C25: `isr_button_press` asks for `DEVICE_OFF_STATE` when
`current_device_state` is `DEVICE_ON_STATE` and for `DEVICE_ON_STATE`
otherwise; on the two device states the value asked for is the other one. It
leaves `current_device_state` as it is, so a second trigger asks for the same
value again, and so does any later trigger, whatever happened in between, as
long as `current_device_state` holds the same value. -/
theorem C25_button_requests_toggle (s s2 : State) :
    requested s =
        [if s.current_device_state = DEVICE_ON_STATE then DEVICE_OFF_STATE
          else DEVICE_ON_STATE] ∧
      (s.current_device_state = DEVICE_ON_STATE → requested s = [DEVICE_OFF_STATE]) ∧
      (s.current_device_state = DEVICE_OFF_STATE → requested s = [DEVICE_ON_STATE]) ∧
      (isDeviceState s.current_device_state = true →
        ∀ v ∈ requested s, isDeviceState v = true ∧ v ≠ s.current_device_state) ∧
      (s2.current_device_state = s.current_device_state → requested s2 = requested s) ∧
      (isr_button_press s).current_device_state = s.current_device_state ∧
      requested (isr_button_press s) = requested s ∧
      (∀ (sys : System) (between : List Action), sys.state = s →
        ((sys.step .isr_button_press).run between).state.current_device_state =
          s.current_device_state →
        requested ((sys.step .isr_button_press).run between).state = requested s) := by
  have hreq : ∀ st : State, requested st =
      [if st.current_device_state = DEVICE_ON_STATE then DEVICE_OFF_STATE
        else DEVICE_ON_STATE] := by
    intro st
    simp [requested, isr_button_press, notify_publisher, State.emit, State.since,
      publisherNotifications]
  have hframe : (isr_button_press s).current_device_state = s.current_device_state := by
    simp [isr_button_press, notify_publisher, State.emit]
  refine ⟨hreq s, ?_, ?_, ?_, ?_, hframe, ?_, ?_⟩
  · intro h
    rw [hreq, if_pos h]
  · intro h
    rw [hreq, h]
    rfl
  · intro h v hv
    rw [hreq] at hv
    simp only [List.mem_singleton] at hv
    subst hv
    simp only [isDeviceState, Bool.or_eq_true, decide_eq_true_eq] at h ⊢
    rcases h with h | h <;> rw [h] <;> decide
  · intro h
    rw [hreq, hreq, h]
  · rw [hreq, hreq, hframe]
  · intro sys between _ h
    rw [hreq, hreq, h]

/-- C25, at the start, when the device is off: the button asks for
`DEVICE_ON_STATE`. -/
theorem C25_button_requests_toggle_witness :
    State.initial.current_device_state = DEVICE_OFF_STATE ∧
      requested State.initial = [DEVICE_ON_STATE] :=
  ⟨rfl, (C25_button_requests_toggle State.initial State.initial).2.2.1 rfl⟩

/-- The loop of `mqtt_client_task` changes neither `init_flag` nor
`current_device_state`. -/
theorem mqtt_client_task_loop_frame (env : Env) (s : State) :
    (mqtt_client_task_loop env s).2.init_flag = s.init_flag ∧
      (mqtt_client_task_loop env s).2.current_device_state = s.current_device_state := by
  cases hq : s.mqtt_status_q with
  | none =>
    rw [mqtt_client_task_loop_blocked env s (by simp [hq])]
    exact ⟨rfl, rfl⟩
  | some q =>
    cases hr : xQueueReceive (env.status_sends.foldl xQueueOverwrite q) with
    | none =>
      rw [mqtt_client_task_loop_blocked env s (by simp [hq, hr])]
      exact ⟨rfl, rfl⟩
    | some vq =>
      obtain ⟨v, q2⟩ := vq
      rw [mqtt_client_task_loop_eq env s q q2 v hq hr]
      exact ⟨rfl, rfl⟩

/-- A run of `mqtt_client_task` changes `current_device_state` not at all and
clears no bit of `init_flag`. -/
theorem mqtt_client_task_frame (env : Env) (s : State) :
    (mqtt_client_task env s).2.current_device_state = s.current_device_state ∧
      ∀ i, s.init_flag.testBit i = true →
        (mqtt_client_task env s).2.init_flag.testBit i = true := by
  obtain ⟨W, M, fw, fm, -, -, -, hfw, hfm, hA, hB, hC, hD, hE, hF⟩ :=
    mqtt_client_task_run env s
  by_cases h1 : (wifi_connect env s.queueCreated).1 = EXIT_SUCCESS
  · by_cases h2 : (mqtt_connect env (wifi_connect env s.queueCreated).2).1 = EXIT_SUCCESS
    · cases h3 : env.xTaskCreate_subscriber
      · rw [hC h1 h2 h3]
        exact ⟨rfl, fun i hi => hfm i (hfw i hi)⟩
      · cases h4 : env.xTaskCreate_publisher
        · rw [hD h1 h2 h3 h4]
          exact ⟨rfl, fun i hi => hfm i (hfw i hi)⟩
        · cases h5 : xQueueReceive (env.status_sends.foldl xQueueOverwrite
            (xQueueCreate MQTT_STATUS_QUEUE_LENGTH)) with
          | none =>
            rw [hE h1 h2 h3 h4 h5]
            exact ⟨rfl, fun i hi => hfm i (hfw i hi)⟩
          | some vq =>
            obtain ⟨v, q⟩ := vq
            rw [hF v q h1 h2 h3 h4 h5]
            exact ⟨rfl, fun i hi => hfm i (hfw i hi)⟩
    · rw [hB h1 h2]
      exact ⟨rfl, fun i hi => hfm i (hfw i hi)⟩
  · rw [hA h1]
    exact ⟨rfl, fun i hi => hfw i hi⟩

/-- What an action changes of the two variables: `init_flag` never, and
`current_device_state` only when the action is an iteration of the loop of the
subscriber, in its loop, with a notification pending, whose value it takes. -/
theorem System.step_frame (sys : System) (a : Action) :
    (sys.step a).state.init_flag = sys.state.init_flag ∧
      ((sys.step a).state.current_device_state = sys.state.current_device_state ∨
        (a = Action.subscriber_task_loop ∧ sys.subscriber = .in_loop ∧
          sys.state.subscriber_notification =
            some (sys.step a).state.current_device_state)) := by
  cases a with
  | isr_button_press =>
    simp [System.step, MqttClient.isr_button_press, notify_publisher, State.emit]
  | mqtt_subscription_callback p n =>
    simp only [System.step, MqttClient.mqtt_subscription_callback, notify_subscriber,
      State.emit]
    split_ifs <;> simp
  | mqtt_disconnect_callback r =>
    simp only [System.step, MqttClient.mqtt_disconnect_callback, State.emit]
    split_ifs <;> simp
  | subscriber_task r =>
    simp only [System.step, MqttClient.subscriber_task, State.emit]
    cases sys.subscriber <;> first | (simp; done) | (split_ifs <;> simp)
  | subscriber_task_loop =>
    simp only [System.step, MqttClient.subscriber_task_loop, State.emit]
    cases hph : sys.subscriber <;> simp only []
    · simp
    · cases hn : sys.state.subscriber_notification <;> simp
    · simp
  | publisher_task =>
    simp only [System.step, MqttClient.publisher_task, State.emit]
    cases sys.publisher <;> simp
  | publisher_task_loop r =>
    simp only [System.step]
    cases sys.publisher <;> simp only []
    · simp
    · cases hn : sys.state.publisher_notification with
      | none => simp [MqttClient.publisher_task_loop, hn]
      | some v =>
        rw [publisher_task_loop_eq _ _ _ hn]
        by_cases hr : r = IOT_MQTT_SUCCESS <;> simp [hr]
    · simp

/-- C26: `current_device_state` is changed by the loop of the subscriber task
only. The button interrupt, the start and the loop of the publisher task, the
two callbacks, the start of the subscriber task, `wifi_connect`,
`mqtt_connect`, `mqtt_unsubscribe`, `cleanup`, the loop of the supervisor and a
whole run of the supervisor leave it as it is; an iteration of the loop of the
subscriber sets it to the value received; and an action of the running system
that changes it is such an iteration. -/
theorem C26_single_writer (env : Env) (s : State) :
    (isr_button_press s).current_device_state = s.current_device_state ∧
      (publisher_task s).current_device_state = s.current_device_state ∧
      (∀ result continues s2, publisher_task_loop result s = some (continues, s2) →
        s2.current_device_state = s.current_device_state) ∧
      (∀ pPayload payloadLength,
        (mqtt_subscription_callback pPayload payloadLength s).current_device_state =
          s.current_device_state) ∧
      (∀ reason, (mqtt_disconnect_callback reason s).current_device_state =
        s.current_device_state) ∧
      (∀ result, (subscriber_task result s).2.current_device_state =
        s.current_device_state) ∧
      (wifi_connect env s).2.current_device_state = s.current_device_state ∧
      (mqtt_connect env s).2.current_device_state = s.current_device_state ∧
      (mqtt_unsubscribe env s).current_device_state = s.current_device_state ∧
      (cleanup env s).current_device_state = s.current_device_state ∧
      (mqtt_client_task_loop env s).2.current_device_state = s.current_device_state ∧
      (mqtt_client_task env s).2.current_device_state = s.current_device_state ∧
      (∀ v, s.subscriber_notification = some v →
        (subscriber_task_loop s).map (·.current_device_state) = some v) ∧
      (∀ (sys : System) (a : Action),
        (sys.step a).state.current_device_state ≠ sys.state.current_device_state →
        a = Action.subscriber_task_loop ∧ sys.subscriber = .in_loop ∧
          sys.state.subscriber_notification =
            some (sys.step a).state.current_device_state) := by
  refine ⟨?_, ?_, ?_, ?_, ?_, ?_, ?_, ?_, ?_, (cleanup_frame env s).2,
    (mqtt_client_task_loop_frame env s).2, (mqtt_client_task_frame env s).1, ?_, ?_⟩
  · simp [isr_button_press, notify_publisher, State.emit]
  · simp [publisher_task, State.emit]
  · intro result continues s2 h
    cases hn : s.publisher_notification with
    | none => simp [publisher_task_loop, hn] at h
    | some v =>
      rw [publisher_task_loop_eq _ _ _ hn] at h
      simp only [Option.some.injEq, Prod.mk.injEq] at h
      rw [← h.2]
  · intro p n
    simp only [mqtt_subscription_callback, notify_subscriber, State.emit]
    split_ifs <;> rfl
  · intro reason
    simp only [mqtt_disconnect_callback, State.emit]
    split_ifs <;> rfl
  · intro result
    simp only [subscriber_task, State.emit]
    split_ifs <;> rfl
  · obtain ⟨W, hW, -⟩ := wifi_connect_events env s
    rw [hW]
  · obtain ⟨M, hM, -⟩ := mqtt_connect_events env s
    rw [hM]
  · simp only [mqtt_unsubscribe, State.emit]
    split_ifs <;> rfl
  · intro v hv
    simp [subscriber_task_loop, hv, State.emit]
  · intro sys a h
    rcases (System.step_frame sys a).2 with h2 | h2
    · exact absurd h2 h
    · exact h2

/-- C26, with the value `DEVICE_ON_STATE` pending for the subscriber at the
start: an iteration of its loop sets `current_device_state` to it. -/
theorem C26_single_writer_witness :
    (notify_subscriber DEVICE_ON_STATE State.initial).subscriber_notification =
        some DEVICE_ON_STATE ∧
      (subscriber_task_loop (notify_subscriber DEVICE_ON_STATE State.initial)).map
        (·.current_device_state) = some DEVICE_ON_STATE :=
  ⟨rfl,
    (C26_single_writer Env.allSucceed
      (notify_subscriber DEVICE_ON_STATE State.initial)).2.2.2.2.2.2.2.2.2.2.2.2.1
      DEVICE_ON_STATE rfl⟩

/-- C27: `init_flag` is 0 at the start and no operation clears a bit of it. A
bit that is set stays set through `CHECK_RESULT`, through the association loop
entered at any point, through `wifi_connect`, through `mqtt_connect` and
through a whole run of `mqtt_client_task`; `cleanup`, the label `exit_cleanup`,
`mqtt_unsubscribe` and the loop of `mqtt_client_task` leave `init_flag`
unchanged, and so does every action of the workers, the interrupt and the
callbacks. -/
theorem C27_init_flag_monotone (env : Env) (s : State) :
    State.initial.init_flag = 0 ∧
      (∀ (result init_mask : Nat) (error_message : String) (i : Nat),
        s.init_flag.testBit i = true →
        (CHECK_RESULT result init_mask error_message s).2.init_flag.testBit i = true) ∧
      (∀ (remaining retry_count i : Nat), s.init_flag.testBit i = true →
        (wifi_connect_loop env remaining retry_count s).2.init_flag.testBit i = true) ∧
      (∀ i, s.init_flag.testBit i = true →
        (wifi_connect env s).2.init_flag.testBit i = true) ∧
      (∀ i, s.init_flag.testBit i = true →
        (mqtt_connect env s).2.init_flag.testBit i = true) ∧
      (∀ i, s.init_flag.testBit i = true →
        (mqtt_client_task env s).2.init_flag.testBit i = true) ∧
      (cleanup env s).init_flag = s.init_flag ∧
      (exit_cleanup env s).2.init_flag = s.init_flag ∧
      (mqtt_unsubscribe env s).init_flag = s.init_flag ∧
      (mqtt_client_task_loop env s).2.init_flag = s.init_flag ∧
      (∀ (sys : System) (a : Action), (sys.step a).state.init_flag = sys.state.init_flag) ∧
      (∀ (sys : System) (actions : List Action),
        (sys.run actions).state.init_flag = sys.state.init_flag) := by
  refine ⟨rfl, ?_, ?_, (wifi_connect_events env s).choose_spec.2.2,
    (mqtt_connect_events env s).choose_spec.2.2.1, (mqtt_client_task_frame env s).2,
    (cleanup_frame env s).1, ?_, ?_, (mqtt_client_task_loop_frame env s).1,
    fun sys a => (System.step_frame sys a).1, ?_⟩
  · intro result init_mask error_message i hi
    simp only [CHECK_RESULT]
    split_ifs
    · simp [Nat.testBit_or, hi]
    · simpa [State.emit] using hi
  · intro remaining retry_count i hi
    obtain ⟨evs, m, h, -⟩ := wifi_connect_loop_spec env remaining retry_count s
    rw [h]
    split_ifs
    · simp [Nat.testBit_or, hi]
    · simpa using hi
  · rw [exit_cleanup_eq]
  · simp only [mqtt_unsubscribe, State.emit]
    split_ifs <;> rfl
  · intro sys actions
    induction actions generalizing sys with
    | nil => rfl
    | cons a l ih =>
      simp only [System.run, List.foldl_cons] at ih ⊢
      rw [ih, (System.step_frame sys a).1]

/-- C27, after a complete bring-up: the bit of the connection stays set through
a call of `mqtt_connect` that fails. -/
theorem C27_init_flag_monotone_witness :
    State.running.init_flag.testBit 5 = true ∧
      (mqtt_connect Env.connectFails State.running).2.init_flag.testBit 5 = true :=
  ⟨by decide, (C27_init_flag_monotone Env.connectFails State.running).2.2.2.2.1 5 (by decide)⟩

/-- C28: the payload the publisher builds for a device state is decoded by the
subscription callback to that state. When the publisher, with one of the two
device states `v` pending, runs an iteration of its loop, it publishes a
payload and a length such that `mqtt_subscription_callback`, called in any
state with a message of these bytes and this length, notifies the subscriber
with `v` and with nothing else; and the payloads of the two states differ. -/
theorem C28_round_trip (v result : Nat) (s s2 : State) (pPayload : Nat → Nat)
    (info : IotMqttPublishInfo_t) (r : Nat)
    (hv : isDeviceState v = true) (hn : s.publisher_notification = some v)
    (hpub : (info, r) ∈ publishCalls
      (((publisher_task_loop result s).map (·.2)).getD s |>.since s))
    (hbytes : payloadBytes pPayload info.payloadLength = info.pPayload) :
    publishCalls (((publisher_task_loop result s).map (·.2)).getD s |>.since s) =
        [(info, r)] ∧
      info.pPayload = payloadFor v ∧ info.payloadLength = (payloadFor v).length ∧
      subscriberNotifications
        ((mqtt_subscription_callback pPayload info.payloadLength s2).since s2) = [v] ∧
      subscriberNotifications
        ((mqtt_subscription_callback (literal info.pPayload) info.payloadLength s2).since s2) =
          [v] ∧
      payloadFor DEVICE_ON_STATE ≠ payloadFor DEVICE_OFF_STATE := by
  have hon := command_test_iff MQTT_DEVICE_ON_MESSAGE commands_without_nul.1
  have hoff := command_test_iff MQTT_DEVICE_OFF_MESSAGE commands_without_nul.2
  have hne : MQTT_DEVICE_ON_MESSAGE ≠ MQTT_DEVICE_OFF_MESSAGE := by decide
  have hlen : strlen (payloadFor v) = (payloadFor v).length := by
    simp only [payloadFor]
    split_ifs
    · exact strlen_eq_length _ commands_without_nul.1
    · exact strlen_eq_length _ commands_without_nul.2
  have hcalls : publishCalls (((publisher_task_loop result s).map (·.2)).getD s |>.since s) =
      [({ s.publishInfo with pPayload := payloadFor v, payloadLength := strlen (payloadFor v) },
        result)] := by
    rw [publisher_task_loop_eq _ _ _ hn]
    by_cases hr : result = IOT_MQTT_SUCCESS <;>
      simp [hr, State.since, publishCalls]
  rw [hcalls] at hpub ⊢
  simp only [List.mem_singleton, Prod.mk.injEq] at hpub
  obtain ⟨hinfo, hr⟩ := hpub
  have hp : info.pPayload = payloadFor v := by rw [hinfo]
  have hl : info.payloadLength = (payloadFor v).length := by rw [hinfo]; exact hlen
  have hdecode : ∀ p : Nat → Nat, payloadBytes p info.payloadLength = info.pPayload →
      subscriberNotifications
        ((mqtt_subscription_callback p info.payloadLength s2).since s2) = [v] := by
    intro p hb
    rw [hp] at hb
    unfold mqtt_subscription_callback
    simp only [hon, hoff]
    simp only [isDeviceState, Bool.or_eq_true, decide_eq_true_eq] at hv
    rcases hv with hv | hv
    · have h1 : payloadBytes p info.payloadLength = MQTT_DEVICE_ON_MESSAGE := by
        rw [hb, hv]; rfl
      simp [h1, hv, notify_subscriber, State.emit, State.since, subscriberNotifications]
    · have h2 : payloadBytes p info.payloadLength = MQTT_DEVICE_OFF_MESSAGE := by
        rw [hb, hv]; rfl
      simp [h2, hne.symm, hv, notify_subscriber, State.emit, State.since,
        subscriberNotifications]
  refine ⟨by rw [hinfo, hr], hp, hl, hdecode pPayload hbytes, hdecode _ ?_, by decide⟩
  rw [hl, hp]
  simp only [payloadFor]
  split_ifs <;> decide

/-- C28, for `DEVICE_ON_STATE` pending at the start: the payload `TURN ON` of
length 7 is published, and the callback decodes it to `DEVICE_ON_STATE`. -/
theorem C28_round_trip_witness :
    isDeviceState DEVICE_ON_STATE = true ∧
      State.supervised.publisher_notification = some DEVICE_ON_STATE ∧
      subscriberNotifications
        ((mqtt_subscription_callback (literal MQTT_DEVICE_ON_MESSAGE) 7 State.initial).since
          State.initial) = [DEVICE_ON_STATE] :=
  ⟨rfl, rfl,
    (C28_round_trip DEVICE_ON_STATE IOT_MQTT_SUCCESS State.supervised State.initial
      (literal MQTT_DEVICE_ON_MESSAGE)
      { publishInfo_initializer with pPayload := MQTT_DEVICE_ON_MESSAGE, payloadLength := 7 }
      IOT_MQTT_SUCCESS rfl rfl (by decide) (by decide)).2.2.2.1⟩

/-- Every action keeps the values of device states among the two device
states. -/
theorem System.step_valid (sys : System) (a : Action) (h : sys.valid = true) :
    (sys.step a).valid = true := by
  simp only [System.valid, Bool.and_eq_true] at h ⊢
  obtain ⟨⟨⟨⟨h1, h2⟩, h3⟩, h4⟩, h5⟩ := h
  have hon : isDeviceState DEVICE_ON_STATE = true := rfl
  have hoff : isDeviceState DEVICE_OFF_STATE = true := rfl
  cases a with
  | isr_button_press =>
    cases hp : sys.state.publisher_notification <;>
      by_cases hc : sys.state.current_device_state = DEVICE_ON_STATE <;>
      simp_all [System.step, MqttClient.isr_button_press, notify_publisher,
        xTaskNotify_eSetValueWithoutOverwrite, State.emit, notifiedValues, ledWrites,
        List.filterMap_append]
  | mqtt_subscription_callback p n =>
    simp only [System.step, MqttClient.mqtt_subscription_callback, notify_subscriber,
      xTaskNotify_eSetValueWithoutOverwrite, State.emit]
    cases hs : sys.state.subscriber_notification <;> split_ifs <;>
      simp_all [notifiedValues, ledWrites, List.filterMap_append]
  | mqtt_disconnect_callback r =>
    simp only [System.step, MqttClient.mqtt_disconnect_callback, State.emit]
    split_ifs <;> simp_all [notifiedValues, ledWrites, List.filterMap_append]
  | subscriber_task r =>
    simp only [System.step, MqttClient.subscriber_task, State.emit]
    cases sys.subscriber <;> first
      | (simp_all; done)
      | (split_ifs <;> simp_all [notifiedValues, ledWrites, List.filterMap_append])
  | subscriber_task_loop =>
    simp only [System.step, MqttClient.subscriber_task_loop, State.emit]
    cases sys.subscriber <;> simp only []
    · simp_all
    · cases hn : sys.state.subscriber_notification <;>
        simp_all [notifiedValues, ledWrites, List.filterMap_append]
    · simp_all
  | publisher_task =>
    simp only [System.step, MqttClient.publisher_task, State.emit]
    cases sys.publisher <;> simp_all [notifiedValues, ledWrites, List.filterMap_append]
  | publisher_task_loop r =>
    simp only [System.step]
    cases sys.publisher <;> simp only []
    · simp_all
    · cases hn : sys.state.publisher_notification with
      | none => simp_all [MqttClient.publisher_task_loop]
      | some v =>
        rw [publisher_task_loop_eq _ _ _ hn]
        by_cases hr : r = IOT_MQTT_SUCCESS <;>
          simp_all [notifiedValues, ledWrites, List.filterMap_append]
    · simp_all

/-- Every sequence of actions keeps the values of device states among the two
device states. -/
theorem System.run_valid (sys : System) (actions : List Action) (h : sys.valid = true) :
    (sys.run actions).valid = true := by
  induction actions generalizing sys with
  | nil => exact h
  | cons a l ih =>
    simp only [System.run, List.foldl_cons] at ih ⊢
    exact ih _ (System.step_valid sys a h)

/-- C29: in every state reached from the initial state by triggers of the
button interrupt, calls of the two callbacks with whatever payload and reason,
and steps of the two workers with whatever results, each of the following is
`DEVICE_ON_STATE` or `DEVICE_OFF_STATE`: `current_device_state`, the
notification pending for the subscriber, the notification pending for the
publisher, every value sent in a notification so far, and every value written
to the LED so far. So the value `v` the publisher receives next is one of the
two, the payload it publishes for `v` is `MQTT_DEVICE_OFF_MESSAGE` exactly when
`v` is `DEVICE_OFF_STATE`, and the two states are 0 and 1. -/
theorem C29_device_states_only (actions : List Action) :
    isDeviceState (System.initial.run actions).state.current_device_state = true ∧
      (∀ v, (System.initial.run actions).state.subscriber_notification = some v →
        isDeviceState v = true) ∧
      (∀ v, (System.initial.run actions).state.publisher_notification = some v →
        isDeviceState v = true) ∧
      (∀ v ∈ notifiedValues (System.initial.run actions).state.trace,
        isDeviceState v = true) ∧
      (∀ v ∈ ledWrites (System.initial.run actions).state.trace, isDeviceState v = true) ∧
      (∀ v result, (System.initial.run actions).state.publisher_notification = some v →
        (System.initial.run actions).publisher = .in_loop →
        (publishCalls (((System.initial.run actions).step (.publisher_task_loop result)).state.since
            (System.initial.run actions).state)).map (fun c => c.1.pPayload) = [payloadFor v] ∧
          (payloadFor v = MQTT_DEVICE_OFF_MESSAGE ↔ v = DEVICE_OFF_STATE) ∧
          (payloadFor v = MQTT_DEVICE_ON_MESSAGE ↔ v = DEVICE_ON_STATE)) ∧
      (∀ v, isDeviceState v = true ↔ (v = 0 ∨ v = 1)) ∧
      DEVICE_ON_STATE = 0 ∧ DEVICE_OFF_STATE = 1 := by
  have hv := System.run_valid System.initial actions (by decide)
  simp only [System.valid, Bool.and_eq_true, List.all_eq_true] at hv
  obtain ⟨⟨⟨⟨h1, h2⟩, h3⟩, h4⟩, h5⟩ := hv
  have hne : MQTT_DEVICE_ON_MESSAGE ≠ MQTT_DEVICE_OFF_MESSAGE := by decide
  refine ⟨h1, ?_, ?_, h4, h5, ?_, ?_, rfl, rfl⟩
  · intro v hs
    rw [hs] at h2
    simpa using h2
  · intro v hp
    rw [hp] at h3
    simpa using h3
  · intro v result hp hloop
    have hd : isDeviceState v = true := by
      rw [hp] at h3
      simpa using h3
    refine ⟨?_, ?_, ?_⟩
    · simp only [System.step, hloop]
      rw [publisher_task_loop_eq _ _ _ hp]
      by_cases hr : result = IOT_MQTT_SUCCESS <;> simp [hr, State.since, publishCalls]
    · simp only [isDeviceState, Bool.or_eq_true, decide_eq_true_eq] at hd
      rcases hd with hd | hd
      · rw [hd]
        simp [payloadFor, hne, DEVICE_ON_STATE, DEVICE_OFF_STATE]
      · rw [hd]
        simp [payloadFor, DEVICE_ON_STATE, DEVICE_OFF_STATE]
    · simp only [isDeviceState, Bool.or_eq_true, decide_eq_true_eq] at hd
      rcases hd with hd | hd
      · rw [hd]
        simp [payloadFor]
      · rw [hd]
        simp [payloadFor, hne.symm, DEVICE_ON_STATE, DEVICE_OFF_STATE]
  · intro v
    simp [isDeviceState, DEVICE_ON_STATE, DEVICE_OFF_STATE]

/-- C29, in the run `System.twoPresses`: before its last action the value
pending for the publisher is `DEVICE_ON_STATE`. -/
theorem C29_device_states_only_witness :
    (System.initial.run
        [.publisher_task, .subscriber_task EXIT_SUCCESS, .isr_button_press,
          .mqtt_subscription_callback (literal MQTT_DEVICE_ON_MESSAGE) 7, .subscriber_task_loop,
          .isr_button_press]).state.publisher_notification = some DEVICE_ON_STATE ∧
      isDeviceState DEVICE_ON_STATE = true :=
  ⟨rfl,
    (C29_device_states_only
      [.publisher_task, .subscriber_task EXIT_SUCCESS, .isr_button_press,
        .mqtt_subscription_callback (literal MQTT_DEVICE_ON_MESSAGE) 7, .subscriber_task_loop,
        .isr_button_press]).2.2.1 DEVICE_ON_STATE rfl⟩

/-- The last element of an appended list, with a default. -/
theorem getLast?_getD_append (l1 l2 : List Nat) (d : Nat) :
    (l1 ++ l2).getLast?.getD d = l2.getLast?.getD (l1.getLast?.getD d) := by
  induction l2 using List.reverseRecOn with
  | nil => simp
  | append_singleton l x _ => simp [← List.append_assoc]

/-- What an action does to the LED: `current_device_state` is afterwards the
last value written to the LED, if any was; the LED pin is initialised with
`CYBSP_LED_STATE_OFF` only; and while the subscriber is created and has not
run, either it stays so and nothing is written to the LED, or the events of
the action begin with the initialization of the LED pin. -/
theorem System.step_led (sys : System) (a : Action) :
    (sys.step a).state.current_device_state =
        (ledWrites ((sys.step a).state.since sys.state)).getLast?.getD
          sys.state.current_device_state ∧
      (∀ x ∈ ledInits ((sys.step a).state.since sys.state), x = LedState.CYBSP_LED_STATE_OFF) ∧
      (sys.subscriber = .created →
        ((sys.step a).subscriber = .created ∧
          ledWrites ((sys.step a).state.since sys.state) = []) ∨
        ∃ post, (sys.step a).state.since sys.state =
          Event.cyhal_gpio_init_led .CYBSP_LED_STATE_OFF :: post) := by
  cases a with
  | isr_button_press =>
    simp [System.step, MqttClient.isr_button_press, notify_publisher, State.emit, State.since,
      ledWrites, ledInits]
  | mqtt_subscription_callback p n =>
    simp only [System.step, MqttClient.mqtt_subscription_callback, notify_subscriber,
      State.emit, State.since]
    split_ifs <;> simp [ledWrites, ledInits]
  | mqtt_disconnect_callback r =>
    simp only [System.step, MqttClient.mqtt_disconnect_callback, State.emit, State.since]
    split_ifs <;> simp [ledWrites, ledInits]
  | subscriber_task r =>
    simp only [System.step, MqttClient.subscriber_task, State.emit, State.since]
    cases hph : sys.subscriber <;> first
      | (simp [ledWrites, ledInits]; done)
      | (split_ifs <;> simp [ledWrites, ledInits])
  | subscriber_task_loop =>
    simp only [System.step, MqttClient.subscriber_task_loop, State.emit, State.since]
    cases hph : sys.subscriber <;> simp only []
    · simp [ledWrites, ledInits, hph]
    · cases hn : sys.state.subscriber_notification <;> simp [ledWrites, ledInits, hph]
    · simp [ledWrites, ledInits, hph]
  | publisher_task =>
    simp only [System.step, MqttClient.publisher_task, State.emit, State.since]
    cases sys.publisher <;> simp [ledWrites, ledInits]
  | publisher_task_loop r =>
    simp only [System.step]
    cases sys.publisher <;> simp only []
    · simp [State.since, ledWrites, ledInits]
    · cases hn : sys.state.publisher_notification with
      | none => simp [MqttClient.publisher_task_loop, hn, State.since, ledWrites, ledInits]
      | some v =>
        rw [publisher_task_loop_eq _ _ _ hn]
        by_cases hr : r = IOT_MQTT_SUCCESS <;> simp [hr, State.since, ledWrites, ledInits]
    · simp [State.since, ledWrites, ledInits]

/-- What a sequence of actions does to the LED; see `System.step_led`. -/
theorem System.run_led (sys : System) (actions : List Action) :
    (sys.run actions).state.current_device_state =
        (ledWrites ((sys.run actions).state.since sys.state)).getLast?.getD
          sys.state.current_device_state ∧
      (∀ x ∈ ledInits ((sys.run actions).state.since sys.state),
        x = LedState.CYBSP_LED_STATE_OFF) ∧
      (sys.subscriber = .created →
        ledWrites ((sys.run actions).state.since sys.state) = [] ∨
        ∃ pre post, (sys.run actions).state.since sys.state =
          pre ++ Event.cyhal_gpio_init_led .CYBSP_LED_STATE_OFF :: post ∧
          ledWrites pre = []) := by
  induction actions generalizing sys with
  | nil => simp [System.run, State.since, ledWrites, ledInits]
  | cons a l ih =>
    obtain ⟨i1, i2, i3⟩ := ih (sys.step a)
    obtain ⟨s1, s2, s3⟩ := System.step_led sys a
    rw [System.run_cons_since]
    have hrun : sys.run (a :: l) = (sys.step a).run l := rfl
    rw [hrun]
    refine ⟨?_, ?_, ?_⟩
    · rw [i1, s1]
      simp only [ledWrites, List.filterMap_append]
      rw [getLast?_getD_append]
    · intro x hx
      simp only [ledInits, List.filterMap_append, List.mem_append] at hx
      rcases hx with hx | hx
      · exact s2 x hx
      · exact i2 x hx
    · intro hc
      rcases s3 hc with ⟨hc2, hw⟩ | ⟨post, hpost⟩
      · rcases i3 hc2 with hw2 | ⟨pre, post, hsplit, hpre⟩
        · left
          simp only [ledWrites, List.filterMap_append] at hw hw2 ⊢
          rw [hw, hw2]
          rfl
        · right
          refine ⟨(sys.step a).state.since sys.state ++ pre, post, ?_, ?_⟩
          · rw [hsplit, List.append_assoc]
          · simp only [ledWrites, List.filterMap_append] at hw hpre ⊢
            rw [hw, hpre]
            rfl
      · right
        exact ⟨[], post ++ ((sys.step a).run l).state.since (sys.step a).state,
          by rw [hpost]; rfl, rfl⟩

/-- C24: an iteration of the loop of the subscriber that receives the value `v`
writes `v` to the LED, sets `current_device_state` to `v` and leaves nothing
pending. In every run of the system `current_device_state` is the value last
written to the LED, or its value at the start of the run when nothing was
written; the LED pin is initialised with `CYBSP_LED_STATE_OFF` only, and, when
the subscriber had not yet run at the start, that initialization comes before
the first write to the LED. At the start `current_device_state` is
`DEVICE_OFF_STATE`, and it stays so until a value is written to the LED. -/
theorem C24_subscriber_applies_command (sys : System) (actions : List Action) (s : State) :
    (∀ v, s.subscriber_notification = some v →
        (subscriber_task_loop s).map
            (fun s2 => (s2.since s, s2.current_device_state, s2.subscriber_notification)) =
          some ([Event.cyhal_gpio_write_led v], v, none)) ∧
      (sys.run actions).state.current_device_state =
        (ledWrites ((sys.run actions).state.since sys.state)).getLast?.getD
          sys.state.current_device_state ∧
      (∀ x ∈ ledInits ((sys.run actions).state.since sys.state),
        x = LedState.CYBSP_LED_STATE_OFF) ∧
      (sys.subscriber = .created →
        ledWrites ((sys.run actions).state.since sys.state) ≠ [] →
        ∃ pre post, (sys.run actions).state.since sys.state =
          pre ++ Event.cyhal_gpio_init_led .CYBSP_LED_STATE_OFF :: post ∧
          ledWrites pre = []) ∧
      State.initial.current_device_state = DEVICE_OFF_STATE ∧
      System.initial.subscriber = .created ∧
      (ledWrites (System.initial.run actions).state.trace = [] →
        (System.initial.run actions).state.current_device_state = DEVICE_OFF_STATE) := by
  obtain ⟨r1, r2, r3⟩ := System.run_led sys actions
  refine ⟨?_, r1, r2, ?_, rfl, rfl, ?_⟩
  · intro v hv
    simp [subscriber_task_loop, hv, State.emit, State.since]
  · intro hc hw
    rcases r3 hc with h | h
    · exact absurd h hw
    · exact h
  · intro hw
    have h := (System.run_led System.initial actions).1
    have ht : (System.initial.run actions).state.since System.initial.state =
        (System.initial.run actions).state.trace := by
      simp [State.since, System.initial, State.initial]
    rw [ht, hw] at h
    exact h

/-- C24, in a run from the start in which the subscriber starts, a message
`TURN ON` arrives and the subscriber applies it: `current_device_state` ends as
`DEVICE_ON_STATE`, the value written to the LED. -/
theorem C24_subscriber_applies_command_witness :
    (notify_subscriber DEVICE_ON_STATE State.initial).subscriber_notification =
        some DEVICE_ON_STATE ∧
      (subscriber_task_loop (notify_subscriber DEVICE_ON_STATE State.initial)).map
          (fun s2 => (s2.since (notify_subscriber DEVICE_ON_STATE State.initial),
            s2.current_device_state, s2.subscriber_notification)) =
        some ([Event.cyhal_gpio_write_led DEVICE_ON_STATE], DEVICE_ON_STATE, none) ∧
      (System.initial.run [.subscriber_task EXIT_SUCCESS,
        .mqtt_subscription_callback (literal MQTT_DEVICE_ON_MESSAGE) 7,
        .subscriber_task_loop]).state.current_device_state = DEVICE_ON_STATE :=
  ⟨rfl,
    (C24_subscriber_applies_command System.initial [] (notify_subscriber DEVICE_ON_STATE
      State.initial)).1 DEVICE_ON_STATE rfl,
    (C24_subscriber_applies_command System.initial [.subscriber_task EXIT_SUCCESS,
      .mqtt_subscription_callback (literal MQTT_DEVICE_ON_MESSAGE) 7,
      .subscriber_task_loop] State.initial).2.1⟩

end MqttClient
